import Mathlib

/-!
# BlueTrust: project approval, credit ledger and marketplace settlement

A shallow embedding of the application logic of `frontend/js/app.js` and of the class
`SatelliteSimulator` of `frontend/js/satellite-simulation.js`.

Modelling conventions.
* JavaScript numbers: whole quantities (credit balances, quantities) are integers and
  fractional quantities (areas, coordinates, ratings, vegetation indices) are
  rationals. A rational stands for the double nearest to it (`toDouble`). Where the
  program floors or rounds a product or a quotient (the credit formula of
  `approveProject`, the "Expected Credits" figure, the area encoding of the wallet
  layer), every operand and every operation is rounded to the nearest double, a tie
  going to the even significand, as IEEE 754 binary64 arithmetic does; the overflow to
  `Infinity` (magnitudes from `2 ^ 1024` on) is not modelled. The index arithmetic of
  the satellite simulator is kept exact: what is proved about it (the clamp, the class
  intervals, the dependence on the draws) does not rest on the rounding. A number that
  may be `NaN` (the result of `parseInt`) is an `Option Int`, with `none` standing for
  `NaN`.
* The global variables `currentUser`, `projects`, `companies`, `ngos`,
  `governmentUsers` form the record `State`; every function of the program that
  reads or writes them takes a `State` and returns the new `State` together with
  what the user is shown (`Outcome`).
* `arr.find(p)` followed by assignments to the fields of the object found is
  `List.find?` for the lookup and `updateFirst` for the write: the object mutated is
  the first element of the array that satisfies `p`.
* What the browser and the other scripts supply (the text of a form field, the answer
  to a `confirm` dialog, the result of the satellite simulator, the behaviour of the
  wallet call) is an explicit argument.
* The results of `Math.random()` are an explicit sequence of draws, consumed in program
  order; `Math.PI`, `Math.sin`, `Math.cos`, `Math.sqrt` and `Math.atan2` are parameters
  (`JSMath`), so that what is proved about distances holds for every implementation of
  them.
-/

namespace BlueTrust

/-! ## Data model -/

/-- The values taken by the `status` field of a project. -/
inductive Status
  | registered
  | under_review
  | verified
  | rejected
deriving DecidableEq, Repr

/-- The `location` object of a project. -/
structure Location where
  name : String
  lat : ℚ
  lng : ℚ
deriving DecidableEq, Repr

/-- An element of the `projects` array. `txHash` and `mintTxHash` are the properties
added by `submitNewProject` and `approveProject` after a wallet call. -/
structure Project where
  id : String
  name : String
  ngo : String
  ngoId : String
  location : Location
  area : ℚ
  planted : Int
  survival_rate : ℚ
  carbon_credits : Int
  status : Status
  created_date : String
  verified_date : Option String
  description : String
  txHash : Option String
  mintTxHash : Option String
deriving DecidableEq, Repr

/-- An element of the `ngos` array. `credit_price` is `none` when it holds `NaN`. -/
structure NGO where
  id : String
  name : String
  email : String
  registration : String
  location : String
  projects : Int
  total_credits : Int
  available_credits : Int
  rating : ℚ
  credit_price : Option Int
deriving DecidableEq, Repr

/-- An element of the `companies` array. -/
structure Company where
  id : String
  name : String
  email : String
  cin : String
  credits_purchased : Int
  carbon_footprint : Int
  offset_percentage : Int
deriving DecidableEq, Repr

/-- An element of the `governmentUsers` array. -/
structure GovernmentUser where
  id : String
  name : String
  email : String
  department : String
  role : String
  verified_projects : Int
deriving DecidableEq, Repr

/-- The `data` property of `currentUser`: a reference to an element of one of the three
account arrays, given by its position in that array, or `undefined` when the lookup made
at login found nothing. -/
inductive UserData
  | undefined
  | ngo (index : Nat)
  | government (index : Nat)
  | company (index : Nat)
deriving DecidableEq, Repr

/-- The object stored in `currentUser` by `handleLogin`. -/
structure CurrentUser where
  type : String
  id : String
  name : String
  data : UserData
deriving DecidableEq, Repr

/-- The global application state of `app.js`. `none` in `currentUser` and
`currentUserType` is `null`. -/
structure State where
  currentUser : Option CurrentUser
  currentUserType : Option String
  projects : List Project
  companies : List Company
  ngos : List NGO
  governmentUsers : List GovernmentUser
deriving DecidableEq, Repr

/-- What a call shows to the user: nothing (`silent`, a bare `return`), an uncaught
`TypeError` (`threw`), `showError(message)`, or `showSuccess(title, ...)` (also reached
through `showInfo`), where `amount` is the number that the message quotes: `none` when
it quotes no number or quotes `NaN`. -/
inductive Outcome
  | silent
  | threw
  | error (message : String)
  | success (title : String) (amount : Option Int)
deriving DecidableEq, Repr

/-- The wallet step `if (window.web3Manager && window.web3Manager.isConnected) await ...`:
skipped (`unavailable`), awaited and resolved with a transaction, or awaited and
rejected with an error. -/
inductive Web3Call
  | unavailable
  | returns (transactionHash : String)
  | throws (message : String)
deriving DecidableEq, Repr

/-! ## Array helpers -/

/-- Assignment through the reference returned by `arr.find(p)`: the first element
satisfying `p` is replaced by its image under `f`; an array without such an element is
left as it is. -/
def updateFirst {α : Type} (p : α → Bool) (f : α → α) : List α → List α
  | [] => []
  | x :: xs => if p x then f x :: xs else x :: updateFirst p f xs

/-- Assignment through a reference to the element at position `i`. -/
def updateAt {α : Type} (f : α → α) : Nat → List α → List α
  | _, [] => []
  | 0, x :: xs => f x :: xs
  | i + 1, x :: xs => x :: updateAt f i xs

/-- Position of the first element satisfying `p`, the identity of the object that
`arr.find(p)` returns. -/
def findIndex {α : Type} (p : α → Bool) : List α → Option Nat
  | [] => none
  | x :: xs => if p x then some 0 else (findIndex p xs).map (· + 1)

/-- Sum of the integer field `g` over an array, as computed by
`arr.reduce((sum, x) => sum + g(x), 0)`. -/
def sumOf {α : Type} (g : α → Int) : List α → Int
  | [] => 0
  | x :: xs => g x + sumOf g xs

/-! ## Double-precision arithmetic -/

/-- Rounding of a rational to the nearest integer, a tie going to the even integer. -/
def roundHalfEven (t : ℚ) : Int :=
  if t - ⌊t⌋ < 1 / 2 then ⌊t⌋
  else if 1 / 2 < t - ⌊t⌋ then ⌊t⌋ + 1
  else if ⌊t⌋ % 2 = 0 then ⌊t⌋ else ⌊t⌋ + 1

/-- The exponent of the spacing of the doubles around `x`: 52 below the binary exponent
of `x`, and `-1074` throughout the subnormal range. At `x = 0` the value does not
matter, the rounded value being 0. -/
def ulpExponent (x : ℚ) : Int :=
  max (Int.log 2 |x|) (-1022) - 52

/-- The double that stands for the rational `x` (the Number value for `x` of
ECMAScript): the multiple of the spacing `2 ^ ulpExponent x` nearest to `x`, a tie going
to the even multiple. Every arithmetic operation of JavaScript returns `toDouble` of the
exact result. Magnitudes from `2 ^ 1024` on, which JavaScript turns into `Infinity`, are
rounded like the others. -/
def toDouble (x : ℚ) : ℚ :=
  roundHalfEven (x / 2 ^ ulpExponent x) * 2 ^ ulpExponent x

/-! ## `parseInt` -/

/-- White space and line terminators skipped by `parseInt` at the start of its input. -/
def isStrWhiteSpaceChar (c : Char) : Bool :=
  decide (c.toNat ∈ [9, 10, 11, 12, 13, 32, 160, 5760, 8232, 8233, 8239, 8287, 12288, 65279])
    || (decide (8192 ≤ c.toNat) && decide (c.toNat ≤ 8202))

/-- Value of a character as a digit, for radix up to 16. -/
def digitValue (c : Char) : Option Nat :=
  if decide ('0'.toNat ≤ c.toNat) && decide (c.toNat ≤ '9'.toNat) then some (c.toNat - '0'.toNat)
  else if decide ('a'.toNat ≤ c.toNat) && decide (c.toNat ≤ 'f'.toNat) then some (c.toNat - 'a'.toNat + 10)
  else if decide ('A'.toNat ≤ c.toNat) && decide (c.toNat ≤ 'F'.toNat) then some (c.toNat - 'A'.toNat + 10)
  else none

/-- Whether `c` is a digit of radix `R`. -/
def isRadixDigit (R : Nat) (c : Char) : Bool :=
  match digitValue c with
  | some d => decide (d < R)
  | none => false

/-- The number written by a list of radix-`R` digits. -/
def digitsValue (R : Nat) (Z : List Char) : Nat :=
  Z.foldl (fun acc c => acc * R + (digitValue c).getD 0) 0

/-- JavaScript `parseInt(inputString)` with no radix argument: leading white space is
skipped, an optional sign is read, a `0x` or `0X` prefix selects radix 16 (otherwise 10),
and the longest run of digits is converted; `none` (`NaN`) when that run is empty. -/
def parseInt (inputString : String) : Option Int :=
  let S := inputString.toList.dropWhile isStrWhiteSpaceChar
  let signed : Int × List Char :=
    match S with
    | '-' :: rest => (-1, rest)
    | '+' :: rest => (1, rest)
    | _ => (1, S)
  let radixed : Nat × List Char :=
    match signed.2 with
    | '0' :: 'x' :: rest => (16, rest)
    | '0' :: 'X' :: rest => (16, rest)
    | _ => (10, signed.2)
  let Z := radixed.2.takeWhile (isRadixDigit radixed.1)
  if Z.isEmpty then none else some (signed.1 * (digitsValue radixed.1 Z : Int))

/-! ## Sample data and sessions -/

/-- The globals before `initializeSampleData` runs: `currentUser = null` and empty
arrays. -/
def emptyState : State :=
  { currentUser := none, currentUserType := none, projects := [], companies := [], ngos := [],
    governmentUsers := [] }

/-- The sample NGO `NGO001`, the element of the sample array `ngos`. -/
def sampleNGO : NGO :=
  { id := "NGO001"
    name := "Coastal Conservation Society"
    email := "ngo@demo.com"
    registration := "NG-DEL-12345"
    location := "West Bengal"
    projects := 1
    total_credits := 52
    available_credits := 45
    rating := 4.8
    credit_price := some 2500 }

/-- The sample company `CMP001`, the element of the sample array `companies`. -/
def sampleCompany : Company :=
  { id := "CMP001"
    name := "Green Tech Solutions"
    email := "company@demo.com"
    cin := "U12345AB2020PTC123456"
    credits_purchased := 0
    carbon_footprint := 500
    offset_percentage := 0 }

/-- The sample verifier `GOV001`, the element of the sample array `governmentUsers`. -/
def sampleGovernmentUser : GovernmentUser :=
  { id := "GOV001"
    name := "Dr. Rajesh Kumar"
    email := "gov@demo.com"
    department := "Ministry of Environment"
    role := "verifier"
    verified_projects := 0 }

/-- The sample project `PRJ001`, the element of the sample array `projects`. -/
def sampleProject : Project :=
  { id := "PRJ001"
    name := "Sundarbans Mangrove Restoration"
    ngo := "Coastal Conservation Society"
    ngoId := "NGO001"
    location := { name := "West Bengal, India", lat := 21.9497, lng := 88.9468 }
    area := 5.2
    planted := 2600
    survival_rate := 85
    carbon_credits := 52
    status := Status.verified
    created_date := "2025-09-01"
    verified_date := some "2025-09-08"
    description := "Large-scale mangrove restoration in the Sundarbans delta region focusing on climate resilience and community livelihoods."
    txHash := none
    mintTxHash := none }

/-- The function `initializeSampleData`: assigns the four sample arrays. -/
def initializeSampleData (st : State) : State :=
  { st with
    ngos := [sampleNGO]
    companies := [sampleCompany]
    governmentUsers := [sampleGovernmentUser]
    projects := [sampleProject] }

/-- The state in which the application starts: `initializeSampleData` run on the
initial globals by the `DOMContentLoaded` handler. -/
def sampleState : State := initializeSampleData emptyState

/-- The reference stored in `data` for the account array `arr` and identifier `id`:
`arr.find(x => x.id === id)`. -/
def lookupData {α : Type} (getId : α → String) (mk : Nat → UserData) (id : String)
    (arr : List α) : UserData :=
  match findIndex (fun x => getId x == id) arr with
  | some i => mk i
  | none => UserData.undefined

/-- The table `demoCredentials` of `handleLogin`, read at key `email`. -/
def demoCredentials (st : State) (email : String) : Option CurrentUser :=
  if email == "ngo@demo.com" then
    some { type := "ngo", id := "NGO001", name := "Coastal Conservation Society"
           data := lookupData NGO.id UserData.ngo "NGO001" st.ngos }
  else if email == "gov@demo.com" then
    some { type := "government", id := "GOV001", name := "Dr. Rajesh Kumar"
           data := lookupData GovernmentUser.id UserData.government "GOV001" st.governmentUsers }
  else if email == "company@demo.com" then
    some { type := "company", id := "CMP001", name := "Green Tech Solutions"
           data := lookupData Company.id UserData.company "CMP001" st.companies }
  else none

/-- The function `handleLogin`: a demo account whose password and type match becomes
`currentUser`; anything else shows an error and changes nothing. The Boolean is the
value returned. -/
def handleLogin (st : State) (userType email password : String) : State × Bool :=
  match demoCredentials st email with
  | some userCredential =>
    if password == "demo123" && userCredential.type == userType then
      ({ st with currentUser := some userCredential, currentUserType := some userType }, true)
    else (st, false)
  | none => (st, false)

/-- The function `logout`. -/
def logout (st : State) : State :=
  { st with currentUser := none, currentUserType := none }

/-! ## Project verification -/

/-- The first half of the `try` block of `approveProject`: the assignments to
`survival_rate` and `carbon_credits`. `satelliteSimulator` is `none` when
`window.satelliteSimulator` is absent and `some v` when `verifySatelliteData` resolves
with `vegetationIndex = v`. The credits are
`Math.floor(project.area * 10 * (project.survival_rate / 100))` and
`Math.floor(project.area * 10)`, each product and quotient rounded to a double. -/
def assessProject (project : Project) (satelliteSimulator : Option ℚ) : Project :=
  match satelliteSimulator with
  | some vegetationIndex =>
    let project := { project with survival_rate := vegetationIndex }
    { project with
        carbon_credits :=
          ⌊toDouble (toDouble (toDouble project.area * 10) *
              toDouble (toDouble project.survival_rate / 100))⌋ }
  | none =>
    let project := { project with survival_rate := 85 }
    { project with carbon_credits := ⌊toDouble (toDouble project.area * 10)⌋ }

/-- The credit update of `approveProject`: the first NGO whose id is `ngoId` gets
`amount` added to `total_credits` and to `available_credits`. -/
def creditNGO (ngoId : String) (amount : Int) (ngos : List NGO) : List NGO :=
  updateFirst (fun n => n.id == ngoId)
    (fun ngo => { ngo with total_credits := ngo.total_credits + amount
                           available_credits := ngo.available_credits + amount }) ngos

/-- The function `approveProject(projectId)`. `today` is the date string produced by
`new Date().toISOString().split('T')[0]`. A wallet call that throws is caught after
the assessment has been written to the project and before the status changes. The
display refreshes that follow the success message (`loadVerificationQueue`,
`updateGovernmentStats`) do not touch the state and are left out. -/
def approveProject (st : State) (projectId : String) (satelliteSimulator : Option ℚ)
    (web3 : Web3Call) (today : String) : State × Outcome :=
  match st.projects.find? (fun p => p.id == projectId) with
  | none => (st, Outcome.error "Project not found")
  | some found =>
    let project := assessProject found satelliteSimulator
    match web3 with
    | Web3Call.throws message =>
      ({ st with projects := updateFirst (fun p => p.id == projectId) (fun _ => project) st.projects },
        Outcome.error ("Failed to approve project: " ++ message))
    | _ =>
      let project :=
        match web3 with
        | Web3Call.returns transactionHash => { project with mintTxHash := some transactionHash }
        | _ => project
      let project := { project with status := Status.verified, verified_date := some today }
      ({ st with
          projects := updateFirst (fun p => p.id == projectId) (fun _ => project) st.projects
          ngos := creditNGO project.ngoId project.carbon_credits st.ngos },
        Outcome.success "Project Approved!" (some project.carbon_credits))

/-- The function `rejectProject(projectId)`; `confirmed` is the answer to the `confirm`
dialog. -/
def rejectProject (st : State) (projectId : String) (confirmed : Bool) : State × Outcome :=
  match st.projects.find? (fun p => p.id == projectId) with
  | none => (st, Outcome.silent)
  | some _ =>
    if confirmed then
      ({ st with projects := updateFirst (fun p => p.id == projectId)
                   (fun project => { project with status := Status.rejected }) st.projects },
        Outcome.success "Project Rejected" none)
    else (st, Outcome.silent)

/-! ## Marketplace -/

/-- The part of `purchaseCredits` that runs before the `try` block: the NGO lookup, the
reading and parsing of the quantity field (`quantityInput = none` when the element does
not exist), the validity test and the `confirm` dialog. It yields the quantity to settle,
or the outcome with which the call ends early. -/
def validatePurchase (st : State) (ngoId : String) (quantityInput : Option String)
    (confirmed : Bool) : Except Outcome Int :=
  match st.ngos.find? (fun n => n.id == ngoId) with
  | none => Except.error Outcome.silent
  | some ngo =>
    match quantityInput with
    | none => Except.error Outcome.threw
    | some value =>
      match parseInt value with
      | none => Except.error (Outcome.error "Please enter a valid quantity")
      | some quantity =>
        if quantity == 0 || decide (quantity ≤ 0) || decide (quantity > ngo.available_credits) then
          Except.error (Outcome.error "Please enter a valid quantity")
        else if !confirmed then Except.error Outcome.silent
        else Except.ok quantity

/-- The statement `currentUser.data.credits_purchased += quantity`. It throws a
`TypeError` (`none`) when `currentUser` is `null` or its `data` is `undefined`; on a
company it adds `quantity`; on an NGO or government object it creates a property that
the model does not track. -/
def creditBuyer (st : State) (quantity : Int) : Option (List Company) :=
  match st.currentUser with
  | none => none
  | some user =>
    match user.data with
    | UserData.undefined => none
    | UserData.company i =>
      some (updateAt (fun c => { c with credits_purchased := c.credits_purchased + quantity }) i
        st.companies)
    | _ => some st.companies

/-- The part of `purchaseCredits` that runs after the wallet step: the two balance
updates and the success message. The decrement of `available_credits` has already
happened when the second update throws; the `catch` block then shows the error, whose
text after the colon is the `TypeError` message of the JavaScript engine. The display
refreshes that follow the success message (`loadMarketplace`, `updateCompanyStats`) do
not touch the state and are left out. -/
def settlePurchase (st : State) (ngoId : String) (quantity : Int) : State × Outcome :=
  let ngos := updateFirst (fun n => n.id == ngoId)
    (fun ngo => { ngo with available_credits := ngo.available_credits - quantity }) st.ngos
  match creditBuyer st quantity with
  | none =>
    ({ st with ngos := ngos },
      Outcome.error "Failed to purchase credits: Cannot read properties of null")
  | some companies =>
    ({ st with ngos := ngos, companies := companies }, Outcome.success "Purchase Successful!" (some quantity))

/-- The `try` block of `purchaseCredits` from the wallet step on: a wallet call that
throws is caught before any balance changes. -/
def resumePurchase (st : State) (ngoId : String) (quantity : Int) (web3 : Web3Call) :
    State × Outcome :=
  match web3 with
  | Web3Call.throws message => (st, Outcome.error ("Failed to purchase credits: " ++ message))
  | _ => settlePurchase st ngoId quantity

/-- The function `purchaseCredits(ngoId)` run without interruption. -/
def purchaseCredits (st : State) (ngoId : String) (quantityInput : Option String)
    (confirmed : Bool) (web3 : Web3Call) : State × Outcome :=
  match validatePurchase st ngoId quantityInput confirmed with
  | Except.error outcome => (st, outcome)
  | Except.ok quantity => resumePurchase st ngoId quantity web3

/-- One request to `purchaseCredits`: the text of the quantity field, the answer to the
`confirm` dialog and the behaviour of the wallet step. -/
structure PurchaseCall where
  quantityInput : Option String
  confirmed : Bool
  web3 : Web3Call
deriving DecidableEq, Repr

/-- Calls of `purchaseCredits` for one NGO run one after another; the outcomes are
listed in call order. -/
def runPurchases (st : State) (ngoId : String) : List PurchaseCall → State × List Outcome
  | [] => (st, [])
  | call :: calls =>
    let first := purchaseCredits st ngoId call.quantityInput call.confirmed call.web3
    let rest := runPurchases first.1 ngoId calls
    (rest.1, first.2 :: rest.2)

/-- Two calls of `purchaseCredits` for one NGO, the second started while the first is
suspended at its `await`. A call suspends only when its wallet step is taken (its
`web3` is not `unavailable`) and it passed validation; the second call therefore
validates against the state the first call saw. The continuations run first call first. -/
def purchaseCreditsInterleaved (st : State) (ngoId : String) (first second : PurchaseCall) :
    State × Outcome × Outcome :=
  match validatePurchase st ngoId first.quantityInput first.confirmed with
  | Except.error outcome₁ =>
    let r₂ := purchaseCredits st ngoId second.quantityInput second.confirmed second.web3
    (r₂.1, outcome₁, r₂.2)
  | Except.ok quantity₁ =>
    match first.web3 with
    | Web3Call.unavailable =>
      let r₁ := settlePurchase st ngoId quantity₁
      let r₂ := purchaseCredits r₁.1 ngoId second.quantityInput second.confirmed second.web3
      (r₂.1, r₁.2, r₂.2)
    | _ =>
      match validatePurchase st ngoId second.quantityInput second.confirmed with
      | Except.error outcome₂ =>
        let r₁ := resumePurchase st ngoId quantity₁ first.web3
        (r₁.1, r₁.2, outcome₂)
      | Except.ok quantity₂ =>
        match second.web3 with
        | Web3Call.unavailable =>
          let r₂ := settlePurchase st ngoId quantity₂
          let r₁ := resumePurchase r₂.1 ngoId quantity₁ first.web3
          (r₁.1, r₁.2, r₂.2)
        | _ =>
          let r₁ := resumePurchase st ngoId quantity₁ first.web3
          let r₂ := resumePurchase r₁.1 ngoId quantity₂ second.web3
          (r₂.1, r₁.2, r₂.2)

/-- The function `updateCreditPrice`; `priceInput` is the value of the field
`creditPriceInput`, `none` when the element does not exist. -/
def updateCreditPrice (st : State) (priceInput : Option String) : State × Outcome :=
  match priceInput, st.currentUser with
  | none, _ => (st, Outcome.silent)
  | _, none => (st, Outcome.silent)
  | some value, some user =>
    let newPrice := parseInt value
    if (match newPrice with
        | some v => decide (v < 1000) || decide (v > 10000)
        | none => false) then
      (st, Outcome.error "Price must be between ₹1,000 and ₹10,000")
    else
      let ngos :=
        match user.data with
        | UserData.undefined => st.ngos
        | UserData.ngo i =>
          updateFirst (fun n => n.id == user.id) (fun ngo => { ngo with credit_price := newPrice })
            (updateAt (fun ngo => { ngo with credit_price := newPrice }) i st.ngos)
        | _ =>
          updateFirst (fun n => n.id == user.id) (fun ngo => { ngo with credit_price := newPrice })
            st.ngos
      ({ st with ngos := ngos }, Outcome.success "Price Updated" newPrice)

/-! ## Ledger totals -/

/-- Sum of `total_credits` over all NGOs. -/
def totalMinted (st : State) : Int :=
  sumOf NGO.total_credits st.ngos

/-- Sum of `available_credits` over all NGOs. -/
def totalAvailable (st : State) : Int :=
  sumOf NGO.available_credits st.ngos

/-- Sum of `credits_purchased` over all companies. -/
def totalPurchased (st : State) : Int :=
  sumOf Company.credits_purchased st.companies

/-- The `available_credits` of the NGO that `ngos.find(n => n.id === ngoId)` returns. -/
def availableCredits (st : State) (ngoId : String) : Option Int :=
  (st.ngos.find? (fun n => n.id == ngoId)).map NGO.available_credits

/-- The `total_credits` of the NGO that `ngos.find(n => n.id === ngoId)` returns. -/
def totalCredits (st : State) (ngoId : String) : Option Int :=
  (st.ngos.find? (fun n => n.id == ngoId)).map NGO.total_credits

/-- The quantity a call of `purchaseCredits` sold: the quantity of a successful call,
zero for any other outcome. -/
def soldQuantity : Outcome → Int
  | Outcome.success _ (some quantity) => quantity
  | _ => 0

/-- The state after the demo company has logged in to the sample state. -/
def companySession : State :=
  (handleLogin sampleState "company" "company@demo.com" "demo123").1

/-- The state after the demo NGO has logged in to the sample state. -/
def ngoSession : State :=
  (handleLogin sampleState "ngo" "ngo@demo.com" "demo123").1

/-- A project as `submitNewProject` records it for the demo NGO: status `registered`,
no survival rate, no credits, no verification date. -/
def pendingProject : Project :=
  { id := "PRJ1757500000000"
    name := "Pichavaram Mangrove Belt"
    ngo := "Coastal Conservation Society"
    ngoId := "NGO001"
    location := { name := "Tamil Nadu, India", lat := 11.45, lng := 79.7833 }
    area := 5.2
    planted := 1200
    survival_rate := 0
    carbon_credits := 0
    status := Status.registered
    created_date := "2025-09-10"
    verified_date := none
    description := "Mangrove belt restoration"
    txHash := none
    mintTxHash := none }

/-- The sample state after `pendingProject` has been pushed to `projects`. -/
def pendingState : State :=
  { sampleState with projects := sampleState.projects ++ [pendingProject] }

/-- The `status` of the project that `projects.find(p => p.id === projectId)` returns. -/
def projectStatus (st : State) (projectId : String) : Option Status :=
  (st.projects.find? (fun p => p.id == projectId)).map Project.status

/-- Whether the logged-in user is a company, the session in which the marketplace and
its purchase buttons are shown. -/
def companyLoggedIn (st : State) : Bool :=
  match st.currentUser with
  | some user => user.type == "company"
  | none => false

/-- States the application reaches from the sample state through logins, logouts,
`approveProject` calls and `purchaseCredits` calls made while a company is logged in. -/
inductive Reachable : State → Prop
  | init : Reachable sampleState
  | login (st : State) (userType email password : String) :
      Reachable st → Reachable (handleLogin st userType email password).1
  | logout (st : State) : Reachable st → Reachable (logout st)
  | approve (st : State) (projectId : String) (satelliteSimulator : Option ℚ) (web3 : Web3Call)
      (today : String) :
      Reachable st → Reachable (approveProject st projectId satelliteSimulator web3 today).1
  | purchase (st : State) (ngoId : String) (quantityInput : Option String) (confirmed : Bool)
      (web3 : Web3Call) :
      Reachable st → companyLoggedIn st = true →
      Reachable (purchaseCredits st ngoId quantityInput confirmed web3).1

/-- What every reachable state keeps of the sample accounts: the company array holds
one account, `CMP001`, a logged-in company refers to it, and the NGOs' total credits
exceed the available and purchased credits by the 7 credits of the sample data. -/
def LedgerInv (st : State) : Prop :=
  st.companies.map Company.id = ["CMP001"] ∧
  (∀ user, st.currentUser = some user → user.type = "company" → user.data = UserData.company 0) ∧
  totalMinted st = totalAvailable st + totalPurchased st + 7

/-! ## Project registration -/

/-- The fields of the registration form as `submitNewProject` reads them. `latitude`
and `longitude` are the results of `parseFloat`, `none` standing for `NaN`; `area` and
`treesPlanted` are the numbers that `parseFloat` and `parseInt` return for fields that
hold numerals. -/
structure ProjectForm where
  projectName : String
  location : String
  latitude : Option ℚ
  longitude : Option ℚ
  area : ℚ
  treesPlanted : Int
  description : String
deriving DecidableEq, Repr

/-- The expression `parseFloat(text) || 0`: `NaN` and zero both give zero. -/
def orZero (parsed : Option ℚ) : ℚ :=
  match parsed with
  | some v => if v = 0 then 0 else v
  | none => 0

/-- The object `projectData` that `submitNewProject` builds; `now` is `Date.now()` and
`today` the date string of `new Date()`. -/
def projectData (form : ProjectForm) (user : CurrentUser) (now : Nat) (today : String) :
    Project :=
  { id := "PRJ" ++ toString now
    name := form.projectName
    location := { name := form.location, lat := orZero form.latitude, lng := orZero form.longitude }
    area := form.area
    planted := form.treesPlanted
    description := form.description
    ngoId := user.id
    ngo := user.name
    survival_rate := 0
    carbon_credits := 0
    status := Status.registered
    created_date := today
    verified_date := none
    txHash := none
    mintTxHash := none }

/-- The function `submitNewProject`. The satellite check that precedes the wallet step
only logs its result. Reading `currentUser.id` with nobody logged in throws inside the
`try` block, as does a wallet call that fails; both are caught before `projects.push`.
No field of the form is compared with any bound. -/
def submitNewProject (st : State) (form : ProjectForm) (now : Nat) (today : String)
    (web3 : Web3Call) : State × Outcome :=
  match st.currentUser with
  | none => (st, Outcome.error "Failed to register project: Cannot read properties of null")
  | some user =>
    let data := projectData form user now today
    match web3 with
    | Web3Call.throws message => (st, Outcome.error ("Failed to register project: " ++ message))
    | Web3Call.returns transactionHash =>
      ({ st with projects := st.projects ++ [{ data with txHash := some transactionHash }] },
        Outcome.success "Project Registered Successfully!" none)
    | Web3Call.unavailable =>
      ({ st with projects := st.projects ++ [data] },
        Outcome.success "Project Registered Successfully!" none)

/-- One call of a function that writes to `projects`. -/
inductive Operation
  | submit (form : ProjectForm) (now : Nat) (today : String) (web3 : Web3Call)
  | approve (projectId : String) (satelliteSimulator : Option ℚ) (web3 : Web3Call) (today : String)
  | reject (projectId : String) (confirmed : Bool)

/-- The state after an operation. -/
def applyOperation (st : State) : Operation → State
  | Operation.submit form now today web3 => (submitNewProject st form now today web3).1
  | Operation.approve projectId satelliteSimulator web3 today =>
    (approveProject st projectId satelliteSimulator web3 today).1
  | Operation.reject projectId confirmed => (rejectProject st projectId confirmed).1

/-- The statuses of all projects, in array order. -/
def statuses (st : State) : List Status :=
  st.projects.map Project.status

/-- The status changes an operation makes to an existing project: `submitNewProject`
makes none, `approveProject` makes none or assigns `verified`, `rejectProject` makes none
or assigns `rejected`. -/
def statusMove (op : Operation) (before after : Status) : Prop :=
  match op with
  | Operation.submit _ _ _ _ => after = before
  | Operation.approve _ _ _ _ => after = before ∨ after = Status.verified
  | Operation.reject _ _ => after = before ∨ after = Status.rejected

/-- The statuses of the projects an operation creates: `submitNewProject` creates none or
one project, which is `registered`; the other operations create none. -/
def statusesCreated (op : Operation) (added : List Status) : Prop :=
  match op with
  | Operation.submit _ _ _ _ => added = [] ∨ added = [Status.registered]
  | Operation.approve _ _ _ _ => added = []
  | Operation.reject _ _ => added = []

/-- The `carbon_credits` of the project that `projects.find(p => p.id === projectId)`
returns. -/
def projectCredits (st : State) (projectId : String) : Option Int :=
  (st.projects.find? (fun p => p.id == projectId)).map Project.carbon_credits

/-- A registration form for a 5.2 hectare site at Pichavaram. -/
def sampleForm : ProjectForm :=
  { projectName := "Pichavaram Mangrove Belt"
    location := "Tamil Nadu, India"
    latitude := some 11.45
    longitude := some 79.7833
    area := 5.2
    treesPlanted := 1200
    description := "Mangrove belt restoration" }

/-- The state after the demo NGO has submitted `sampleForm` with no wallet connected. -/
def submittedState : State :=
  (submitNewProject ngoSession sampleForm 1757500000000 "2025-09-10" Web3Call.unavailable).1

/-- The form `sampleForm` with an area of 9 hectares. -/
def nineHectareForm : ProjectForm :=
  { sampleForm with area := 9 }

/-- The state after the demo NGO has submitted `nineHectareForm` with no wallet
connected. -/
def nineHectareState : State :=
  (submitNewProject ngoSession nineHectareForm 1757500000000 "2025-09-10"
    Web3Call.unavailable).1

/-- States reached from the sample state by logins, logouts, `approveProject` calls and
`purchaseCredits` calls, together with the quantity each NGO id has sold so far through
successful purchases. -/
inductive ReachableSold : State → (String → Int) → Prop
  | init : ReachableSold sampleState (fun _ => 0)
  | login (st : State) (sold : String → Int) (userType email password : String) :
      ReachableSold st sold → ReachableSold (handleLogin st userType email password).1 sold
  | logout (st : State) (sold : String → Int) :
      ReachableSold st sold → ReachableSold (logout st) sold
  | approve (st : State) (sold : String → Int) (projectId : String)
      (satelliteSimulator : Option ℚ) (web3 : Web3Call) (today : String) :
      ReachableSold st sold →
      ReachableSold (approveProject st projectId satelliteSimulator web3 today).1 sold
  | purchase (st : State) (sold : String → Int) (ngoId : String)
      (quantityInput : Option String) (confirmed : Bool) (web3 : Web3Call) :
      ReachableSold st sold →
      ReachableSold (purchaseCredits st ngoId quantityInput confirmed web3).1
        (fun id => if id = ngoId then
          sold id + soldQuantity (purchaseCredits st ngoId quantityInput confirmed web3).2
        else sold id)

/-- A registration form whose area, planted count, latitude and longitude are all out
of range. -/
def outOfRangeForm : ProjectForm :=
  { projectName := "Nowhere"
    location := "Nowhere"
    latitude := some 200
    longitude := some 500
    area := -1
    treesPlanted := -5
    description := "" }

/-- What every state of `ReachableSold` keeps: the NGO array holds the one sample
account, and each NGO's available credits are at most its total credits minus what it
has sold. -/
def SoldInv (st : State) (sold : String → Int) : Prop :=
  st.ngos.map NGO.id = ["NGO001"] ∧
  ∀ ngo ∈ st.ngos, ngo.available_credits ≤ ngo.total_credits - sold ngo.id

/-! ## Satellite simulator (`satellite-simulation.js`) -/

/-- The members of the JavaScript `Math` object that `calculateDistance` calls. Their
values are not computed by the model: every statement about distances holds for all of
them. -/
structure JSMath where
  PI : ℚ
  sin : ℚ → ℚ
  cos : ℚ → ℚ
  sqrt : ℚ → ℚ
  atan2 : ℚ → ℚ → ℚ

/-- The results of successive calls of `Math.random()`: `draws i` is what call number `i`
returns. A function that draws takes the number of the next call and returns it
advanced. -/
abbrev Draws := Nat → ℚ

/-- An element of the array `sampleRegions`. -/
structure Region where
  name : String
  lat : ℚ
  lng : ℚ
  vegetationIndex : ℚ
  trend : String
deriving DecidableEq, Repr

/-- A value of the map `vegetationData`: a region with `lastUpdated` and `confidence`. -/
structure SiteData where
  name : String
  lat : ℚ
  lng : ℚ
  vegetationIndex : ℚ
  trend : String
  lastUpdated : String
  confidence : ℚ
deriving DecidableEq, Repr

/-- The object bound to `baseData`: a value of the map, or the record that
`findClosestRegion` builds when the map is empty, which has a `vegetationIndex`, the
trend "stable" and the confidence 0.85 and nothing else. -/
inductive BaseData
  | site (data : SiteData)
  | fallback (vegetationIndex : ℚ)
deriving DecidableEq, Repr

/-- The property `vegetationIndex` of a base record. -/
def BaseData.vegetationIndex : BaseData → ℚ
  | BaseData.site data => data.vegetationIndex
  | BaseData.fallback vegetationIndex => vegetationIndex

/-- The property `trend` of a base record. -/
def BaseData.trend : BaseData → String
  | BaseData.site data => data.trend
  | BaseData.fallback _ => "stable"

/-- The property `confidence` of a base record. -/
def BaseData.confidence : BaseData → ℚ
  | BaseData.site data => data.confidence
  | BaseData.fallback _ => 0.85

/-- The key of the map `vegetationData`. The program uses the text of latitude and
longitude joined by a comma; two such texts are equal exactly when both numbers are, so
the key is the pair of numbers. -/
abbrev SiteKey := ℚ × ℚ

/-- The method `Map.prototype.set`: the value of an existing key is replaced in place, a
new key is added at the end. -/
def mapSet (key : SiteKey) (value : SiteData) : List (SiteKey × SiteData) → List (SiteKey × SiteData)
  | [] => [(key, value)]
  | entry :: rest =>
    if entry.1 = key then (key, value) :: rest else entry :: mapSet key value rest

/-- The method `Map.prototype.get`; `none` is `undefined`. -/
def mapGet (key : SiteKey) (entries : List (SiteKey × SiteData)) : Option SiteData :=
  (entries.find? (fun entry => decide (entry.1 = key))).map Prod.snd

/-- The values of a map in insertion order, as `forEach` visits them. -/
def mapValues (entries : List (SiteKey × SiteData)) : List SiteData :=
  entries.map Prod.snd

/-- The instance state of the class `SatelliteSimulator`. -/
structure SatelliteSimulator where
  vegetationData : List (SiteKey × SiteData)
deriving DecidableEq, Repr

/-- The `changeDetection` object of a verification result. -/
structure ChangeDetection where
  type : String
  confidence : ℚ
  area_changed_hectares : ℚ
  description : String
deriving DecidableEq, Repr

/-- The `imagery` object of a verification result; `acquisitionAge` is the number of
milliseconds that `acquisitionDate` lies before the time of the call. -/
structure Imagery where
  resolution : String
  cloudCover : ℚ
  acquisitionAge : ℚ
deriving DecidableEq, Repr

/-- The object returned by `generateSatelliteVerification`. -/
structure SatelliteVerification where
  success : Bool
  latitude : ℚ
  longitude : ℚ
  vegetationIndex : Int
  confidence : ℚ
  areaVerified : ℚ
  changeDetection : ChangeDetection
  timestamp : String
  source : String
  imagery : Imagery
deriving DecidableEq, Repr

namespace SatelliteSimulator

/-- The array `sampleRegions` of `initializeSampleData`. -/
def sampleRegions : List Region :=
  [{ name := "Sundarbans, West Bengal", lat := 21.9497, lng := 88.9468, vegetationIndex := 85
     trend := "increasing" },
   { name := "Bhitarkanika, Odisha", lat := 20.4500, lng := 86.9000, vegetationIndex := 78
     trend := "stable" },
   { name := "Pichavaram, Tamil Nadu", lat := 11.4500, lng := 79.7833, vegetationIndex := 82
     trend := "increasing" },
   { name := "Kori Creek, Gujarat", lat := 23.0167, lng := 68.9667, vegetationIndex := 72
     trend := "decreasing" },
   { name := "Godavari Delta, Andhra Pradesh", lat := 16.2500, lng := 81.7500, vegetationIndex := 79
     trend := "stable" }]

/-- The method `initializeSampleData`: every sample region is stored under its
coordinates with `lastUpdated` (the time of the call) and confidence 0.94. -/
def initializeSampleData (sim : SatelliteSimulator) (lastUpdated : String) : SatelliteSimulator :=
  { sim with
    vegetationData := sampleRegions.foldl
      (fun entries region =>
        mapSet (region.lat, region.lng)
          { name := region.name, lat := region.lat, lng := region.lng
            vegetationIndex := region.vegetationIndex, trend := region.trend
            lastUpdated := lastUpdated, confidence := 0.94 } entries)
      sim.vegetationData }

/-- The constructor: an empty map filled by `initializeSampleData`. -/
def new (lastUpdated : String) : SatelliteSimulator :=
  initializeSampleData { vegetationData := [] } lastUpdated

/-- The method `calculateDistance`. -/
def calculateDistance (M : JSMath) (lat1 lng1 lat2 lng2 : ℚ) : ℚ :=
  let R : ℚ := 6371
  let dLat := (lat2 - lat1) * M.PI / 180
  let dLng := (lng2 - lng1) * M.PI / 180
  let a := M.sin (dLat / 2) * M.sin (dLat / 2) +
    M.cos (lat1 * M.PI / 180) * M.cos (lat2 * M.PI / 180) *
    M.sin (dLng / 2) * M.sin (dLng / 2)
  let c := 2 * M.atan2 (M.sqrt a) (M.sqrt (1 - a))
  R * c

/-- The `forEach` loop of `findClosestRegion` from a given element on: `closest` and
`minDistance` are the two variables of the loop, `minDistance = none` standing for
`Infinity`; `distance` gives each value its distance to the target. -/
def closestLoop (distance : SiteData → ℚ) :
    List SiteData → Option SiteData → Option ℚ → Option SiteData
  | [], closest, _ => closest
  | data :: rest, closest, minDistance =>
    if (match minDistance with
        | none => true
        | some m => decide (distance data < m)) then
      closestLoop distance rest (some data) (some (distance data))
    else closestLoop distance rest closest minDistance

/-- The method `findClosestRegion`. The default record draws its index only when the
loop found nothing. -/
def findClosestRegion (M : JSMath) (sim : SatelliteSimulator) (targetLat targetLng : ℚ)
    (draws : Draws) (next : Nat) : BaseData × Nat :=
  match closestLoop (fun data => calculateDistance M targetLat targetLng data.lat data.lng)
      (mapValues sim.vegetationData) none none with
  | some closest => (BaseData.site closest, next)
  | none => (BaseData.fallback (70 + draws next * 20), next + 1)

/-- The function `Math.round`: the nearest integer, a half rounding up. -/
def mathRound (x : ℚ) : Int :=
  ⌊x + 1 / 2⌋

/-- The method `calculateVegetationIndex`; `baseData = none` is a missing base record.
`x || 75` replaces a zero or missing index by 75. -/
def calculateVegetationIndex (baseData : Option BaseData) (area : ℚ) (draws : Draws)
    (next : Nat) : Int × Nat :=
  let baseIndex : ℚ :=
    match baseData with
    | some base => if base.vegetationIndex = 0 then 75 else base.vegetationIndex
    | none => 75
  let areaFactor : ℚ := max 0.9 (1 - area * 0.02)
  let randomFactor : ℚ := 0.95 + draws next * 0.1
  let trended : ℚ × Nat :=
    if baseData.map BaseData.trend = some "increasing" then
      (baseIndex + draws (next + 1) * 5, next + 2)
    else if baseData.map BaseData.trend = some "decreasing" then
      (baseIndex - draws (next + 1) * 3, next + 2)
    else (baseIndex, next + 1)
  let finalIndex : Int := mathRound (trended.1 * areaFactor * randomFactor)
  (max 50 (min 95 finalIndex), trended.2)

/-- The method `getChangeDescription`. -/
def getChangeDescription (changeType : String) : String :=
  if changeType = "restoration" then
    "New vegetation growth detected, consistent with mangrove restoration activities"
  else if changeType = "deforestation" then "Vegetation loss detected in monitored area"
  else if changeType = "no_change" then "Stable vegetation cover with no significant changes"
  else if changeType = "seasonal_variation" then
    "Changes appear to be seasonal vegetation patterns"
  else "Analysis completed"

/-- The array `changeTypes` of `detectChanges`. -/
def changeTypes : List String :=
  ["restoration", "deforestation", "no_change", "seasonal_variation"]

/-- The array `weights` of `detectChanges`. -/
def weights : List ℚ :=
  [0.4, 0.1, 0.3, 0.2]

/-- The `for` loop of `detectChanges` from a given index on: the change type at which
`randomValue <= cumulativeWeight` first holds, `none` when the loop runs to its end. -/
def detectLoop (randomValue : ℚ) : List String → List ℚ → ℚ → Option String
  | changeType :: types, weight :: rest, cumulativeWeight =>
    if randomValue ≤ cumulativeWeight + weight then some changeType
    else detectLoop randomValue types rest (cumulativeWeight + weight)
  | _, _, _ => none

/-- The method `detectChanges`: one draw selects the type; a return from inside the loop
makes two more draws, the return after the loop none. -/
def detectChanges (draws : Draws) (next : Nat) : ChangeDetection × Nat :=
  match detectLoop (draws next) changeTypes weights 0 with
  | some changeType =>
    ({ type := changeType
       confidence := 0.8 + draws (next + 1) * 0.15
       area_changed_hectares := draws (next + 2) * 2
       description := getChangeDescription changeType }, next + 3)
  | none =>
    ({ type := "no_change"
       confidence := 0.85
       area_changed_hectares := 0
       description := "No significant changes detected" }, next + 1)

/-- The first statements of `generateSatelliteVerification`: the record stored under the
target's own coordinates, or else the result of `findClosestRegion`. -/
def selectBaseData (M : JSMath) (sim : SatelliteSimulator) (lat lng : ℚ) (draws : Draws)
    (next : Nat) : BaseData × Nat :=
  match mapGet (lat, lng) sim.vegetationData with
  | some data => (BaseData.site data, next)
  | none => findClosestRegion M sim lat lng draws next

/-- The method `generateSatelliteVerification`; `timestamp` is the text of the time of
the call. The draws are made in the order of the program: base record, vegetation index,
change detection, cloud cover, acquisition date. -/
def generateSatelliteVerification (M : JSMath) (sim : SatelliteSimulator) (lat lng area : ℚ)
    (draws : Draws) (timestamp : String) : SatelliteVerification :=
  let base := selectBaseData M sim lat lng draws 0
  let index := calculateVegetationIndex (some base.1) area draws base.2
  let change := detectChanges draws index.2
  { success := true
    latitude := lat
    longitude := lng
    vegetationIndex := index.1
    confidence := if base.1.confidence = 0 then 0.88 else base.1.confidence
    areaVerified := area
    changeDetection := change.1
    timestamp := timestamp
    source := "BlueTrust Satellite Simulation"
    imagery :=
      { resolution := "10m"
        cloudCover := draws change.2 * 20
        acquisitionAge := draws (change.2 + 1) * 30 * 24 * 60 * 60 * 1000 } }

end SatelliteSimulator

/-- A sequence of draws that are all one half. -/
def halfDraws : Draws := fun _ => 1 / 2

/-- A sequence of draws that are one half for the first eight calls and zero after. -/
def eightHalfDraws : Draws := fun i => if i < 8 then 1 / 2 else 0

/-- The simulator as the page creates it. -/
def sampleSimulator : SatelliteSimulator := SatelliteSimulator.new "2025-09-10T00:00:00.000Z"

/-! ## Marketplace listing and verification queue -/

/-- The array `availableNGOs` of `loadMarketplace`. -/
def availableNGOs (st : State) : List NGO :=
  st.ngos.filter (fun ngo => decide (ngo.available_credits > 0))

/-- What `loadMarketplace` writes into the element `creditMarketplace`: the empty-state
block, or one card per element of `availableNGOs`, in the order of that array. A card is
given by the NGO whose fields it shows. -/
inductive MarketplaceView
  | emptyState
  | cards (listings : List NGO)
deriving DecidableEq, Repr

/-- The NGOs a view lists, in the order of the cards. -/
def MarketplaceView.listings : MarketplaceView → List NGO
  | MarketplaceView.emptyState => []
  | MarketplaceView.cards listings => listings

/-- Whether the card template throws for an NGO: it evaluates
`'★'.repeat(Math.floor(ngo.rating))` and `'☆'.repeat(5 - Math.floor(ngo.rating))`, and
`repeat` throws a `RangeError` for a negative count. -/
def cardThrows (ngo : NGO) : Bool :=
  decide (⌊toDouble ngo.rating⌋ < 0) || decide (5 - ⌊toDouble ngo.rating⌋ < 0)

/-- The function `loadMarketplace`; `marketplace` tells whether the element
`creditMarketplace` exists, and `none` is the early return when it does not. The cards
are built before `innerHTML` is assigned, so a `RangeError` of the template leaves the
element as it was. The function does not sort. -/
def loadMarketplace (st : State) (marketplace : Bool) : Except String (Option MarketplaceView) :=
  if !marketplace then Except.ok none
  else if (availableNGOs st).length = 0 then Except.ok (some MarketplaceView.emptyState)
  else if (availableNGOs st).any cardThrows then Except.error "RangeError: Invalid count value"
  else Except.ok (some (MarketplaceView.cards (availableNGOs st)))

/-- The order the listing is claimed to have: higher rating first and, at equal rating,
lower price first. A price that is `NaN` compares with nothing. -/
def listedBefore (a b : NGO) : Prop :=
  b.rating < a.rating ∨
    (a.rating = b.rating ∧
      match a.credit_price, b.credit_price with
      | some p, some q => p ≤ q
      | _, _ => False)

/-- States the application reaches from the sample state through any sequence of calls
of the functions that write to the global variables: logins, logouts, registrations,
approvals, rejections, purchases (also two overlapping ones) and price updates. -/
inductive ReachableApp : State → Prop
  | init : ReachableApp sampleState
  | login (st : State) (userType email password : String) :
      ReachableApp st → ReachableApp (handleLogin st userType email password).1
  | logout (st : State) : ReachableApp st → ReachableApp (logout st)
  | submit (st : State) (form : ProjectForm) (now : Nat) (today : String) (web3 : Web3Call) :
      ReachableApp st → ReachableApp (submitNewProject st form now today web3).1
  | approve (st : State) (projectId : String) (satelliteSimulator : Option ℚ) (web3 : Web3Call)
      (today : String) :
      ReachableApp st → ReachableApp (approveProject st projectId satelliteSimulator web3 today).1
  | reject (st : State) (projectId : String) (confirmed : Bool) :
      ReachableApp st → ReachableApp (rejectProject st projectId confirmed).1
  | purchase (st : State) (ngoId : String) (quantityInput : Option String) (confirmed : Bool)
      (web3 : Web3Call) :
      ReachableApp st → ReachableApp (purchaseCredits st ngoId quantityInput confirmed web3).1
  | purchaseInterleaved (st : State) (ngoId : String) (first second : PurchaseCall) :
      ReachableApp st → ReachableApp (purchaseCreditsInterleaved st ngoId first second).1
  | updatePrice (st : State) (priceInput : Option String) :
      ReachableApp st → ReachableApp (updateCreditPrice st priceInput).1

/-- The array `pendingProjects` of `loadVerificationQueue`. -/
def pendingProjects (st : State) : List Project :=
  st.projects.filter
    (fun p => decide (p.status = Status.registered) || decide (p.status = Status.under_review))

/-- The figure "Expected Credits" that `loadVerificationQueue` shows for a project:
`Math.floor(project.area * 10)`, the product rounded to a double. -/
def expectedCredits (project : Project) : Int :=
  ⌊toDouble (toDouble project.area * 10)⌋

/-- The constant `areaFactor` of `calculateVegetationIndex`. -/
def areaFactor (area : ℚ) : ℚ :=
  max 0.9 (1 - area * 0.02)

/-! ## Wallet layer (`blockchain-local.js`, `web3-local.js`) -/

/-- The area argument that `BlockchainUtils.registerProject` sends to the contract:
`Math.round(projectData.area * 100)`, the product rounded to a double before
`Math.round` takes the nearest integer. -/
def areaHectaresSent (area : ℚ) : Int :=
  SatelliteSimulator.mathRound (toDouble (toDouble area * 100))

/-- The area that `BlockchainUtils.getAllProjects` computes from the number
`parseInt(project.areaHectares)` read back from the contract: the quotient by 100,
rounded to a double. -/
def areaDecoded (areaHectares : Int) : ℚ :=
  toDouble (toDouble (areaHectares : ℚ) / 100)

/-- Modelled from the spec: the holder account of section 3, with the credits currently
held, the cumulative credits retired and the target offset quantity. The contract
`CarbonCreditToken`, which keeps these balances, is not among the sources. -/
structure HolderAccount where
  held : Int
  retired : Int
  target : Int
deriving DecidableEq, Repr

/-- Modelled from the spec: the error taxonomy of section 7. -/
inductive LedgerError
  | InvalidInput
  | NotFound
  | InvalidTransition
  | AlreadyPending
  | InsufficientBalance
  | OracleUnavailable
  | InvariantViolation
deriving DecidableEq, Repr

/-- Modelled from the spec: the operation `retire(holderId, amount, reason)` of section
4.3, which the missing contract method `retireCredits` implements. The amount must be
positive, else the data is out of range (`InvalidInput`), and at most the held balance,
else `InsufficientBalance`; on success the held balance decreases and the cumulative
retired counter increases by the amount. -/
def retire (holder : HolderAccount) (amount : Int) : Except LedgerError HolderAccount :=
  if amount ≤ 0 then Except.error LedgerError.InvalidInput
  else if amount > holder.held then Except.error LedgerError.InsufficientBalance
  else Except.ok { holder with held := holder.held - amount, retired := holder.retired + amount }

/-- Why a call of `retireCredits` throws: no contract object, no account, or a revert of
the contract call with the ledger's error. -/
inductive RetireFailure
  | contractNotInitialized
  | noAccountConnected
  | blockchainUtilsNotAvailable
  | reverted (error : LedgerError)
deriving DecidableEq, Repr

/-- The method `BlockchainUtils.retireCredits(amount, reason)`: it throws without a
contract or an account and otherwise sends `retireCredits` to the contract for the
caller's account, rethrowing what the contract throws. -/
def BlockchainUtils.retireCredits (contract : Bool) (account : Option String)
    (holder : HolderAccount) (amount : Int) : Except RetireFailure HolderAccount :=
  if !contract then Except.error RetireFailure.contractNotInitialized
  else match account with
    | none => Except.error RetireFailure.noAccountConnected
    | some _ =>
      match retire holder amount with
      | Except.ok after => Except.ok after
      | Except.error error => Except.error (RetireFailure.reverted error)

/-- The method `LocalWeb3Manager.retireCredits(amount, reason)`: it forwards to
`window.blockchainUtils` when that exists. -/
def LocalWeb3Manager.retireCredits (blockchainUtils contract : Bool) (account : Option String)
    (holder : HolderAccount) (amount : Int) : Except RetireFailure HolderAccount :=
  if blockchainUtils then BlockchainUtils.retireCredits contract account holder amount
  else Except.error RetireFailure.blockchainUtilsNotAvailable

/-! ## Restoration site check (`satellite-simulation.js`) -/

/-- An element of the array `knownSites`. -/
structure KnownSite where
  name : String
  lat : ℚ
  lng : ℚ
  radius : ℚ
deriving DecidableEq, Repr

/-- An element of the array `coastalRanges`. -/
structure CoastalRange where
  latMin : ℚ
  latMax : ℚ
  lngMin : ℚ
  lngMax : ℚ
deriving DecidableEq, Repr

/-- The object returned by `validateRestorationSite`; `note` is absent from the object
returned for a known site. -/
structure SiteValidation where
  valid : Bool
  site : String
  distance : ℚ
  suitability : String
  note : Option String
deriving DecidableEq, Repr

namespace SatelliteSimulator

/-- The array `knownSites` of `validateRestorationSite`. -/
def knownSites : List KnownSite :=
  [{ name := "Sundarbans Reserve", lat := 21.9497, lng := 88.9468, radius := 50 },
   { name := "Bhitarkanika Sanctuary", lat := 20.4500, lng := 86.9000, radius := 30 },
   { name := "Pichavaram Mangroves", lat := 11.4500, lng := 79.7833, radius := 15 },
   { name := "Coringa Wildlife Sanctuary", lat := 16.75, lng := 82.25, radius := 25 }]

/-- The array `coastalRanges` of `isCoastalLocation`. -/
def coastalRanges : List CoastalRange :=
  [{ latMin := 8, latMax := 23, lngMin := 68, lngMax := 88 },
   { latMin := 8, latMax := 22, lngMin := 80, lngMax := 95 }]

/-- The method `isCoastalLocation`. -/
def isCoastalLocation (lat lng : ℚ) : Bool :=
  coastalRanges.any (fun range =>
    decide (lat ≥ range.latMin) && decide (lat ≤ range.latMax) &&
    decide (lng ≥ range.lngMin) && decide (lng ≤ range.lngMax))

/-- The method `validateRestorationSite`: the `for` loop returns at the first known site
within its radius; after the loop the coastal check decides. -/
def validateRestorationSite (M : JSMath) (latitude longitude : ℚ) : SiteValidation :=
  match knownSites.find?
      (fun site => decide (calculateDistance M latitude longitude site.lat site.lng ≤ site.radius)) with
  | some site =>
    { valid := true
      site := site.name
      distance := (mathRound (calculateDistance M latitude longitude site.lat site.lng * 100) : ℚ) / 100
      suitability := "high"
      note := none }
  | none =>
    let isCoastal := isCoastalLocation latitude longitude
    { valid := isCoastal
      site := "Coastal Area"
      distance := 0
      suitability := if isCoastal then "medium" else "low"
      note := some (if isCoastal then "Located in coastal region suitable for mangrove restoration"
        else "Location may not be suitable for mangrove restoration") }

end SatelliteSimulator

/-! ## Lemmas on the array helpers -/

theorem find?_updateFirst {α : Type} (p : α → Bool) (f : α → α)
    (hf : ∀ x, p x = true → p (f x) = true) (l : List α) :
    (updateFirst p f l).find? p = (l.find? p).map f := by
  induction l with
  | nil => simp [updateFirst]
  | cons x xs ih =>
    by_cases hx : p x = true
    · simp [updateFirst, hx, List.find?, hf x hx]
    · simp only [Bool.not_eq_true] at hx
      simp [updateFirst, hx, List.find?, ih]

theorem updateFirst_of_forall_false {α : Type} (p : α → Bool) (f : α → α) (l : List α)
    (h : ∀ x ∈ l, p x = false) : updateFirst p f l = l := by
  induction l with
  | nil => rfl
  | cons x xs ih =>
    have hx : p x = false := h x (List.mem_cons_self x xs)
    simp [updateFirst, hx, ih (fun y hy => h y (List.mem_cons_of_mem x hy))]

/-- Shape of an array after `updateFirst`: either no element satisfies `p` and nothing
changed, or the array splits around its first element satisfying `p`, which alone is
replaced. -/
theorem updateFirst_split {α : Type} (p : α → Bool) (f : α → α) (l : List α) :
    ((∀ x ∈ l, p x = false) ∧ l.find? p = none ∧ updateFirst p f l = l) ∨
    ∃ pre x post, l = pre ++ x :: post ∧ (∀ y ∈ pre, p y = false) ∧ p x = true ∧
      l.find? p = some x ∧ updateFirst p f l = pre ++ f x :: post := by
  induction l with
  | nil => left; simp [updateFirst]
  | cons x xs ih =>
    by_cases hx : p x = true
    · right
      exact ⟨[], x, xs, by simp, by simp, hx, by simp [List.find?, hx], by simp [updateFirst, hx]⟩
    · simp only [Bool.not_eq_true] at hx
      rcases ih with ⟨h1, h2, h3⟩ | ⟨pre, y, post, h1, h2, h3, h4, h5⟩
      · left
        refine ⟨?_, ?_, ?_⟩
        · intro z hz
          rcases List.mem_cons.1 hz with rfl | hz
          · exact hx
          · exact h1 z hz
        · simp [List.find?, hx, h2]
        · simp [updateFirst, hx, h3]
      · right
        refine ⟨x :: pre, y, post, by simp [h1], ?_, h3, by simp [List.find?, hx, h4], ?_⟩
        · intro z hz
          rcases List.mem_cons.1 hz with rfl | hz
          · exact hx
          · exact h2 z hz
        · simp [updateFirst, hx, h5]

/-! ## Lemmas on double-precision rounding -/

/-- A rational strictly within one half of an integer rounds to it. -/
theorem roundHalfEven_of_lt (t : ℚ) (m : Int) (h1 : (m : ℚ) - 1 / 2 < t)
    (h2 : t < m + 1 / 2) : roundHalfEven t = m := by
  unfold roundHalfEven
  by_cases h : t < m
  · have hf : ⌊t⌋ = m - 1 := by
      rw [Int.floor_eq_iff]
      push_cast
      constructor <;> linarith
    rw [hf]
    push_cast
    have c1 : ¬ (t - ((m : ℚ) - 1) < 1 / 2) := by linarith
    have c2 : 1 / 2 < t - ((m : ℚ) - 1) := by linarith
    simp only [c1, c2, if_true, if_false]
    ring
  · have hf : ⌊t⌋ = m := by
      rw [Int.floor_eq_iff]
      constructor <;> linarith
    rw [hf]
    have c1 : t - (m : ℚ) < 1 / 2 := by linarith
    simp only [c1, if_true]

theorem roundHalfEven_error (t : ℚ) : |(roundHalfEven t : ℚ) - t| ≤ 1 / 2 := by
  have h1 : (⌊t⌋ : ℚ) ≤ t := Int.floor_le t
  have h2 : t < ⌊t⌋ + 1 := Int.lt_floor_add_one t
  unfold roundHalfEven
  rw [abs_le]
  split_ifs with c1 c2 c3
  · constructor <;> linarith
  · push_cast
    constructor <;> linarith
  · constructor <;> linarith
  · push_cast
    constructor <;> linarith

theorem roundHalfEven_nonneg (t : ℚ) (h : 0 ≤ t) : 0 ≤ roundHalfEven t := by
  have h1 : 0 ≤ ⌊t⌋ := Int.floor_nonneg.mpr h
  unfold roundHalfEven
  split_ifs <;> omega

theorem roundHalfEven_nonpos (t : ℚ) (h : t ≤ 0) : roundHalfEven t ≤ 0 := by
  have h0 : ⌊t⌋ ≤ 0 := by
    have := Int.floor_le_floor h
    simpa using this
  by_cases hz : ⌊t⌋ = 0
  · have ht : t = 0 := by
      have h1 : (⌊t⌋ : ℚ) ≤ t := Int.floor_le t
      rw [hz] at h1
      push_cast at h1
      linarith
    subst ht
    simp [roundHalfEven]
  · have : ⌊t⌋ ≤ -1 := by omega
    unfold roundHalfEven
    split_ifs <;> omega

theorem ulpExponent_eq (x : ℚ) (e : Int) (h1 : (2 : ℚ) ^ e ≤ |x|) (h2 : |x| < 2 ^ (e + 1))
    (he : -1022 ≤ e) : ulpExponent x = e - 52 := by
  have hpos : 0 < |x| := lt_of_lt_of_le (by positivity) h1
  have hle : e ≤ Int.log 2 |x| := (Int.zpow_le_iff_le_log (by norm_num) hpos).mp (by exact_mod_cast h1)
  have hlt : Int.log 2 |x| < e + 1 := (Int.lt_zpow_iff_log_lt (by norm_num) hpos).mp (by exact_mod_cast h2)
  unfold ulpExponent
  omega

/-- How `toDouble` is evaluated: `x` lies in the binade of exponent `e` and `x` divided by
the spacing lies strictly within one half of the integer `m`. -/
theorem toDouble_eq (x : ℚ) (e m : Int) (h1 : (2 : ℚ) ^ e ≤ |x|) (h2 : |x| < 2 ^ (e + 1))
    (he : -1022 ≤ e) (hm1 : (m : ℚ) - 1 / 2 < x / 2 ^ (e - 52))
    (hm2 : x / 2 ^ (e - 52) < m + 1 / 2) : toDouble x = m * 2 ^ (e - 52) := by
  unfold toDouble
  rw [ulpExponent_eq x e h1 h2 he, roundHalfEven_of_lt _ m hm1 hm2]

theorem toDouble_nonneg (x : ℚ) (h : 0 ≤ x) : 0 ≤ toDouble x := by
  unfold toDouble
  have h1 : 0 ≤ roundHalfEven (x / 2 ^ ulpExponent x) :=
    roundHalfEven_nonneg _ (div_nonneg h (by positivity))
  have h2 : (0 : ℚ) ≤ (roundHalfEven (x / 2 ^ ulpExponent x) : ℚ) := by exact_mod_cast h1
  exact mul_nonneg h2 (by positivity)

theorem toDouble_nonpos (x : ℚ) (h : x ≤ 0) : toDouble x ≤ 0 := by
  unfold toDouble
  have h1 : roundHalfEven (x / 2 ^ ulpExponent x) ≤ 0 :=
    roundHalfEven_nonpos _ (div_nonpos_of_nonpos_of_nonneg h (by positivity))
  have h2 : (roundHalfEven (x / 2 ^ ulpExponent x) : ℚ) ≤ 0 := by exact_mod_cast h1
  exact mul_nonpos_of_nonpos_of_nonneg h2 (by positivity)

/-- The rounding error of `toDouble` is at most half the spacing. -/
theorem toDouble_error_ulp (x : ℚ) : |toDouble x - x| ≤ 2 ^ ulpExponent x / 2 := by
  have hu : (0 : ℚ) < 2 ^ ulpExponent x := by positivity
  have h := roundHalfEven_error (x / 2 ^ ulpExponent x)
  have heq : toDouble x - x =
      ((roundHalfEven (x / 2 ^ ulpExponent x) : ℚ) - x / 2 ^ ulpExponent x) * 2 ^ ulpExponent x := by
    unfold toDouble
    field_simp
  rw [heq, abs_mul, abs_of_pos hu]
  calc |(roundHalfEven (x / 2 ^ ulpExponent x) : ℚ) - x / 2 ^ ulpExponent x| * 2 ^ ulpExponent x
      ≤ 1 / 2 * 2 ^ ulpExponent x := mul_le_mul_of_nonneg_right h (le_of_lt hu)
    _ = 2 ^ ulpExponent x / 2 := by ring

/-- The rounding error of `toDouble`: a relative error of at most `2 ^ (-53)`, and an
absolute error of at most `2 ^ (-1075)` in the subnormal range. -/
theorem toDouble_error (x : ℚ) : |toDouble x - x| ≤ |x| / 2 ^ 53 + 1 / 2 ^ 1075 := by
  by_cases h0 : x = 0
  · subst h0
    have hz : toDouble 0 = 0 := by simp [toDouble, roundHalfEven]
    rw [hz]
    simp
  refine le_trans (toDouble_error_ulp x) ?_
  by_cases hx : (2 : ℚ) ^ (-1022 : Int) ≤ |x|
  · have hpos : 0 < |x| := lt_of_lt_of_le (by positivity) hx
    have hlog : (-1022 : Int) ≤ Int.log 2 |x| :=
      (Int.zpow_le_iff_le_log (by norm_num) hpos).mp (by exact_mod_cast hx)
    have hu : ulpExponent x = Int.log 2 |x| - 52 := by
      unfold ulpExponent
      omega
    have hle : ((2 : ℕ) : ℚ) ^ Int.log 2 |x| ≤ |x| := Int.zpow_log_le_self (by norm_num) hpos
    have h2 : (2 : ℚ) ^ (Int.log 2 |x| - 52) = 2 ^ Int.log 2 |x| / 2 ^ 52 := by
      rw [zpow_sub₀ (by norm_num)]
      norm_num
    rw [hu, h2]
    have h3 : (2 : ℚ) ^ Int.log 2 |x| ≤ |x| := by exact_mod_cast hle
    have h4 : (2 : ℚ) ^ Int.log 2 |x| / 2 ^ 52 / 2 ≤ |x| / 2 ^ 53 := by
      rw [div_div, div_le_div_iff₀ (by positivity) (by positivity)]
      nlinarith [h3]
    have h5 : (0 : ℚ) ≤ 1 / 2 ^ 1075 := by positivity
    linarith
  · have hu : ulpExponent x = -1074 := by
      unfold ulpExponent
      have hpos : 0 < |x| := abs_pos.mpr h0
      have hlt : Int.log 2 |x| < -1022 :=
        (Int.lt_zpow_iff_log_lt (by norm_num) hpos).mp (by exact_mod_cast not_le.mp hx)
      omega
    rw [hu]
    have h2 : (2 : ℚ) ^ (-1074 : Int) / 2 = 1 / 2 ^ 1075 := by
      rw [zpow_neg]
      norm_num
    rw [h2]
    have h5 : (0 : ℚ) ≤ |x| / 2 ^ 53 := by positivity
    linarith

theorem toDouble_area_sample : toDouble (5.2) = 5854679515581645 / 2 ^ 50 := by
  rw [toDouble_eq (5.2) (2) 5854679515581645
    (by norm_num [abs_of_pos]) (by norm_num [abs_of_pos])
    (by norm_num) (by norm_num) (by norm_num)]
  norm_num

theorem toDouble_area_sample_times_ten : toDouble (5854679515581645 / 2 ^ 50 * 10) = 52 := by
  rw [toDouble_eq (5854679515581645 / 2 ^ 50 * 10) (5) 7318349394477056
    (by norm_num [abs_of_pos]) (by norm_num [abs_of_pos])
    (by norm_num) (by norm_num) (by norm_num)]
  norm_num

theorem toDouble_85 : toDouble (85) = 85 := by
  rw [toDouble_eq (85) (6) 5981343255101440
    (by norm_num [abs_of_pos]) (by norm_num [abs_of_pos])
    (by norm_num) (by norm_num) (by norm_num)]
  norm_num

theorem toDouble_ratio_85 : toDouble (85 / 100) = 7656119366529843 / 2 ^ 53 := by
  rw [toDouble_eq (85 / 100) (-1) 7656119366529843
    (by norm_num [abs_of_pos]) (by norm_num [abs_of_pos])
    (by norm_num) (by norm_num) (by norm_num)]
  norm_num

theorem toDouble_credits_sample :
    toDouble (52 * (7656119366529843 / 2 ^ 53)) = 6220596985305497 / 2 ^ 47 := by
  rw [toDouble_eq (52 * (7656119366529843 / 2 ^ 53)) (5) 6220596985305497
    (by norm_num [abs_of_pos]) (by norm_num [abs_of_pos])
    (by norm_num) (by norm_num) (by norm_num)]
  norm_num

theorem toDouble_9 : toDouble (9) = 9 := by
  rw [toDouble_eq (9) (3) 5066549580791808
    (by norm_num [abs_of_pos]) (by norm_num [abs_of_pos])
    (by norm_num) (by norm_num) (by norm_num)]
  norm_num

theorem toDouble_90 : toDouble (9 * 10) = 90 := by
  rw [toDouble_eq (9 * 10) (6) 6333186975989760
    (by norm_num [abs_of_pos]) (by norm_num [abs_of_pos])
    (by norm_num) (by norm_num) (by norm_num)]
  norm_num

theorem toDouble_70 : toDouble (70) = 70 := by
  rw [toDouble_eq (70) (6) 4925812092436480
    (by norm_num [abs_of_pos]) (by norm_num [abs_of_pos])
    (by norm_num) (by norm_num) (by norm_num)]
  norm_num

theorem toDouble_ratio_70 : toDouble (70 / 100) = 3152519739159347 / 2 ^ 52 := by
  rw [toDouble_eq (70 / 100) (-1) 6305039478318694
    (by norm_num [abs_of_pos]) (by norm_num [abs_of_pos])
    (by norm_num) (by norm_num) (by norm_num)]
  norm_num

theorem toDouble_credits_nine :
    toDouble (90 * (3152519739159347 / 2 ^ 52)) = 8866461766385663 / 2 ^ 47 := by
  rw [toDouble_eq (90 * (3152519739159347 / 2 ^ 52)) (5) 8866461766385663
    (by norm_num [abs_of_pos]) (by norm_num [abs_of_pos])
    (by norm_num) (by norm_num) (by norm_num)]
  norm_num

/-- An integer rounds to itself. -/
theorem roundHalfEven_intCast (z : Int) : roundHalfEven (z : ℚ) = z :=
  roundHalfEven_of_lt _ z (by linarith) (by linarith)

/-- Integers of magnitude below `2 ^ 53` are doubles. -/
theorem toDouble_intCast (n : Int) (h : |n| < 2 ^ 53) : toDouble (n : ℚ) = n := by
  by_cases h0 : n = 0
  · subst h0
    simp [toDouble, roundHalfEven]
  have hpos : (0 : ℚ) < |(n : ℚ)| := abs_pos.mpr (by exact_mod_cast h0)
  have h1 : (1 : ℚ) ≤ |(n : ℚ)| := by
    have : (1 : Int) ≤ |n| := Int.one_le_abs h0
    exact_mod_cast this
  have hq : |(n : ℚ)| < 2 ^ 53 := by exact_mod_cast h
  have hlog0 : (0 : Int) ≤ Int.log 2 |(n : ℚ)| :=
    (Int.zpow_le_iff_le_log (by norm_num) hpos).mp (by simpa using h1)
  have hlog1 : Int.log 2 |(n : ℚ)| < 53 :=
    (Int.lt_zpow_iff_log_lt (by norm_num) hpos).mp (by
      have h2 : ((2 : ℕ) : ℚ) ^ (53 : Int) = 2 ^ 53 := by norm_num
      rw [h2]
      exact hq)
  obtain ⟨j, hj⟩ : ∃ j : ℕ, ulpExponent (n : ℚ) = -(j : Int) := by
    refine ⟨(52 - Int.log 2 |(n : ℚ)|).toNat, ?_⟩
    unfold ulpExponent
    rw [Int.toNat_of_nonneg (by omega)]
    omega
  unfold toDouble
  rw [hj, zpow_neg, zpow_natCast]
  have hcast : (n : ℚ) / (2 ^ j)⁻¹ = ((n * 2 ^ j : Int) : ℚ) := by
    push_cast
    field_simp
  rw [hcast, roundHalfEven_intCast]
  push_cast
  field_simp

/-- The rounding error of `toDouble` for a number of magnitude at most `B`. -/
theorem toDouble_error_le (x B : ℚ) (hB : |x| ≤ B) :
    |toDouble x - x| ≤ B / 2 ^ 53 + 1 / 2 ^ 60 := by
  have h := toDouble_error x
  have h1 : |x| / 2 ^ 53 ≤ B / 2 ^ 53 := div_le_div_of_nonneg_right hB (by positivity)
  have h2 : (1 : ℚ) / 2 ^ 1075 ≤ 1 / 2 ^ 60 := by norm_num
  linarith


/-- The credits computed in doubles against the exact formula: for areas up to `10 ^ 9`
hectares and indices from 0 to 100 the product rounded at each step is within
`2 ^ (-15)` of `area * 10 * s / 100`. -/
theorem toDouble_credits_error (area s : ℚ) (ha0 : 0 ≤ area) (ha1 : area ≤ 10 ^ 9)
    (hs0 : 0 ≤ s) (hs1 : s ≤ 100) :
    |toDouble (toDouble (toDouble area * 10) * toDouble (toDouble s / 100)) -
      area * 10 * s / 100| ≤ 1 / 2 ^ 15 := by
  have ea := toDouble_error_le area (10 ^ 9) (by rw [abs_of_nonneg ha0]; exact ha1)
  have a0 := toDouble_nonneg area ha0
  generalize toDouble area = a at ea a0 ⊢
  rw [abs_le] at ea
  have a1 : a ≤ 10 ^ 9 + 1 := by
    norm_num at ea ⊢
    linarith
  have eT := toDouble_error_le (a * 10) (10 ^ 10 + 10)
    (by rw [abs_of_nonneg (by positivity)]; linarith)
  have T0 := toDouble_nonneg (a * 10) (by positivity)
  generalize toDouble (a * 10) = T at eT T0 ⊢
  rw [abs_le] at eT
  have es := toDouble_error_le s 100 (by rw [abs_of_nonneg hs0]; exact hs1)
  have s0 := toDouble_nonneg s hs0
  generalize toDouble s = s1 at es s0 ⊢
  rw [abs_le] at es
  have s1le : s1 ≤ 101 := by
    norm_num at es ⊢
    linarith
  have eR := toDouble_error_le (s1 / 100) 2
    (by rw [abs_of_nonneg (by positivity)]; linarith)
  have R0 := toDouble_nonneg (s1 / 100) (by positivity)
  generalize toDouble (s1 / 100) = R at eR R0 ⊢
  rw [abs_le] at eR
  have R1 : R ≤ 2 := by
    norm_num at eR ⊢
    linarith
  have T1 : T ≤ 10 ^ 10 + 11 := by
    norm_num at eT ⊢
    linarith
  have hTR0 : 0 ≤ T * R := mul_nonneg T0 R0
  have hTR1 : T * R ≤ (10 ^ 10 + 11) * 2 := mul_le_mul T1 R1 R0 (by positivity)
  have eP := toDouble_error_le (T * R) ((10 ^ 10 + 11) * 2)
    (by rw [abs_of_nonneg hTR0]; exact hTR1)
  generalize toDouble (T * R) = P at eP ⊢
  rw [abs_le] at eP
  -- the exact product against the exact formula
  have hsplit : T * R - area * 10 * s / 100 =
      (T - area * 10) * R + area * 10 * (R - s / 100) := by ring
  have dT1 : T - area * 10 ≤ 1 / 2 ^ 18 := by
    norm_num at ea eT ⊢
    linarith
  have dT0 : -(1 / 2 ^ 18) ≤ T - area * 10 := by
    norm_num at ea eT ⊢
    linarith
  have dR1 : R - s / 100 ≤ 1 / 2 ^ 51 := by
    norm_num at es eR ⊢
    linarith
  have dR0 : -(1 / 2 ^ 51) ≤ R - s / 100 := by
    norm_num at es eR ⊢
    linarith
  have hA0 : 0 ≤ area * 10 := by positivity
  have hA1 : area * 10 ≤ 10 ^ 10 := by linarith
  have p1 : (T - area * 10) * R ≤ 1 / 2 ^ 18 * 2 := by
    calc (T - area * 10) * R ≤ 1 / 2 ^ 18 * R := mul_le_mul_of_nonneg_right dT1 R0
      _ ≤ 1 / 2 ^ 18 * 2 := mul_le_mul_of_nonneg_left R1 (by positivity)
  have p2 : -(1 / 2 ^ 18 * 2) ≤ (T - area * 10) * R := by
    have : -(1 / 2 ^ 18) * R ≤ (T - area * 10) * R := mul_le_mul_of_nonneg_right dT0 R0
    have h2 : (1 : ℚ) / 2 ^ 18 * R ≤ 1 / 2 ^ 18 * 2 :=
      mul_le_mul_of_nonneg_left R1 (by positivity)
    linarith
  have p3 : area * 10 * (R - s / 100) ≤ 10 ^ 10 * (1 / 2 ^ 51) := by
    calc area * 10 * (R - s / 100) ≤ area * 10 * (1 / 2 ^ 51) :=
          mul_le_mul_of_nonneg_left dR1 hA0
      _ ≤ 10 ^ 10 * (1 / 2 ^ 51) := mul_le_mul_of_nonneg_right hA1 (by positivity)
  have p4 : -(10 ^ 10 * (1 / 2 ^ 51)) ≤ area * 10 * (R - s / 100) := by
    have : area * 10 * (-(1 / 2 ^ 51)) ≤ area * 10 * (R - s / 100) :=
      mul_le_mul_of_nonneg_left dR0 hA0
    have h2 : area * 10 * (1 / 2 ^ 51) ≤ 10 ^ 10 * (1 / 2 ^ 51) :=
      mul_le_mul_of_nonneg_right hA1 (by positivity)
    linarith
  rw [abs_le]
  constructor
  · norm_num at eP p1 p2 p3 p4 ⊢
    linarith
  · norm_num at eP p1 p2 p3 p4 ⊢
    linarith


/-- The credits computed in doubles never exceed the double product `area * 10`, floored:
for an area that is not negative and an index of at most 95. -/
theorem toDouble_credits_le_expected (area s : ℚ) (ha : 0 ≤ area) (hs : s ≤ 95) :
    ⌊toDouble (toDouble (toDouble area * 10) * toDouble (toDouble s / 100))⌋ ≤
      ⌊toDouble (toDouble area * 10)⌋ := by
  have a0 := toDouble_nonneg area ha
  generalize toDouble area = a at a0 ⊢
  have T0 := toDouble_nonneg (a * 10) (by positivity)
  generalize toDouble (a * 10) = T at T0 ⊢
  by_cases hs0 : s ≤ 0
  · have s1 := toDouble_nonpos s hs0
    have R1 := toDouble_nonpos (toDouble s / 100)
      (div_nonpos_of_nonpos_of_nonneg s1 (by norm_num))
    have P1 := toDouble_nonpos (T * toDouble (toDouble s / 100))
      (mul_nonpos_of_nonneg_of_nonpos T0 R1)
    exact Int.floor_le_floor (le_trans P1 T0)
  · have hs0 : 0 ≤ s := le_of_lt (not_le.mp hs0)
    have es := toDouble_error_le s 95 (by rw [abs_of_nonneg hs0]; exact hs)
    have s0 := toDouble_nonneg s hs0
    generalize toDouble s = s1 at es s0 ⊢
    rw [abs_le] at es
    have s1le : s1 ≤ 96 := by
      norm_num at es ⊢
      linarith
    have eR := toDouble_error_le (s1 / 100) 1
      (by rw [abs_of_nonneg (by positivity)]; linarith)
    have R0 := toDouble_nonneg (s1 / 100) (by positivity)
    generalize toDouble (s1 / 100) = R at eR R0 ⊢
    rw [abs_le] at eR
    have R1 : R ≤ 97 / 100 := by
      norm_num at eR ⊢
      linarith
    have hTR0 : 0 ≤ T * R := mul_nonneg T0 R0
    have hTR1 : T * R ≤ T * (97 / 100) := mul_le_mul_of_nonneg_left R1 T0
    have eP := toDouble_error (T * R)
    rw [abs_of_nonneg hTR0, abs_le] at eP
    have hη : (1 : ℚ) / 2 ^ 1075 ≤ 1 / 100 := by norm_num
    have h53 : T * R / 2 ^ 53 ≤ T * R / 100 :=
      div_le_div_of_nonneg_left hTR0 (by norm_num) (by norm_num)
    have hP : toDouble (T * R) ≤ T * (98 / 100) + 1 / 100 := by linarith
    by_cases hT : 1 ≤ T
    · exact Int.floor_le_floor (by linarith)
    · have hP1 : toDouble (T * R) < 1 := by linarith
      have hfl : ⌊toDouble (T * R)⌋ < 1 := Int.floor_lt.mpr (by exact_mod_cast hP1)
      have hT0 : 0 ≤ ⌊T⌋ := Int.floor_nonneg.mpr T0
      omega

/-- The area encoding in doubles returns the double of `k / 100`, for `k` up to
`10 ^ 11`. -/
theorem toDouble_area_round_trip (k : Nat) (hk : (k : ℚ) ≤ 10 ^ 11) :
    toDouble (toDouble ((SatelliteSimulator.mathRound
      (toDouble (toDouble ((k : ℚ) / 100) * 100)) : Int) : ℚ) / 100) =
      toDouble ((k : ℚ) / 100) := by
  have hk0 : (0 : ℚ) ≤ (k : ℚ) := by positivity
  have ea := toDouble_error_le ((k : ℚ) / 100) (10 ^ 9)
    (by rw [abs_of_nonneg (by positivity)]; linarith)
  have a0 := toDouble_nonneg ((k : ℚ) / 100) (by positivity)
  have hround : SatelliteSimulator.mathRound (toDouble (toDouble ((k : ℚ) / 100) * 100)) =
      (k : Int) := by
    generalize toDouble ((k : ℚ) / 100) = a at ea a0 ⊢
    rw [abs_le] at ea
    have a1 : a ≤ 10 ^ 9 + 1 := by
      norm_num at ea ⊢
      linarith
    have ep := toDouble_error_le (a * 100) (10 ^ 11 + 100)
      (by rw [abs_of_nonneg (by positivity)]; linarith)
    generalize toDouble (a * 100) = p at ep ⊢
    rw [abs_le] at ep
    unfold SatelliteSimulator.mathRound
    rw [Int.floor_eq_iff]
    push_cast
    norm_num at ea ep ⊢
    constructor <;> linarith
  rw [hround]
  have hint : toDouble (((k : Int) : ℚ)) = ((k : Int) : ℚ) := by
    apply toDouble_intCast
    have h1 : ((k : Int) : ℚ) ≤ 10 ^ 11 := by exact_mod_cast hk
    have h2 : (k : Int) ≤ 10 ^ 11 := by exact_mod_cast h1
    rw [abs_of_nonneg (by positivity)]
    calc (k : Int) ≤ 10 ^ 11 := h2
      _ < 2 ^ 53 := by norm_num
  rw [hint]
  push_cast
  rfl

/-- The area encoding in doubles: for areas from 0 to `10 ^ 9` hectares the decoded
value is within `0.005 + 10 ^ (-6)` of the double of the area. -/
theorem toDouble_area_decoded_error (area : ℚ) (ha0 : 0 ≤ area) (ha1 : area ≤ 10 ^ 9) :
    |toDouble (toDouble ((SatelliteSimulator.mathRound
      (toDouble (toDouble area * 100)) : Int) : ℚ) / 100) - toDouble area| ≤
      5 / 1000 + 1 / 10 ^ 6 := by
  have ea := toDouble_error_le area (10 ^ 9) (by rw [abs_of_nonneg ha0]; exact ha1)
  have a0 := toDouble_nonneg area ha0
  generalize toDouble area = a at ea a0 ⊢
  rw [abs_le] at ea
  have a1 : a ≤ 10 ^ 9 + 1 := by
    norm_num at ea ⊢
    linarith
  have ep := toDouble_error_le (a * 100) (10 ^ 11 + 100)
    (by rw [abs_of_nonneg (by positivity)]; linarith)
  have p0 := toDouble_nonneg (a * 100) (by positivity)
  generalize toDouble (a * 100) = p at ep p0 ⊢
  rw [abs_le] at ep
  have p1 : p ≤ 10 ^ 11 + 101 := by
    norm_num at ep ⊢
    linarith
  have hn0 : 0 ≤ SatelliteSimulator.mathRound p := by
    unfold SatelliteSimulator.mathRound
    exact Int.floor_nonneg.mpr (by linarith)
  have hn1 : ((SatelliteSimulator.mathRound p : Int) : ℚ) ≤ p + 1 / 2 := by
    unfold SatelliteSimulator.mathRound
    exact Int.floor_le _
  have hn2 : p + 1 / 2 < ((SatelliteSimulator.mathRound p : Int) : ℚ) + 1 := by
    unfold SatelliteSimulator.mathRound
    exact Int.lt_floor_add_one _
  generalize SatelliteSimulator.mathRound p = n at hn0 hn1 hn2 ⊢
  have hnq0 : (0 : ℚ) ≤ (n : ℚ) := by exact_mod_cast hn0
  have hnlt : (n : ℚ) < 2 ^ 53 := by
    norm_num at p1 ⊢
    linarith
  have hint : toDouble (n : ℚ) = n := by
    apply toDouble_intCast
    rw [abs_of_nonneg hn0]
    exact_mod_cast hnlt
  rw [hint]
  have ed := toDouble_error_le ((n : ℚ) / 100) (10 ^ 9 + 2)
    (by rw [abs_of_nonneg (by positivity)]; linarith)
  generalize toDouble ((n : ℚ) / 100) = d at ed ⊢
  rw [abs_le] at ed ⊢
  norm_num at ea ep ed ⊢
  constructor <;> linarith


theorem toDouble_area_9050 : toDouble (9050.355) = 2487742639500165 / 2 ^ 38 := by
  rw [toDouble_eq (9050.355) (13) 4975485279000330
    (by norm_num [abs_of_pos]) (by norm_num [abs_of_pos])
    (by norm_num) (by norm_num) (by norm_num)]
  norm_num

theorem toDouble_area_9050_times_100 :
    toDouble (2487742639500165 / 2 ^ 38 * 100) = 1810071 / 2 ^ 1 := by
  rw [toDouble_eq (2487742639500165 / 2 ^ 38 * 100) (19) 7774195748438016
    (by norm_num [abs_of_pos]) (by norm_num [abs_of_pos])
    (by norm_num) (by norm_num) (by norm_num)]
  norm_num

theorem toDouble_905036 : toDouble (((905036 : Int) : ℚ)) = 905036 := by
  rw [toDouble_eq (((905036 : Int) : ℚ)) (19) 7774200043405312
    (by norm_num [abs_of_pos]) (by norm_num [abs_of_pos])
    (by norm_num) (by norm_num) (by norm_num)]
  norm_num

theorem toDouble_905036_over_100 : toDouble (905036 / 100) = 621936003472425 / 2 ^ 36 := by
  rw [toDouble_eq (905036 / 100) (13) 4975488027779400
    (by norm_num [abs_of_pos]) (by norm_num [abs_of_pos])
    (by norm_num) (by norm_num) (by norm_num)]
  norm_num

theorem toDouble_rating_sample : toDouble (4.8) = 5404319552844595 / 2 ^ 50 := by
  rw [toDouble_eq (4.8) (2) 5404319552844595
    (by norm_num [abs_of_pos]) (by norm_num [abs_of_pos])
    (by norm_num) (by norm_num) (by norm_num)]
  norm_num

/-- The credits of 5.2 hectares at index 85, as the code computes them. -/
theorem floor_sample_credits :
    ⌊toDouble (toDouble (toDouble 5.2 * 10) * toDouble (toDouble 85 / 100))⌋ = 44 := by
  rw [toDouble_area_sample, toDouble_area_sample_times_ten, toDouble_85, toDouble_ratio_85,
    toDouble_credits_sample]
  norm_num [Int.floor_eq_iff]

/-- The "Expected Credits" of 5.2 hectares, as the code computes them. -/
theorem floor_sample_expected : ⌊toDouble (toDouble 5.2 * 10)⌋ = 52 := by
  rw [toDouble_area_sample, toDouble_area_sample_times_ten]
  norm_num

/-- The credits of 9 hectares at index 70, as the code computes them: the double
nearest to 0.7 lies below 0.7, and 90 times it is rounded to a double below 63. -/
theorem floor_nine_credits :
    ⌊toDouble (toDouble (toDouble 9 * 10) * toDouble (toDouble 70 / 100))⌋ = 62 := by
  rw [toDouble_9, toDouble_90, toDouble_70, toDouble_ratio_70, toDouble_credits_nine]
  norm_num [Int.floor_eq_iff]

/-! ## Approval: what is stored (C1) -/

theorem assessProject_id (project : Project) (sat : Option ℚ) :
    (assessProject project sat).id = project.id := by
  cases sat <;> rfl

theorem assessProject_ngoId (project : Project) (sat : Option ℚ) :
    (assessProject project sat).ngoId = project.ngoId := by
  cases sat <;> rfl

theorem assessProject_status (project : Project) (sat : Option ℚ) :
    (assessProject project sat).status = project.status := by
  cases sat <;> rfl

theorem sampleState_projects : sampleState.projects = [sampleProject] := rfl

theorem sampleState_find_sampleProject :
    sampleState.projects.find? (fun p => p.id == "PRJ001") = some sampleProject := by
  rw [sampleState_projects]
  simp [List.find?, sampleProject]

theorem companySession_find_sampleNGO :
    companySession.ngos.find? (fun n => n.id == "NGO001") = some sampleNGO := by
  simp [companySession, handleLogin, demoCredentials, lookupData, findIndex, sampleState,
    initializeSampleData, sampleProject, sampleNGO, sampleCompany, emptyState, List.find?, sampleNGO]

theorem approveProject_pendingState_outcome :
    (approveProject pendingState "PRJ1757500000000" (some 85) Web3Call.unavailable
        "2025-09-11").2 = Outcome.success "Project Approved!" (some 44) := by
  simp [approveProject, pendingState, sampleState, initializeSampleData, sampleProject, sampleNGO, sampleCompany, emptyState,
    pendingProject, assessProject, List.find?, floor_sample_credits]

theorem sampleProject_area_pos : 0 < sampleProject.area := by
  norm_num [sampleProject]

theorem submitted_project_id : "PRJ" ++ toString (1757500000000 : Nat) = "PRJ1757500000000" := by
  decide

/-- C1, evaluated on the code. The demo NGO registers a project of 9 hectares, and
`approveProject` runs on it with oracle index 70 and no wallet. The call succeeds and
the project holds survival rate 70 and status `verified`, but 62 credits, while
`floor(9 * 10 * 70 / 100)` is 63: the code divides 70 by 100 first, the double nearest
to 0.7 lies below 0.7, and 90 times it is rounded to a double below 63. For the example
of the claim, 5.2 hectares at index 85, the credits stored are 44 as claimed. -/
theorem approveProject_credits_below_formula :
    (approveProject nineHectareState "PRJ1757500000000" (some 70) Web3Call.unavailable
        "2025-09-11").2 = Outcome.success "Project Approved!" (some 62) ∧
    ((approveProject nineHectareState "PRJ1757500000000" (some 70) Web3Call.unavailable
        "2025-09-11").1.projects.find? (fun p => p.id == "PRJ1757500000000")).map
        (fun p => (p.area, p.survival_rate, p.carbon_credits, p.status)) =
      some (9, 70, 62, Status.verified) ∧
    ⌊(9 : ℚ) * 10 * 70 / 100⌋ = 63 ∧
    ((approveProject submittedState "PRJ1757500000000" (some 85) Web3Call.unavailable
        "2025-09-11").1.projects.find? (fun p => p.id == "PRJ1757500000000")).map
        (fun p => (p.area, p.survival_rate, p.carbon_credits, p.status)) =
      some (5.2, 85, 44, Status.verified) ∧
    ⌊(5.2 : ℚ) * 10 * 85 / 100⌋ = 44 := by
  refine ⟨?_, ?_, by norm_num, ?_, by norm_num [Int.floor_eq_iff]⟩
  · simp [approveProject, nineHectareState, nineHectareForm, submitNewProject, ngoSession,
      handleLogin, demoCredentials, lookupData, findIndex, sampleState, initializeSampleData,
      emptyState, sampleProject, sampleNGO, projectData, sampleForm, orZero, assessProject,
      List.find?, submitted_project_id, floor_nine_credits]
  · simp [approveProject, nineHectareState, nineHectareForm, submitNewProject, ngoSession,
      handleLogin, demoCredentials, lookupData, findIndex, sampleState, initializeSampleData,
      emptyState, sampleProject, sampleNGO, projectData, sampleForm, orZero, assessProject,
      updateFirst, List.find?, submitted_project_id, floor_nine_credits]
  · simp [approveProject, submittedState, submitNewProject, ngoSession, handleLogin,
      demoCredentials, lookupData, findIndex, sampleState, initializeSampleData, emptyState,
      sampleProject, sampleNGO, projectData, sampleForm, orZero, assessProject, updateFirst,
      List.find?, submitted_project_id, floor_sample_credits]

/-! ## Repeated decisions (C2, C3) -/

/-- C2, evaluated on the code. `approveProject` called twice on the registered project
of `pendingState` (oracle index 85, no wallet) succeeds both times and mints twice: the
NGO holds 96 total and 89 available credits after the first call, 140 and 133 after the
second. -/
theorem approveProject_twice_mints_twice :
    (approveProject pendingState "PRJ1757500000000" (some 85) Web3Call.unavailable
        "2025-09-11").2 = Outcome.success "Project Approved!" (some 44) ∧
    totalCredits (approveProject pendingState "PRJ1757500000000" (some 85)
        Web3Call.unavailable "2025-09-11").1 "NGO001" = some 96 ∧
    availableCredits (approveProject pendingState "PRJ1757500000000" (some 85)
        Web3Call.unavailable "2025-09-11").1 "NGO001" = some 89 ∧
    (approveProject (approveProject pendingState "PRJ1757500000000" (some 85)
        Web3Call.unavailable "2025-09-11").1 "PRJ1757500000000" (some 85)
        Web3Call.unavailable "2025-09-11").2 = Outcome.success "Project Approved!" (some 44) ∧
    totalCredits (approveProject (approveProject pendingState "PRJ1757500000000" (some 85)
        Web3Call.unavailable "2025-09-11").1 "PRJ1757500000000" (some 85)
        Web3Call.unavailable "2025-09-11").1 "NGO001" = some 140 ∧
    availableCredits (approveProject (approveProject pendingState "PRJ1757500000000" (some 85)
        Web3Call.unavailable "2025-09-11").1 "PRJ1757500000000" (some 85)
        Web3Call.unavailable "2025-09-11").1 "NGO001" = some 133 := by
  simp [approveProject, pendingState, sampleState, initializeSampleData, sampleProject, sampleNGO, sampleCompany, emptyState,
    pendingProject, assessProject, creditNGO, updateFirst, totalCredits, availableCredits,
    List.find?, floor_sample_credits]

/-- C3, evaluated on the code. The sample project `PRJ001` is `verified`; a confirmed
`rejectProject` makes it `rejected`, and `approveProject` on the rejected project makes
it `verified` again. -/
theorem terminal_status_is_left :
    projectStatus sampleState "PRJ001" = some Status.verified ∧
    projectStatus (rejectProject sampleState "PRJ001" true).1 "PRJ001" = some Status.rejected ∧
    projectStatus (approveProject (rejectProject sampleState "PRJ001" true).1 "PRJ001" (some 85)
        Web3Call.unavailable "2025-09-11").1 "PRJ001" = some Status.verified := by
  simp [projectStatus, rejectProject, approveProject, sampleState, initializeSampleData, sampleProject, sampleNGO, sampleCompany,
    emptyState, assessProject, updateFirst, List.find?]

/-! ## Conservation (C4) -/

theorem sumOf_updateFirst_none {α : Type} (g : α → Int) (p : α → Bool) (f : α → α)
    (l : List α) (h : l.find? p = none) : sumOf g (updateFirst p f l) = sumOf g l := by
  rw [updateFirst_of_forall_false p f l]
  intro x hx
  have := List.find?_eq_none.1 h x hx
  simpa using this

theorem sumOf_updateFirst_some {α : Type} (g : α → Int) (p : α → Bool) (f : α → α) :
    ∀ (l : List α) (x : α), l.find? p = some x →
      sumOf g (updateFirst p f l) = sumOf g l + g (f x) - g x := by
  intro l
  induction l with
  | nil => intro x h; simp at h
  | cons y ys ih =>
    intro x h
    by_cases hy : p y = true
    · simp only [List.find?, hy, Option.some.injEq] at h
      subst h
      simp only [updateFirst, hy, if_true, sumOf]
      omega
    · simp only [Bool.not_eq_true] at hy
      simp only [List.find?, hy] at h
      simp only [updateFirst, hy, Bool.false_eq_true, if_false, sumOf, ih x h]
      omega

theorem sumOf_updateAt {α : Type} (g : α → Int) (f : α → α) (d : Int)
    (hf : ∀ x, g (f x) = g x + d) :
    ∀ (i : Nat) (l : List α), i < l.length → sumOf g (updateAt f i l) = sumOf g l + d := by
  intro i l
  induction l generalizing i with
  | nil => intro h; simp at h
  | cons x xs ih =>
    intro h
    cases i with
    | zero =>
      simp only [updateAt, sumOf, hf]
      omega
    | succ i =>
      have h' : i < xs.length := by simpa using h
      simp only [updateAt, sumOf, ih i h']
      omega

/-- Crediting an NGO adds the same amount to both sums, so their difference stays. -/
theorem creditNGO_gap (ngoId : String) (amount : Int) (ngos : List NGO) :
    sumOf NGO.total_credits (creditNGO ngoId amount ngos) -
        sumOf NGO.available_credits (creditNGO ngoId amount ngos) =
      sumOf NGO.total_credits ngos - sumOf NGO.available_credits ngos := by
  unfold creditNGO
  cases h : List.find? (fun n => n.id == ngoId) ngos with
  | none => rw [sumOf_updateFirst_none _ _ _ _ h, sumOf_updateFirst_none _ _ _ _ h]
  | some n =>
    rw [sumOf_updateFirst_some _ _ _ _ n h, sumOf_updateFirst_some _ _ _ _ n h]
    dsimp only
    omega

/-- A request that passes `validatePurchase` names an existing NGO and a quantity between
1 and that NGO's available credits. -/
theorem validatePurchase_ok (st : State) (ngoId : String) (quantityInput : Option String)
    (confirmed : Bool) (quantity : Int)
    (h : validatePurchase st ngoId quantityInput confirmed = Except.ok quantity) :
    ∃ ngo value, st.ngos.find? (fun n => n.id == ngoId) = some ngo ∧
      quantityInput = some value ∧ parseInt value = some quantity ∧
      1 ≤ quantity ∧ quantity ≤ ngo.available_credits ∧ confirmed = true := by
  unfold validatePurchase at h
  cases hfind : st.ngos.find? (fun n => n.id == ngoId) with
  | none => simp [hfind] at h
  | some ngo =>
    cases quantityInput with
    | none => simp [hfind] at h
    | some value =>
      cases hparse : parseInt value with
      | none => simp [hfind, hparse] at h
      | some q =>
        simp only [hfind, hparse] at h
        split at h
        · simp at h
        · rename_i hvalid
          split at h
          · simp at h
          · rename_i hconf
            simp only [Except.ok.injEq] at h
            subst h
            simp only [Bool.or_eq_true, beq_iff_eq, decide_eq_true_eq, not_or, not_le, not_lt] at hvalid
            refine ⟨ngo, value, rfl, rfl, hparse, by omega, by omega, by simpa using hconf⟩

/-- A call that ends in `validatePurchase` never ends in a success message. -/
theorem validatePurchase_error_ne_success (st : State) (ngoId : String)
    (quantityInput : Option String) (confirmed : Bool) (outcome : Outcome)
    (h : validatePurchase st ngoId quantityInput confirmed = Except.error outcome)
    (title : String) (amount : Option Int) : outcome ≠ Outcome.success title amount := by
  unfold validatePurchase at h
  split at h
  · cases h; simp
  · split at h
    · cases h; simp
    · split at h
      · cases h; simp
      · split at h
        · cases h; simp
        · split at h
          · cases h; simp
          · cases h

theorem purchaseCredits_rejects_invalid_quantity_aux (st : State) (ngoId : String) (ngo : NGO)
    (value : String) (confirmed : Bool) (web3 : Web3Call)
    (hfind : st.ngos.find? (fun n => n.id == ngoId) = some ngo)
    (hbad : ∀ q, parseInt value = some q → ¬ (1 ≤ q ∧ q ≤ ngo.available_credits)) :
    purchaseCredits st ngoId (some value) confirmed web3 =
      (st, Outcome.error "Please enter a valid quantity") := by
  unfold purchaseCredits validatePurchase
  cases hparse : parseInt value with
  | none => simp [hfind, hparse]
  | some q =>
    have hq := hbad q hparse
    have hcond : (q = 0 ∨ q ≤ 0) ∨ ngo.available_credits < q := by omega
    simp [hfind, hparse, hcond]

theorem ledgerInv_sampleState : LedgerInv sampleState := by
  refine ⟨rfl, ?_, ?_⟩
  · intro user h
    simp [sampleState, initializeSampleData, sampleProject, sampleNGO, sampleCompany, emptyState] at h
  · simp [totalMinted, totalAvailable, totalPurchased, sumOf, sampleState,
      initializeSampleData, sampleProject, sampleNGO, sampleCompany, emptyState]

theorem demoCredentials_company (st : State) (email : String) (user : CurrentUser)
    (hids : st.companies.map Company.id = ["CMP001"])
    (h : demoCredentials st email = some user) (htype : user.type = "company") :
    user.data = UserData.company 0 := by
  unfold demoCredentials at h
  split at h
  · simp only [Option.some.injEq] at h
    subst h
    simp at htype
  · split at h
    · simp only [Option.some.injEq] at h
      subst h
      simp at htype
    · split at h
      · simp only [Option.some.injEq] at h
        subst h
        cases hc : st.companies with
        | nil => simp [hc] at hids
        | cons c cs =>
          simp only [hc, List.map_cons, List.cons.injEq] at hids
          simp [lookupData, findIndex, hids.1]
      · simp at h

theorem ledgerInv_handleLogin (st : State) (userType email password : String)
    (h : LedgerInv st) : LedgerInv (handleLogin st userType email password).1 := by
  unfold handleLogin
  cases hc : demoCredentials st email with
  | none => simpa using h
  | some userCredential =>
    simp only
    split
    · refine ⟨h.1, ?_, h.2.2⟩
      intro user hu htype
      simp only [Option.some.injEq] at hu
      subst hu
      exact demoCredentials_company st email _ h.1 hc htype
    · exact h

theorem ledgerInv_logout (st : State) (h : LedgerInv st) : LedgerInv (logout st) := by
  refine ⟨h.1, ?_, h.2.2⟩
  intro user hu
  simp [logout] at hu

theorem ledgerInv_approveProject (st : State) (projectId : String) (sat : Option ℚ)
    (web3 : Web3Call) (today : String) (h : LedgerInv st) :
    LedgerInv (approveProject st projectId sat web3 today).1 := by
  unfold approveProject
  cases hfind : st.projects.find? (fun p => p.id == projectId) with
  | none => simpa using h
  | some found =>
    have key : ∀ (ngoId : String) (amount : Int) (projects : List Project),
        LedgerInv { st with projects := projects, ngos := creditNGO ngoId amount st.ngos } := by
      intro ngoId amount projects
      refine ⟨h.1, h.2.1, ?_⟩
      have hgap := creditNGO_gap ngoId amount st.ngos
      have h3 := h.2.2
      simp only [totalMinted, totalAvailable, totalPurchased] at h3 ⊢
      omega
    cases web3 with
    | unavailable => exact key _ _ _
    | returns transactionHash => exact key _ _ _
    | throws message => exact ⟨h.1, h.2.1, h.2.2⟩

theorem updateAt_map_id (q : Int) :
    ∀ (i : Nat) (l : List Company),
      (updateAt (fun c => { c with credits_purchased := c.credits_purchased + q }) i l).map
        Company.id = l.map Company.id := by
  intro i l
  induction l generalizing i with
  | nil => simp [updateAt]
  | cons x xs ih =>
    cases i with
    | zero => simp [updateAt]
    | succ i => simp [updateAt, ih i]

theorem ledgerInv_purchaseCredits (st : State) (ngoId : String) (quantityInput : Option String)
    (confirmed : Bool) (web3 : Web3Call) (h : LedgerInv st) (hc : companyLoggedIn st = true) :
    LedgerInv (purchaseCredits st ngoId quantityInput confirmed web3).1 := by
  unfold purchaseCredits
  cases hv : validatePurchase st ngoId quantityInput confirmed with
  | error outcome => simpa using h
  | ok quantity =>
    obtain ⟨ngo, value, hfind, -, -, -, -, -⟩ := validatePurchase_ok st ngoId quantityInput confirmed quantity hv
    obtain ⟨user, huser, htype⟩ : ∃ user, st.currentUser = some user ∧ user.type = "company" := by
      unfold companyLoggedIn at hc
      cases hu : st.currentUser with
      | none => simp [hu] at hc
      | some user => exact ⟨user, rfl, by simpa [hu] using hc⟩
    have hdata := h.2.1 user huser htype
    have hlen : 0 < st.companies.length := by
      have := congrArg List.length h.1
      simp at this
      omega
    have settle : LedgerInv (settlePurchase st ngoId quantity).1 := by
      have hs : (settlePurchase st ngoId quantity).1 =
          { st with
            ngos := updateFirst (fun n => n.id == ngoId)
              (fun ngo => { ngo with available_credits := ngo.available_credits - quantity }) st.ngos
            companies := updateAt
              (fun c => { c with credits_purchased := c.credits_purchased + quantity }) 0
              st.companies } := by
        simp only [settlePurchase, creditBuyer, huser, hdata]
      rw [hs]
      refine ⟨?_, h.2.1, ?_⟩
      · simpa [updateAt_map_id] using h.1
      · have h3 := h.2.2
        simp only [totalMinted, totalAvailable, totalPurchased] at h3 ⊢
        rw [sumOf_updateFirst_some NGO.total_credits _ _ _ ngo hfind,
          sumOf_updateFirst_some NGO.available_credits _ _ _ ngo hfind,
          sumOf_updateAt Company.credits_purchased _ quantity (fun _ => rfl) 0 _ hlen]
        dsimp only
        omega
    cases web3 with
    | unavailable => exact settle
    | returns transactionHash => exact settle
    | throws message => exact h

theorem ledgerInv_of_reachable (st : State) (h : Reachable st) : LedgerInv st := by
  induction h with
  | init => exact ledgerInv_sampleState
  | login st userType email password _ ih => exact ledgerInv_handleLogin st userType email password ih
  | logout st _ ih => exact ledgerInv_logout st ih
  | approve st projectId sat web3 today _ ih => exact ledgerInv_approveProject st projectId sat web3 today ih
  | purchase st ngoId quantityInput confirmed web3 _ hc ih =>
    exact ledgerInv_purchaseCredits st ngoId quantityInput confirmed web3 ih hc

/-- C4 as stated fails on the code. In the state `initializeSampleData` builds the NGOs'
total credits are 52 while available plus purchased credits are 45; and a
`purchaseCredits` call made there, with nobody logged in, takes 30 credits from the
NGO's available balance without adding them to any company. -/
theorem conservation_fails_on_sample_data :
    totalMinted sampleState ≠ totalAvailable sampleState + totalPurchased sampleState ∧
    totalAvailable (purchaseCredits sampleState "NGO001" (some "30") true
        Web3Call.unavailable).1 = 15 ∧
    totalPurchased (purchaseCredits sampleState "NGO001" (some "30") true
        Web3Call.unavailable).1 = 0 := by
  refine ⟨by decide, by decide, by decide⟩

/-- C4, amended. In every state reachable from the sample state by logins, logouts,
`approveProject` calls and `purchaseCredits` calls made while a company is logged in,
the sum of the NGOs' `total_credits` equals the sum of their `available_credits` plus the
companies' `credits_purchased` plus 7, the gap the sample data starts with. -/
theorem conservation_with_sample_gap (st : State) (h : Reachable st) :
    totalMinted st = totalAvailable st + totalPurchased st + 7 :=
  (ledgerInv_of_reachable st h).2.2

/-- Witness for C4: the state after the demo company logs in and buys 30 credits is
reachable and satisfies the amended conservation equation. -/
theorem conservation_with_sample_gap_witness :
    Reachable (purchaseCredits companySession "NGO001" (some "30") true Web3Call.unavailable).1 ∧
    totalMinted (purchaseCredits companySession "NGO001" (some "30") true Web3Call.unavailable).1 =
      totalAvailable (purchaseCredits companySession "NGO001" (some "30") true Web3Call.unavailable).1 +
      totalPurchased (purchaseCredits companySession "NGO001" (some "30") true Web3Call.unavailable).1 + 7 :=
  have hr : Reachable (purchaseCredits companySession "NGO001" (some "30") true
      Web3Call.unavailable).1 :=
    Reachable.purchase companySession "NGO001" (some "30") true Web3Call.unavailable
      (Reachable.login sampleState "company" "company@demo.com" "demo123" Reachable.init)
      (by decide)
  ⟨hr, conservation_with_sample_gap _ hr⟩

/-! ## Purchases (C5, C7) -/

/-- C5, evaluated on the code. The demo company is logged in and the wallet is connected,
so each `purchaseCredits` call awaits its wallet step. Two calls of 30 credits against the
45 available credits of `NGO001`, the second started while the first is suspended, both
end in "Purchase Successful!"; the NGO is left with -15 available credits and the
company with 60 purchased. -/
theorem interleaved_purchases_oversell :
    availableCredits companySession "NGO001" = some 45 ∧
    (purchaseCreditsInterleaved companySession "NGO001"
        { quantityInput := some "30", confirmed := true, web3 := Web3Call.returns "0xa1" }
        { quantityInput := some "30", confirmed := true, web3 := Web3Call.returns "0xb2" }).2 =
      (Outcome.success "Purchase Successful!" (some 30),
        Outcome.success "Purchase Successful!" (some 30)) ∧
    availableCredits (purchaseCreditsInterleaved companySession "NGO001"
        { quantityInput := some "30", confirmed := true, web3 := Web3Call.returns "0xa1" }
        { quantityInput := some "30", confirmed := true, web3 := Web3Call.returns "0xb2" }).1
      "NGO001" = some (-15) ∧
    totalPurchased (purchaseCreditsInterleaved companySession "NGO001"
        { quantityInput := some "30", confirmed := true, web3 := Web3Call.returns "0xa1" }
        { quantityInput := some "30", confirmed := true, web3 := Web3Call.returns "0xb2" }).1 = 60 := by
  refine ⟨by decide, by decide, by decide, by decide⟩

/-- C7. When the NGO exists and the text of the quantity field does not parse to an
integer `q` with `1 ≤ q ≤ ngo.available_credits`, `purchaseCredits` shows "Please enter
a valid quantity" and returns the state it was given: no balance of any NGO or company
changes. -/
theorem purchaseCredits_rejects_invalid_quantity (st : State) (ngoId : String) (ngo : NGO)
    (value : String) (confirmed : Bool) (web3 : Web3Call)
    (hfind : st.ngos.find? (fun n => n.id == ngoId) = some ngo)
    (hbad : ∀ q, parseInt value = some q → ¬ (1 ≤ q ∧ q ≤ ngo.available_credits)) :
    purchaseCredits st ngoId (some value) confirmed web3 =
      (st, Outcome.error "Please enter a valid quantity") :=
  purchaseCredits_rejects_invalid_quantity_aux st ngoId ngo value confirmed web3 hfind hbad

theorem parseInt_samples :
    parseInt "0" = some 0 ∧ parseInt "-5" = some (-5) ∧ parseInt "46" = some 46 ∧
    parseInt "" = none ∧ parseInt "abc" = none ∧ parseInt "30" = some 30 ∧
    parseInt "500" = some 500 := by
  decide

/-- Witness for C7: on the sample state with the demo company logged in (45 credits
available), the inputs "0", "-5", "46", "" and "abc" are all rejected and leave the
state as it was. -/
theorem purchaseCredits_rejects_invalid_quantity_witness :
    purchaseCredits companySession "NGO001" (some "0") true Web3Call.unavailable =
      (companySession, Outcome.error "Please enter a valid quantity") ∧
    purchaseCredits companySession "NGO001" (some "-5") true Web3Call.unavailable =
      (companySession, Outcome.error "Please enter a valid quantity") ∧
    purchaseCredits companySession "NGO001" (some "46") true Web3Call.unavailable =
      (companySession, Outcome.error "Please enter a valid quantity") ∧
    purchaseCredits companySession "NGO001" (some "") true Web3Call.unavailable =
      (companySession, Outcome.error "Please enter a valid quantity") ∧
    purchaseCredits companySession "NGO001" (some "abc") true Web3Call.unavailable =
      (companySession, Outcome.error "Please enter a valid quantity") ∧
    availableCredits companySession "NGO001" = some 45 := by
  obtain ⟨p0, p5, p46, pe, pabc, -, -⟩ := parseInt_samples
  have key : ∀ (input : String) (r : Option Int), parseInt input = r →
      (∀ q, r = some q → ¬ (1 ≤ q ∧ q ≤ (45 : Int))) →
      purchaseCredits companySession "NGO001" (some input) true Web3Call.unavailable =
        (companySession, Outcome.error "Please enter a valid quantity") := by
    intro input r hr hbad
    exact purchaseCredits_rejects_invalid_quantity companySession "NGO001" sampleNGO input true
      Web3Call.unavailable companySession_find_sampleNGO (fun q hq => hbad q (hr ▸ hq))
  refine ⟨key "0" _ p0 ?_, key "-5" _ p5 ?_, key "46" _ p46 ?_, key "" _ pe ?_,
    key "abc" _ pabc ?_, by decide⟩
  · intro q hq
    simp only [Option.some.injEq] at hq
    omega
  · intro q hq
    simp only [Option.some.injEq] at hq
    omega
  · intro q hq
    simp only [Option.some.injEq] at hq
    omega
  · intro q hq
    cases hq
  · intro q hq
    cases hq

/-! ## Sequential purchases (C6) -/

theorem soldQuantity_of_ne_success (outcome : Outcome)
    (h : ∀ title amount, outcome ≠ Outcome.success title amount) : soldQuantity outcome = 0 := by
  cases outcome with
  | silent => rfl
  | threw => rfl
  | error message => rfl
  | success title amount => exact absurd rfl (h title amount)

theorem find?_ngo_after_purchase (ngoId : String) (quantity : Int) (ngos : List NGO) :
    (updateFirst (fun n : NGO => n.id == ngoId)
        (fun ngo => { ngo with available_credits := ngo.available_credits - quantity })
        ngos).find? (fun n => n.id == ngoId) =
      (ngos.find? (fun n => n.id == ngoId)).map
        (fun ngo => { ngo with available_credits := ngo.available_credits - quantity }) :=
  find?_updateFirst (fun n : NGO => n.id == ngoId)
    (fun ngo => { ngo with available_credits := ngo.available_credits - quantity })
    (fun _ hx => hx) ngos

/-- One call of `purchaseCredits` against an NGO with a non-negative balance: the NGO is
still found, its balance is still non-negative, and the balance plus the quantity sold by
the call does not exceed the balance before the call. -/
theorem purchaseCredits_step (st : State) (ngoId : String) (ngo : NGO)
    (quantityInput : Option String) (confirmed : Bool) (web3 : Web3Call)
    (hfind : st.ngos.find? (fun n => n.id == ngoId) = some ngo)
    (hA : 0 ≤ ngo.available_credits) :
    ∃ after : NGO,
      (purchaseCredits st ngoId quantityInput confirmed web3).1.ngos.find?
        (fun n => n.id == ngoId) = some after ∧
      0 ≤ after.available_credits ∧
      0 ≤ soldQuantity (purchaseCredits st ngoId quantityInput confirmed web3).2 ∧
      after.available_credits + soldQuantity (purchaseCredits st ngoId quantityInput confirmed web3).2
        ≤ ngo.available_credits := by
  unfold purchaseCredits
  cases hv : validatePurchase st ngoId quantityInput confirmed with
  | error outcome =>
    have h0 := soldQuantity_of_ne_success outcome
      (validatePurchase_error_ne_success st ngoId quantityInput confirmed outcome hv)
    exact ⟨ngo, hfind, hA, by simp only [h0]; omega, by simp only [h0]; omega⟩
  | ok quantity =>
    obtain ⟨ngo', value, hfind', -, -, h1, h2, -⟩ :=
      validatePurchase_ok st ngoId quantityInput confirmed quantity hv
    rw [hfind] at hfind'
    cases hfind'
    have settle : ∃ after : NGO,
        (settlePurchase st ngoId quantity).1.ngos.find? (fun n => n.id == ngoId) = some after ∧
        0 ≤ after.available_credits ∧ 0 ≤ soldQuantity (settlePurchase st ngoId quantity).2 ∧
        after.available_credits + soldQuantity (settlePurchase st ngoId quantity).2
          ≤ ngo.available_credits := by
      refine ⟨{ ngo with available_credits := ngo.available_credits - quantity }, ?_, ?_, ?_, ?_⟩
      · have := find?_ngo_after_purchase ngoId quantity st.ngos
        rw [hfind] at this
        unfold settlePurchase
        cases creditBuyer st quantity <;> exact this
      · show 0 ≤ ngo.available_credits - quantity
        omega
      · unfold settlePurchase
        cases creditBuyer st quantity with
        | none => simp [soldQuantity]
        | some companies =>
          show 0 ≤ quantity
          omega
      · unfold settlePurchase
        cases creditBuyer st quantity with
        | none =>
          show ngo.available_credits - quantity + 0 ≤ ngo.available_credits
          omega
        | some companies =>
          show ngo.available_credits - quantity + quantity ≤ ngo.available_credits
          omega
    cases web3 with
    | unavailable => exact settle
    | returns transactionHash => exact settle
    | throws message =>
      exact ⟨ngo, hfind, hA, by simp [resumePurchase, soldQuantity],
        by simp [resumePurchase, soldQuantity]⟩

theorem runPurchases_bound (ngoId : String) (calls : List PurchaseCall) :
    ∀ (st : State) (ngo : NGO), st.ngos.find? (fun n => n.id == ngoId) = some ngo →
      0 ≤ ngo.available_credits →
      ∃ after : NGO,
        (runPurchases st ngoId calls).1.ngos.find? (fun n => n.id == ngoId) = some after ∧
        0 ≤ after.available_credits ∧
        0 ≤ sumOf soldQuantity (runPurchases st ngoId calls).2 ∧
        after.available_credits + sumOf soldQuantity (runPurchases st ngoId calls).2
          ≤ ngo.available_credits := by
  induction calls with
  | nil =>
    intro st ngo hfind hA
    exact ⟨ngo, hfind, hA, by simp [runPurchases, sumOf], by simp [runPurchases, sumOf]⟩
  | cons call calls ih =>
    intro st ngo hfind hA
    obtain ⟨mid, m1, m2, m3, m4⟩ :=
      purchaseCredits_step st ngoId ngo call.quantityInput call.confirmed call.web3 hfind hA
    obtain ⟨after, a1, a2, a3, a4⟩ := ih _ mid m1 m2
    refine ⟨after, a1, a2, ?_, ?_⟩
    · simp only [runPurchases, sumOf]
      omega
    · simp only [runPurchases, sumOf]
      omega

/-- C6. Calls of `purchaseCredits` run one after another against an NGO whose available
balance is `A ≥ 0`: after every prefix of the calls the NGO's `available_credits` is
non-negative, and the quantities of the successful calls sum to at most `A`. With
`A = 45`, a buyer that can be credited and two confirmed requests of 30 whose first
wallet step does not throw, the first call succeeds, the second is rejected and 15
credits remain available. -/
theorem sequential_purchases_never_oversell (st : State) (ngoId : String) (ngo : NGO)
    (calls : List PurchaseCall)
    (hfind : st.ngos.find? (fun n => n.id == ngoId) = some ngo)
    (hA : 0 ≤ ngo.available_credits) :
    (∀ k, ∃ a, availableCredits (runPurchases st ngoId (calls.take k)).1 ngoId = some a ∧ 0 ≤ a) ∧
    sumOf soldQuantity (runPurchases st ngoId calls).2 ≤ ngo.available_credits ∧
    (ngo.available_credits = 45 → (creditBuyer st 30).isSome = true →
      ∀ w₁ w₂ : Web3Call, (∀ message, w₁ ≠ Web3Call.throws message) →
        (runPurchases st ngoId
            [{ quantityInput := some "30", confirmed := true, web3 := w₁ },
             { quantityInput := some "30", confirmed := true, web3 := w₂ }]).2 =
          [Outcome.success "Purchase Successful!" (some 30),
           Outcome.error "Please enter a valid quantity"] ∧
        availableCredits (runPurchases st ngoId
            [{ quantityInput := some "30", confirmed := true, web3 := w₁ },
             { quantityInput := some "30", confirmed := true, web3 := w₂ }]).1 ngoId = some 15) := by
  refine ⟨?_, ?_, ?_⟩
  · intro k
    obtain ⟨after, a1, a2, -, -⟩ := runPurchases_bound ngoId (calls.take k) st ngo hfind hA
    exact ⟨after.available_credits, by simp [availableCredits, a1], a2⟩
  · obtain ⟨after, -, a2, -, a4⟩ := runPurchases_bound ngoId calls st ngo hfind hA
    omega
  · intro h45 hbuyer w₁ w₂ hw
    have hp : parseInt "30" = some 30 := by decide
    have hv : validatePurchase st ngoId (some "30") true = Except.ok 30 := by
      simp [validatePurchase, hfind, hp, h45]
    obtain ⟨companies, hcomp⟩ := Option.isSome_iff_exists.1 hbuyer
    have hs : settlePurchase st ngoId 30 =
        ({ st with
            ngos := updateFirst (fun n => n.id == ngoId)
              (fun ngo => { ngo with available_credits := ngo.available_credits - 30 }) st.ngos
            companies := companies },
          Outcome.success "Purchase Successful!" (some 30)) := by
      simp only [settlePurchase, hcomp]
    have hfirst : purchaseCredits st ngoId (some "30") true w₁ =
        ({ st with
            ngos := updateFirst (fun n => n.id == ngoId)
              (fun ngo => { ngo with available_credits := ngo.available_credits - 30 }) st.ngos
            companies := companies },
          Outcome.success "Purchase Successful!" (some 30)) := by
      unfold purchaseCredits
      simp only [hv]
      cases w₁ with
      | unavailable => exact hs
      | returns transactionHash => exact hs
      | throws message => exact absurd rfl (hw message)
    have hfind₂ : (updateFirst (fun n : NGO => n.id == ngoId)
          (fun ngo => { ngo with available_credits := ngo.available_credits - 30 })
          st.ngos).find? (fun n => n.id == ngoId) =
        some { ngo with available_credits := ngo.available_credits - 30 } := by
      rw [find?_ngo_after_purchase, hfind]
      rfl
    have hsecond : purchaseCredits
        { st with
            ngos := updateFirst (fun n => n.id == ngoId)
              (fun ngo => { ngo with available_credits := ngo.available_credits - 30 }) st.ngos
            companies := companies } ngoId (some "30") true w₂ =
        ({ st with
            ngos := updateFirst (fun n => n.id == ngoId)
              (fun ngo => { ngo with available_credits := ngo.available_credits - 30 }) st.ngos
            companies := companies },
          Outcome.error "Please enter a valid quantity") := by
      refine purchaseCredits_rejects_invalid_quantity_aux _ ngoId _ "30" true w₂ hfind₂ ?_
      intro q hq
      rw [hp] at hq
      simp only [Option.some.injEq] at hq
      subst hq
      show ¬ ((1 : Int) ≤ 30 ∧ 30 ≤ ngo.available_credits - 30)
      omega
    simp only [runPurchases, hfirst, hsecond, availableCredits, hfind₂, Option.map_some', h45]
    exact ⟨trivial, rfl⟩

/-- Witness for C6: the demo company, logged in to the sample state, asks twice for 30 of
the 45 credits of `NGO001`. -/
theorem sequential_purchases_never_oversell_witness :
    (runPurchases companySession "NGO001"
        [{ quantityInput := some "30", confirmed := true, web3 := Web3Call.unavailable },
         { quantityInput := some "30", confirmed := true, web3 := Web3Call.returns "0xb2" }]).2 =
      [Outcome.success "Purchase Successful!" (some 30),
       Outcome.error "Please enter a valid quantity"] ∧
    availableCredits (runPurchases companySession "NGO001"
        [{ quantityInput := some "30", confirmed := true, web3 := Web3Call.unavailable },
         { quantityInput := some "30", confirmed := true, web3 := Web3Call.returns "0xb2" }]).1
      "NGO001" = some 15 :=
  (sequential_purchases_never_oversell companySession "NGO001" sampleNGO []
    companySession_find_sampleNGO (by decide)).2.2 rfl (by decide) Web3Call.unavailable
    (Web3Call.returns "0xb2") (by simp)

/-! ## Exact effect of a purchase and of a mint (C8, C9) -/

theorem updateAt_split {α : Type} (f : α → α) :
    ∀ (i : Nat) (l : List α), i < l.length →
      ∃ pre x post, l = pre ++ x :: post ∧ pre.length = i ∧ updateAt f i l = pre ++ f x :: post := by
  intro i l
  induction l generalizing i with
  | nil => intro h; simp at h
  | cons y ys ih =>
    intro h
    cases i with
    | zero => exact ⟨[], y, ys, rfl, rfl, rfl⟩
    | succ i =>
      obtain ⟨pre, x, post, h1, h2, h3⟩ := ih i (by simpa using h)
      exact ⟨y :: pre, x, post, by simp [h1], by simp [h2], by simp [updateAt, h3]⟩

/-- C8. A `purchaseCredits` call by a logged-in company that ends in the success message
for quantity `q` replaces the first NGO with the requested id by a copy whose
`available_credits` is lower by `q` (its `total_credits` and other fields kept) and the
buying company by a copy whose `credits_purchased` is higher by `q`; every other NGO,
every other company and every project stay as they were. -/
theorem purchaseCredits_moves_exactly_quantity (st : State) (ngoId : String)
    (quantityInput : Option String) (confirmed : Bool) (web3 : Web3Call) (title : String)
    (q : Int) (user : CurrentUser) (i : Nat)
    (hsucc : (purchaseCredits st ngoId quantityInput confirmed web3).2 =
      Outcome.success title (some q))
    (huser : st.currentUser = some user) (hdata : user.data = UserData.company i)
    (hi : i < st.companies.length) :
    ∃ pre ngo post cpre company cpost,
      st.ngos = pre ++ ngo :: post ∧ (∀ n ∈ pre, n.id ≠ ngoId) ∧ ngo.id = ngoId ∧
      st.companies = cpre ++ company :: cpost ∧ cpre.length = i ∧
      (purchaseCredits st ngoId quantityInput confirmed web3).1.ngos =
        pre ++ { ngo with available_credits := ngo.available_credits - q } :: post ∧
      (purchaseCredits st ngoId quantityInput confirmed web3).1.companies =
        cpre ++ { company with credits_purchased := company.credits_purchased + q } :: cpost ∧
      (purchaseCredits st ngoId quantityInput confirmed web3).1.projects = st.projects := by
  unfold purchaseCredits at hsucc ⊢
  cases hv : validatePurchase st ngoId quantityInput confirmed with
  | error outcome =>
    simp only [hv] at hsucc
    exact absurd hsucc (validatePurchase_error_ne_success st ngoId quantityInput confirmed outcome
      hv title (some q))
  | ok quantity =>
    simp only [hv] at hsucc ⊢
    obtain ⟨ngo, value, hfind, -, -, -, -, -⟩ :=
      validatePurchase_ok st ngoId quantityInput confirmed quantity hv
    have hs : settlePurchase st ngoId quantity =
        ({ st with
            ngos := updateFirst (fun n => n.id == ngoId)
              (fun ngo => { ngo with available_credits := ngo.available_credits - quantity }) st.ngos
            companies := updateAt
              (fun c => { c with credits_purchased := c.credits_purchased + quantity }) i
              st.companies },
          Outcome.success "Purchase Successful!" (some quantity)) := by
      simp only [settlePurchase, creditBuyer, huser, hdata]
    have main : (settlePurchase st ngoId quantity).2 = Outcome.success title (some q) →
        ∃ pre ngo post cpre company cpost,
          st.ngos = pre ++ ngo :: post ∧ (∀ n ∈ pre, n.id ≠ ngoId) ∧ ngo.id = ngoId ∧
          st.companies = cpre ++ company :: cpost ∧ cpre.length = i ∧
          (settlePurchase st ngoId quantity).1.ngos =
            pre ++ { ngo with available_credits := ngo.available_credits - q } :: post ∧
          (settlePurchase st ngoId quantity).1.companies =
            cpre ++ { company with credits_purchased := company.credits_purchased + q } :: cpost ∧
          (settlePurchase st ngoId quantity).1.projects = st.projects := by
      intro hout
      rw [hs] at hout ⊢
      simp only [Outcome.success.injEq, Option.some.injEq] at hout
      obtain ⟨-, rfl⟩ := hout
      rcases updateFirst_split (fun n : NGO => n.id == ngoId)
          (fun ngo => { ngo with available_credits := ngo.available_credits - quantity })
          st.ngos with ⟨-, hnone, -⟩ | ⟨pre, x, post, h1, h2, h3, -, h5⟩
      · rw [hfind] at hnone
        cases hnone
      · obtain ⟨cpre, company, cpost, c1, c2, c3⟩ :=
          updateAt_split (fun c : Company => { c with credits_purchased := c.credits_purchased + quantity })
            i st.companies hi
        refine ⟨pre, x, post, cpre, company, cpost, h1, ?_, by simpa using h3, c1, c2, h5, c3, rfl⟩
        intro n hn
        have := h2 n hn
        simpa using this
    cases web3 with
    | unavailable => exact main hsucc
    | returns transactionHash => exact main hsucc
    | throws message => simp [resumePurchase] at hsucc

/-- Witness for C8: the demo company buying 30 of the 45 credits of `NGO001`. -/
theorem purchaseCredits_moves_exactly_quantity_witness :
    ∃ pre ngo post cpre company cpost,
      companySession.ngos = pre ++ ngo :: post ∧ (∀ n ∈ pre, n.id ≠ "NGO001") ∧
      ngo.id = "NGO001" ∧
      companySession.companies = cpre ++ company :: cpost ∧ cpre.length = 0 ∧
      (purchaseCredits companySession "NGO001" (some "30") true Web3Call.unavailable).1.ngos =
        pre ++ { ngo with available_credits := ngo.available_credits - 30 } :: post ∧
      (purchaseCredits companySession "NGO001" (some "30") true Web3Call.unavailable).1.companies =
        cpre ++ { company with credits_purchased := company.credits_purchased + 30 } :: cpost ∧
      (purchaseCredits companySession "NGO001" (some "30") true Web3Call.unavailable).1.projects =
        companySession.projects :=
  purchaseCredits_moves_exactly_quantity companySession "NGO001" (some "30") true
    Web3Call.unavailable "Purchase Successful!" 30
    { type := "company", id := "CMP001", name := "Green Tech Solutions", data := UserData.company 0 }
    0 (by decide) (by decide) rfl (by decide)

/-- C9. An `approveProject` call that ends in the success message quoting `c` credits has
stored `c` as the project's `carbon_credits`, leaves every company as it was, and
replaces the first NGO whose id is the project's `ngoId` by a copy whose `total_credits`
and `available_credits` are both higher by `c`; every other NGO stays as it was (and all
NGOs do when none has that id). -/
theorem approveProject_credits_issuer (st : State) (projectId : String)
    (satelliteSimulator : Option ℚ) (web3 : Web3Call) (today title : String) (c : Int)
    (project : Project)
    (hsucc : (approveProject st projectId satelliteSimulator web3 today).2 =
      Outcome.success title (some c))
    (hfind : st.projects.find? (fun p => p.id == projectId) = some project) :
    (∃ stored, (approveProject st projectId satelliteSimulator web3 today).1.projects.find?
        (fun p => p.id == projectId) = some stored ∧ stored.carbon_credits = c) ∧
    (approveProject st projectId satelliteSimulator web3 today).1.companies = st.companies ∧
    (((∀ n ∈ st.ngos, n.id ≠ project.ngoId) ∧
        (approveProject st projectId satelliteSimulator web3 today).1.ngos = st.ngos) ∨
      ∃ pre ngo post,
        st.ngos = pre ++ ngo :: post ∧ (∀ n ∈ pre, n.id ≠ project.ngoId) ∧
        ngo.id = project.ngoId ∧
        (approveProject st projectId satelliteSimulator web3 today).1.ngos =
          pre ++ { ngo with total_credits := ngo.total_credits + c
                            available_credits := ngo.available_credits + c } :: post) := by
  have hid : (project.id == projectId) = true := by
    have := List.find?_some hfind
    simpa using this
  have ngos_shape : ∀ amount : Int,
      ((∀ n ∈ st.ngos, n.id ≠ project.ngoId) ∧ creditNGO project.ngoId amount st.ngos = st.ngos) ∨
      ∃ pre ngo post,
        st.ngos = pre ++ ngo :: post ∧ (∀ n ∈ pre, n.id ≠ project.ngoId) ∧
        ngo.id = project.ngoId ∧
        creditNGO project.ngoId amount st.ngos =
          pre ++ { ngo with total_credits := ngo.total_credits + amount
                            available_credits := ngo.available_credits + amount } :: post := by
    intro amount
    unfold creditNGO
    rcases updateFirst_split (fun n : NGO => n.id == project.ngoId)
        (fun ngo => { ngo with total_credits := ngo.total_credits + amount
                               available_credits := ngo.available_credits + amount })
        st.ngos with ⟨h1, -, h3⟩ | ⟨pre, x, post, h1, h2, h3, -, h5⟩
    · left
      refine ⟨?_, h3⟩
      intro n hn
      have := h1 n hn
      simpa using this
    · right
      refine ⟨pre, x, post, h1, ?_, by simpa using h3, h5⟩
      intro n hn
      have := h2 n hn
      simpa using this
  have finish : ∀ final : Project, final.id = project.id → final.ngoId = project.ngoId →
      approveProject st projectId satelliteSimulator web3 today =
        ({ st with
            projects := updateFirst (fun p => p.id == projectId) (fun _ => final) st.projects
            ngos := creditNGO final.ngoId final.carbon_credits st.ngos },
          Outcome.success "Project Approved!" (some final.carbon_credits)) →
      (∃ stored, (approveProject st projectId satelliteSimulator web3 today).1.projects.find?
          (fun p => p.id == projectId) = some stored ∧ stored.carbon_credits = c) ∧
      (approveProject st projectId satelliteSimulator web3 today).1.companies = st.companies ∧
      (((∀ n ∈ st.ngos, n.id ≠ project.ngoId) ∧
          (approveProject st projectId satelliteSimulator web3 today).1.ngos = st.ngos) ∨
        ∃ pre ngo post,
          st.ngos = pre ++ ngo :: post ∧ (∀ n ∈ pre, n.id ≠ project.ngoId) ∧
          ngo.id = project.ngoId ∧
          (approveProject st projectId satelliteSimulator web3 today).1.ngos =
            pre ++ { ngo with total_credits := ngo.total_credits + c
                              available_credits := ngo.available_credits + c } :: post) := by
    intro final hfid hfngo hres
    rw [hres] at hsucc
    simp only [Outcome.success.injEq, Option.some.injEq] at hsucc
    obtain ⟨-, hc⟩ := hsucc
    rw [hres]
    refine ⟨⟨final, ?_, hc⟩, rfl, ?_⟩
    · show (updateFirst (fun p => p.id == projectId) (fun _ => final) st.projects).find?
        (fun p => p.id == projectId) = some final
      rw [find?_updateFirst _ _ (fun _ _ => by rw [hfid]; exact hid), hfind]
      rfl
    · show ((∀ n ∈ st.ngos, n.id ≠ project.ngoId) ∧
          creditNGO final.ngoId final.carbon_credits st.ngos = st.ngos) ∨ _
      rw [hfngo, hc]
      exact ngos_shape c
  cases web3 with
  | unavailable =>
    exact finish { assessProject project satelliteSimulator with
        status := Status.verified, verified_date := some today }
      (assessProject_id _ _) (assessProject_ngoId _ _) (by simp only [approveProject, hfind])
  | returns transactionHash =>
    exact finish { assessProject project satelliteSimulator with
        mintTxHash := some transactionHash
        status := Status.verified, verified_date := some today }
      (assessProject_id _ _) (assessProject_ngoId _ _) (by simp only [approveProject, hfind])
  | throws message =>
    simp [approveProject, hfind] at hsucc

/-- Witness for C9: approving the registered project of `pendingState` with oracle index
85 mints 44 credits to `NGO001`. -/
theorem approveProject_credits_issuer_witness :
    (∃ stored, (approveProject pendingState "PRJ1757500000000" (some 85) Web3Call.unavailable
        "2025-09-11").1.projects.find? (fun p => p.id == "PRJ1757500000000") = some stored ∧
      stored.carbon_credits = 44) ∧
    (approveProject pendingState "PRJ1757500000000" (some 85) Web3Call.unavailable
        "2025-09-11").1.companies = pendingState.companies ∧
    (((∀ n ∈ pendingState.ngos, n.id ≠ pendingProject.ngoId) ∧
        (approveProject pendingState "PRJ1757500000000" (some 85) Web3Call.unavailable
          "2025-09-11").1.ngos = pendingState.ngos) ∨
      ∃ pre ngo post,
        pendingState.ngos = pre ++ ngo :: post ∧ (∀ n ∈ pre, n.id ≠ pendingProject.ngoId) ∧
        ngo.id = pendingProject.ngoId ∧
        (approveProject pendingState "PRJ1757500000000" (some 85) Web3Call.unavailable
          "2025-09-11").1.ngos =
          pre ++ { ngo with total_credits := ngo.total_credits + 44
                            available_credits := ngo.available_credits + 44 } :: post) :=
  approveProject_credits_issuer pendingState "PRJ1757500000000" (some 85) Web3Call.unavailable
    "2025-09-11" "Project Approved!" 44 pendingProject approveProject_pendingState_outcome
    (by simp [pendingState, sampleState, initializeSampleData, sampleProject, sampleNGO, sampleCompany, emptyState, pendingProject,
      List.find?])

/-! ## Price bounds (C10) -/

/-- C10. When the text of the price field parses to an integer below 1000 or above
10000, `updateCreditPrice` returns the state it was given, so the `credit_price` of every
NGO, the logged-in one included, is unchanged; with a user logged in the call shows the
range error. -/
theorem updateCreditPrice_rejects_out_of_range (st : State) (value : String) (v : Int)
    (hparse : parseInt value = some v) (hrange : v < 1000 ∨ v > 10000) :
    (updateCreditPrice st (some value)).1 = st ∧
    (st.currentUser ≠ none →
      (updateCreditPrice st (some value)).2 =
        Outcome.error "Price must be between ₹1,000 and ₹10,000") := by
  unfold updateCreditPrice
  cases huser : st.currentUser with
  | none => simp
  | some user =>
    have hcond : v < 1000 ∨ 10000 < v := hrange
    simp [hparse, hcond]

/-- Witness for C10: the demo NGO, whose price is 2500, asks for 500; the call fails and
the price stays 2500. -/
theorem updateCreditPrice_rejects_out_of_range_witness :
    ((updateCreditPrice ngoSession (some "500")).1 = ngoSession ∧
      (ngoSession.currentUser ≠ none →
        (updateCreditPrice ngoSession (some "500")).2 =
          Outcome.error "Price must be between ₹1,000 and ₹10,000")) ∧
    ngoSession.ngos.map NGO.credit_price = [some 2500] ∧
    ngoSession.currentUser ≠ none :=
  ⟨updateCreditPrice_rejects_out_of_range ngoSession "500" 500 (by decide) (by decide),
    by decide, by decide⟩

/-! ## Price bounds under unparseable input (C11) -/

/-- C11, evaluated on the code. The demo NGO lists its credits at 2500. A call of
`updateCreditPrice` with an empty price field, or with the text "abc", passes the range
test, because `NaN < 1000` and `NaN > 10000` are both false, and stores `NaN` as the
`credit_price`; the call ends in the "Price Updated" message. -/
theorem updateCreditPrice_stores_NaN :
    ngoSession.ngos.map NGO.credit_price = [some 2500] ∧
    (updateCreditPrice ngoSession (some "")).1.ngos.map NGO.credit_price = [none] ∧
    (updateCreditPrice ngoSession (some "")).2 = Outcome.success "Price Updated" none ∧
    (updateCreditPrice ngoSession (some "abc")).1.ngos.map NGO.credit_price = [none] ∧
    (updateCreditPrice ngoSession (some "abc")).2 = Outcome.success "Price Updated" none := by
  refine ⟨by decide, by decide, by decide, by decide, by decide⟩

/-! ## Registration (C12) -/

/-- C12 as stated fails on the code. The demo NGO submits a form with area -1, -5 trees
planted, latitude 200 and longitude 500; the call ends in the success message and the
`projects` array grows from one project to two, the new one `registered`. -/
theorem submitNewProject_accepts_out_of_range :
    (submitNewProject ngoSession outOfRangeForm 1757500000000 "2025-09-10"
        Web3Call.unavailable).2 = Outcome.success "Project Registered Successfully!" none ∧
    ngoSession.projects.length = 1 ∧
    (submitNewProject ngoSession outOfRangeForm 1757500000000 "2025-09-10"
        Web3Call.unavailable).1.projects.length = 2 ∧
    statuses (submitNewProject ngoSession outOfRangeForm 1757500000000 "2025-09-10"
        Web3Call.unavailable).1 = [Status.verified, Status.registered] ∧
    outOfRangeForm.area ≤ 0 ∧ outOfRangeForm.treesPlanted < 0 ∧
    outOfRangeForm.latitude = some 200 ∧ outOfRangeForm.longitude = some 500 := by
  refine ⟨by decide, by decide, by decide, by decide, ?_, by decide, rfl, rfl⟩
  norm_num [outOfRangeForm]

/-- C12, amended. With a user logged in, `submitNewProject` looks at no bound: whatever
the area, planted count, latitude and longitude of the form, a call whose wallet step
does not throw appends exactly one project, holding those values with status
`registered` and no credits, and shows the success message; a call whose wallet step
throws shows an error and returns the state it was given. -/
theorem submitNewProject_registers_any_values (st : State) (form : ProjectForm) (now : Nat)
    (today : String) (web3 : Web3Call) (user : CurrentUser)
    (huser : st.currentUser = some user) :
    ((∀ message, web3 ≠ Web3Call.throws message) →
      (submitNewProject st form now today web3).2 =
        Outcome.success "Project Registered Successfully!" none ∧
      ∃ added : Project,
        (submitNewProject st form now today web3).1.projects = st.projects ++ [added] ∧
        added.area = form.area ∧ added.planted = form.treesPlanted ∧
        added.location.lat = orZero form.latitude ∧
        added.location.lng = orZero form.longitude ∧
        added.status = Status.registered ∧ added.carbon_credits = 0 ∧
        added.survival_rate = 0 ∧ added.ngoId = user.id) ∧
    (∀ message, web3 = Web3Call.throws message →
      submitNewProject st form now today web3 =
        (st, Outcome.error ("Failed to register project: " ++ message))) := by
  constructor
  · intro hw
    cases web3 with
    | unavailable =>
      have h : submitNewProject st form now today Web3Call.unavailable =
          ({ st with projects := st.projects ++ [projectData form user now today] },
            Outcome.success "Project Registered Successfully!" none) := by
        simp only [submitNewProject, huser]
      rw [h]
      exact ⟨rfl, _, rfl, rfl, rfl, rfl, rfl, rfl, rfl, rfl, rfl⟩
    | returns transactionHash =>
      have h : submitNewProject st form now today (Web3Call.returns transactionHash) =
          ({ st with projects := st.projects ++
              [{ projectData form user now today with txHash := some transactionHash }] },
            Outcome.success "Project Registered Successfully!" none) := by
        simp only [submitNewProject, huser]
      rw [h]
      exact ⟨rfl, _, rfl, rfl, rfl, rfl, rfl, rfl, rfl, rfl, rfl⟩
    | throws message => exact absurd rfl (hw message)
  · intro message hw
    subst hw
    simp only [submitNewProject, huser]

/-- Witness for C12: the demo NGO submitting the out-of-range form with no wallet. -/
theorem submitNewProject_registers_any_values_witness :
    (submitNewProject ngoSession outOfRangeForm 1757500000000 "2025-09-10"
        Web3Call.unavailable).2 = Outcome.success "Project Registered Successfully!" none ∧
    ∃ added : Project,
      (submitNewProject ngoSession outOfRangeForm 1757500000000 "2025-09-10"
        Web3Call.unavailable).1.projects = ngoSession.projects ++ [added] ∧
      added.area = outOfRangeForm.area ∧ added.planted = outOfRangeForm.treesPlanted ∧
      added.location.lat = orZero outOfRangeForm.latitude ∧
      added.location.lng = orZero outOfRangeForm.longitude ∧
      added.status = Status.registered ∧ added.carbon_credits = 0 ∧
      added.survival_rate = 0 ∧ added.ngoId = "NGO001" :=
  (submitNewProject_registers_any_values ngoSession outOfRangeForm 1757500000000 "2025-09-10"
    Web3Call.unavailable
    { type := "ngo", id := "NGO001", name := "Coastal Conservation Society", data := UserData.ngo 0 }
    (by decide)).1 (by simp)

/-! ## Credits of projects that are not verified (C13) -/

/-- C13, evaluated on the code. The demo NGO registers a 5.2 hectare project; the
verifier approves it, the oracle returns index 85 and the wallet call throws. The project
is still `registered` and now holds 44 credits. Independently, a confirmed
`rejectProject` on the verified sample project leaves it `rejected` with its 52 credits. -/
theorem unverified_project_holds_credits :
    projectStatus submittedState "PRJ1757500000000" = some Status.registered ∧
    projectCredits submittedState "PRJ1757500000000" = some 0 ∧
    projectStatus (approveProject submittedState "PRJ1757500000000" (some 85)
        (Web3Call.throws "Contract not initialized") "2025-09-11").1 "PRJ1757500000000" =
      some Status.registered ∧
    projectCredits (approveProject submittedState "PRJ1757500000000" (some 85)
        (Web3Call.throws "Contract not initialized") "2025-09-11").1 "PRJ1757500000000" =
      some 44 ∧
    projectStatus (rejectProject sampleState "PRJ001" true).1 "PRJ001" = some Status.rejected ∧
    projectCredits (rejectProject sampleState "PRJ001" true).1 "PRJ001" = some 52 := by
  refine ⟨by decide, by decide, ?_, ?_, by decide, by decide⟩
  · simp [projectStatus, approveProject, submittedState, submitNewProject, ngoSession,
      handleLogin, demoCredentials, lookupData, findIndex, sampleState, initializeSampleData,
      emptyState, sampleProject, sampleNGO, projectData, sampleForm, orZero, assessProject,
      updateFirst, List.find?, submitted_project_id]
  · simp [projectCredits, approveProject, submittedState, submitNewProject, ngoSession,
      handleLogin, demoCredentials, lookupData, findIndex, sampleState, initializeSampleData,
      emptyState, sampleProject, sampleNGO, projectData, sampleForm, orZero, assessProject,
      updateFirst, List.find?, submitted_project_id, floor_sample_credits]

/-! ## Status sequences (C14) -/

theorem statusMove_refl (op : Operation) (status : Status) : statusMove op status status := by
  cases op with
  | submit form now today web3 => exact rfl
  | approve projectId satelliteSimulator web3 today => exact Or.inl rfl
  | reject projectId confirmed => exact Or.inl rfl

theorem forall₂_statusMove_refl (op : Operation) (l : List Status) :
    List.Forall₂ (statusMove op) l l := by
  induction l with
  | nil => exact List.Forall₂.nil
  | cons x xs ih => exact List.Forall₂.cons (statusMove_refl op x) ih

/-- Statuses before and after an assignment through `find`: related position by
position when the object found is related to its replacement. -/
theorem forall₂_statuses_updateFirst (op : Operation) (p : Project → Bool)
    (f : Project → Project) :
    ∀ l : List Project,
      (∀ x, l.find? p = some x → statusMove op x.status (f x).status) →
      List.Forall₂ (statusMove op) (l.map Project.status)
        ((updateFirst p f l).map Project.status) := by
  intro l
  induction l with
  | nil => intro _; exact List.Forall₂.nil
  | cons x xs ih =>
    intro h
    by_cases hx : p x = true
    · have hxf := h x (by simp [List.find?, hx])
      simp only [updateFirst, hx, if_true, List.map_cons]
      exact List.Forall₂.cons hxf (forall₂_statusMove_refl op _)
    · simp only [Bool.not_eq_true] at hx
      simp only [updateFirst, hx, Bool.false_eq_true, if_false, List.map_cons]
      refine List.Forall₂.cons (statusMove_refl op _) (ih ?_)
      intro y hy
      exact h y (by simpa [List.find?, hx] using hy)

/-- C14 as stated fails on the code. The project the demo NGO registered is `registered`;
one `approveProject` call (oracle index 85, no wallet) makes it `verified`. It is never
`under_review`. -/
theorem registered_moves_directly_to_verified :
    statuses submittedState = [Status.verified, Status.registered] ∧
    statuses (approveProject submittedState "PRJ1757500000000" (some 85) Web3Call.unavailable
        "2025-09-11").1 = [Status.verified, Status.verified] := by
  refine ⟨by decide, ?_⟩
  simp [statuses, approveProject, submittedState, submitNewProject, ngoSession,
    handleLogin, demoCredentials, lookupData, findIndex, sampleState, initializeSampleData,
    emptyState, sampleProject, sampleNGO, projectData, sampleForm, orZero, assessProject,
    updateFirst, List.find?, submitted_project_id]

/-- C14, amended. Whatever the state, one call of `submitNewProject` leaves the status
of every existing project as it was and adds at most one project, which is `registered`;
one call of `approveProject` adds no project and leaves the status of every project as
it was or assigns it `verified`; one call of `rejectProject` adds no project and leaves
the status of every project as it was or assigns it `rejected`. No call assigns
`under_review`: a registered project moves to `verified` or `rejected` directly. -/
theorem statuses_move_directly (st : State) (op : Operation) :
    ∃ moved added : List Status,
      statuses (applyOperation st op) = moved ++ added ∧
      List.Forall₂ (statusMove op) (statuses st) moved ∧
      statusesCreated op added := by
  cases op with
  | submit form now today web3 =>
    refine ⟨statuses st, ?_⟩
    simp only [applyOperation, submitNewProject]
    cases st.currentUser with
    | none => exact ⟨[], by simp, forall₂_statusMove_refl _ _, Or.inl rfl⟩
    | some user =>
      cases web3 with
      | unavailable =>
        exact ⟨[Status.registered], by simp [statuses, projectData],
          forall₂_statusMove_refl _ _, Or.inr rfl⟩
      | returns transactionHash =>
        exact ⟨[Status.registered], by simp [statuses, projectData],
          forall₂_statusMove_refl _ _, Or.inr rfl⟩
      | throws message => exact ⟨[], by simp, forall₂_statusMove_refl _ _, Or.inl rfl⟩
  | approve projectId satelliteSimulator web3 today =>
    refine ⟨statuses (applyOperation st (Operation.approve projectId satelliteSimulator web3 today)),
      [], by simp, ?_, rfl⟩
    simp only [applyOperation, approveProject]
    cases hfind : st.projects.find? (fun p => p.id == projectId) with
    | none => exact forall₂_statusMove_refl _ _
    | some found =>
      cases web3 with
      | unavailable =>
        exact forall₂_statuses_updateFirst _ _ _ st.projects (fun _ _ => Or.inr rfl)
      | returns transactionHash =>
        exact forall₂_statuses_updateFirst _ _ _ st.projects (fun _ _ => Or.inr rfl)
      | throws message =>
        refine forall₂_statuses_updateFirst _ _ _ st.projects (fun x hx => Or.inl ?_)
        rw [hfind] at hx
        cases hx
        exact assessProject_status _ _
  | reject projectId confirmed =>
    refine ⟨statuses (applyOperation st (Operation.reject projectId confirmed)),
      [], by simp, ?_, rfl⟩
    simp only [applyOperation, rejectProject]
    cases st.projects.find? (fun p => p.id == projectId) with
    | none => exact forall₂_statusMove_refl _ _
    | some found =>
      cases confirmed with
      | false => exact forall₂_statusMove_refl _ _
      | true =>
        exact forall₂_statuses_updateFirst _ _ _ st.projects (fun _ _ => Or.inr rfl)

/-! ## Available credits against credits sold (C15) -/

/-- How one `purchaseCredits` call changes the NGO array: not at all, selling nothing, or
by subtracting a quantity `q ≥ 1` from the NGO found, selling `q` or nothing. -/
theorem purchaseCredits_ngos_shape (st : State) (ngoId : String) (quantityInput : Option String)
    (confirmed : Bool) (web3 : Web3Call) :
    ((purchaseCredits st ngoId quantityInput confirmed web3).1.ngos = st.ngos ∧
      soldQuantity (purchaseCredits st ngoId quantityInput confirmed web3).2 = 0) ∨
    ∃ q : Int, 1 ≤ q ∧
      (purchaseCredits st ngoId quantityInput confirmed web3).1.ngos =
        updateFirst (fun n => n.id == ngoId)
          (fun ngo => { ngo with available_credits := ngo.available_credits - q }) st.ngos ∧
      0 ≤ soldQuantity (purchaseCredits st ngoId quantityInput confirmed web3).2 ∧
      soldQuantity (purchaseCredits st ngoId quantityInput confirmed web3).2 ≤ q := by
  unfold purchaseCredits
  cases hv : validatePurchase st ngoId quantityInput confirmed with
  | error outcome =>
    left
    exact ⟨rfl, soldQuantity_of_ne_success outcome
      (validatePurchase_error_ne_success st ngoId quantityInput confirmed outcome hv)⟩
  | ok quantity =>
    obtain ⟨ngo, value, -, -, -, h1, -, -⟩ :=
      validatePurchase_ok st ngoId quantityInput confirmed quantity hv
    have settle : ∃ q : Int, 1 ≤ q ∧
        (settlePurchase st ngoId quantity).1.ngos =
          updateFirst (fun n => n.id == ngoId)
            (fun ngo => { ngo with available_credits := ngo.available_credits - q }) st.ngos ∧
        0 ≤ soldQuantity (settlePurchase st ngoId quantity).2 ∧
        soldQuantity (settlePurchase st ngoId quantity).2 ≤ q := by
      refine ⟨quantity, h1, ?_, ?_, ?_⟩
      · unfold settlePurchase
        cases creditBuyer st quantity <;> rfl
      · unfold settlePurchase
        cases creditBuyer st quantity with
        | none => simp [soldQuantity]
        | some companies =>
          show 0 ≤ quantity
          omega
      · unfold settlePurchase
        cases creditBuyer st quantity with
        | none =>
          show (0 : Int) ≤ quantity
          omega
        | some companies => exact le_refl _
    cases web3 with
    | unavailable => exact Or.inr settle
    | returns transactionHash => exact Or.inr settle
    | throws message => exact Or.inl ⟨rfl, rfl⟩

/-- How one `approveProject` call changes the NGO array: not at all, or by crediting one
amount to the totals of the NGO found. -/
theorem approveProject_ngos_shape (st : State) (projectId : String)
    (satelliteSimulator : Option ℚ) (web3 : Web3Call) (today : String) :
    (approveProject st projectId satelliteSimulator web3 today).1.ngos = st.ngos ∨
    ∃ (ngoId : String) (amount : Int),
      (approveProject st projectId satelliteSimulator web3 today).1.ngos =
        creditNGO ngoId amount st.ngos := by
  unfold approveProject
  cases st.projects.find? (fun p => p.id == projectId) with
  | none => exact Or.inl rfl
  | some found =>
    cases web3 with
    | unavailable => exact Or.inr ⟨_, _, rfl⟩
    | returns transactionHash => exact Or.inr ⟨_, _, rfl⟩
    | throws message => exact Or.inl rfl

theorem handleLogin_ngos (st : State) (userType email password : String) :
    (handleLogin st userType email password).1.ngos = st.ngos := by
  unfold handleLogin
  cases demoCredentials st email with
  | none => rfl
  | some userCredential =>
    simp only
    split <;> rfl

theorem soldInv_of_reachableSold (st : State) (sold : String → Int)
    (h : ReachableSold st sold) : SoldInv st sold := by
  induction h with
  | init =>
    refine ⟨rfl, ?_⟩
    intro ngo hngo
    have : ngo = sampleNGO := by
      simpa [sampleState, initializeSampleData, emptyState] using hngo
    subst this
    decide
  | login st sold userType email password _ ih =>
    unfold SoldInv
    rw [handleLogin_ngos]
    exact ih
  | logout st sold _ ih => exact ih
  | approve st sold projectId satelliteSimulator web3 today _ ih =>
    rcases approveProject_ngos_shape st projectId satelliteSimulator web3 today with
      hsame | ⟨ngoId, amount, hcredit⟩
    · unfold SoldInv
      rw [hsame]
      exact ih
    · obtain ⟨hids, hle⟩ := ih
      unfold SoldInv
      rw [hcredit]
      cases hn : st.ngos with
      | nil => simp [hn] at hids
      | cons n rest =>
        cases rest with
        | cons m rest' => simp [hn] at hids
        | nil =>
          have hn1 := hle n (by simp [hn])
          simp only [hn, List.map_cons, List.map_nil, List.cons.injEq, and_true] at hids
          by_cases hid : (n.id == ngoId) = true
          · simp only [creditNGO, updateFirst, hid, if_true, List.map_cons, List.map_nil,
              List.mem_singleton, forall_eq]
            refine ⟨by simpa using hids, ?_⟩
            show n.available_credits + amount ≤ n.total_credits + amount - sold n.id
            omega
          · simp only [Bool.not_eq_true] at hid
            simp only [creditNGO, updateFirst, hid, Bool.false_eq_true, if_false, List.map_cons,
              List.map_nil, List.mem_singleton, forall_eq]
            exact ⟨by simpa using hids, hn1⟩
  | purchase st sold ngoId quantityInput confirmed web3 _ ih =>
    obtain ⟨hids, hle⟩ := ih
    unfold SoldInv
    rcases purchaseCredits_ngos_shape st ngoId quantityInput confirmed web3 with
      ⟨hsame, hzero⟩ | ⟨q, hq, hupd, hs0, hsq⟩
    · rw [hsame, hzero]
      refine ⟨hids, ?_⟩
      intro ngo hngo
      have := hle ngo hngo
      show ngo.available_credits ≤ ngo.total_credits -
        (if ngo.id = ngoId then sold ngo.id + 0 else sold ngo.id)
      split <;> omega
    · rw [hupd]
      cases hn : st.ngos with
      | nil => simp [hn] at hids
      | cons n rest =>
        cases rest with
        | cons m rest' => simp [hn] at hids
        | nil =>
          have hn1 := hle n (by simp [hn])
          simp only [hn, List.map_cons, List.map_nil, List.cons.injEq, and_true] at hids
          by_cases hid : (n.id == ngoId) = true
          · have hid' : n.id = ngoId := by simpa using hid
            simp only [updateFirst, hid, if_true, List.map_cons, List.map_nil,
              List.mem_singleton, forall_eq]
            refine ⟨by simpa using hids, ?_⟩
            show n.available_credits - q ≤ n.total_credits -
              (if n.id = ngoId then sold n.id +
                soldQuantity (purchaseCredits st ngoId quantityInput confirmed web3).2
              else sold n.id)
            rw [if_pos hid']
            omega
          · simp only [Bool.not_eq_true] at hid
            have hid' : ¬ n.id = ngoId := by simpa using hid
            simp only [updateFirst, hid, Bool.false_eq_true, if_false, List.map_cons,
              List.map_nil, List.mem_singleton, forall_eq]
            refine ⟨by simpa using hids, ?_⟩
            rw [if_neg hid']
            exact hn1

/-- C15. In every state reached from the sample state by `approveProject` and
`purchaseCredits` calls (in any session, logins and logouts in between), each NGO's
`available_credits` is at most its `total_credits` minus the total quantity that NGO has
sold through successful purchases. -/
theorem available_at_most_total_minus_sold (st : State) (sold : String → Int)
    (h : ReachableSold st sold) :
    ∀ ngo ∈ st.ngos, ngo.available_credits ≤ ngo.total_credits - sold ngo.id :=
  (soldInv_of_reachableSold st sold h).2

/-- Witness for C15: after the demo company has logged in and bought 30 credits, `NGO001`
has sold 30 and holds 15 available credits of 52 in total. -/
theorem available_at_most_total_minus_sold_witness :
    (purchaseCredits companySession "NGO001" (some "30") true Web3Call.unavailable).1.ngos.map
      (fun ngo => (ngo.id, ngo.available_credits, ngo.total_credits)) = [("NGO001", 15, 52)] ∧
    soldQuantity (purchaseCredits companySession "NGO001" (some "30") true
      Web3Call.unavailable).2 = 30 ∧
    ∀ ngo ∈ (purchaseCredits companySession "NGO001" (some "30") true
        Web3Call.unavailable).1.ngos,
      ngo.available_credits ≤ ngo.total_credits -
        (if ngo.id = "NGO001" then (0 : Int) + soldQuantity (purchaseCredits companySession
          "NGO001" (some "30") true Web3Call.unavailable).2 else 0) :=
  ⟨by decide, by decide,
    available_at_most_total_minus_sold _ _
      (ReachableSold.purchase companySession (fun _ => 0) "NGO001" (some "30") true
        Web3Call.unavailable
        (ReachableSold.login sampleState (fun _ => 0) "company" "company@demo.com" "demo123"
          ReachableSold.init))⟩

/-! ## Vegetation index and change detection (C16, C20) -/

/-- C16. For every base record, or none, every area and every value of the random draws,
`calculateVegetationIndex` returns an integer between 50 and 95. -/
theorem calculateVegetationIndex_range (baseData : Option BaseData) (area : ℚ) (draws : Draws)
    (next : Nat) :
    50 ≤ (SatelliteSimulator.calculateVegetationIndex baseData area draws next).1 ∧
    (SatelliteSimulator.calculateVegetationIndex baseData area draws next).1 ≤ 95 := by
  simp only [SatelliteSimulator.calculateVegetationIndex]
  exact ⟨le_max_left _ _, max_le (by norm_num) (min_le_left _ _)⟩

theorem detectChanges_of_loop (draws : Draws) (next : Nat) (changeType : String)
    (h : SatelliteSimulator.detectLoop (draws next) SatelliteSimulator.changeTypes
      SatelliteSimulator.weights 0 = some changeType) :
    SatelliteSimulator.detectChanges draws next =
      ({ type := changeType
         confidence := 0.8 + draws (next + 1) * 0.15
         area_changed_hectares := draws (next + 2) * 2
         description := SatelliteSimulator.getChangeDescription changeType }, next + 3) := by
  simp only [SatelliteSimulator.detectChanges, h]

/-- C20. For a draw `r` with `0 ≤ r < 1` the loop of `detectChanges` always returns, so
the return after the loop is not reached, three draws are used, and the tag is
`restoration` iff `r ≤ 0.4`, `deforestation` iff `0.4 < r ≤ 0.5`, `no_change` iff
`0.5 < r ≤ 0.8` and `seasonal_variation` iff `0.8 < r`. -/
theorem detectChanges_by_cumulative_weight (draws : Draws) (next : Nat)
    (_h0 : 0 ≤ draws next) (h1 : draws next < 1) :
    SatelliteSimulator.detectLoop (draws next) SatelliteSimulator.changeTypes
        SatelliteSimulator.weights 0 ≠ none ∧
    (SatelliteSimulator.detectChanges draws next).2 = next + 3 ∧
    (SatelliteSimulator.detectChanges draws next).1.type ∈ SatelliteSimulator.changeTypes ∧
    ((SatelliteSimulator.detectChanges draws next).1.type = "restoration" ↔
      draws next ≤ 0.4) ∧
    ((SatelliteSimulator.detectChanges draws next).1.type = "deforestation" ↔
      0.4 < draws next ∧ draws next ≤ 0.5) ∧
    ((SatelliteSimulator.detectChanges draws next).1.type = "no_change" ↔
      0.5 < draws next ∧ draws next ≤ 0.8) ∧
    ((SatelliteSimulator.detectChanges draws next).1.type = "seasonal_variation" ↔
      0.8 < draws next) := by
  have e1 : (0 : ℚ) + 0.4 = 0.4 := by norm_num
  have e2 : (0.4 : ℚ) + 0.1 = 0.5 := by norm_num
  have e3 : (0.5 : ℚ) + 0.3 = 0.8 := by norm_num
  have e4 : (0.8 : ℚ) + 0.2 = 1 := by norm_num
  have h4 : draws next ≤ 1 := le_of_lt h1
  have n12 : ("restoration" : String) ≠ "deforestation" := by decide
  have n13 : ("restoration" : String) ≠ "no_change" := by decide
  have n14 : ("restoration" : String) ≠ "seasonal_variation" := by decide
  have n23 : ("deforestation" : String) ≠ "no_change" := by decide
  have n24 : ("deforestation" : String) ≠ "seasonal_variation" := by decide
  have n34 : ("no_change" : String) ≠ "seasonal_variation" := by decide
  by_cases c1 : draws next ≤ 0.4
  · have hl : SatelliteSimulator.detectLoop (draws next) SatelliteSimulator.changeTypes
        SatelliteSimulator.weights 0 = some "restoration" := by
      simp only [SatelliteSimulator.detectLoop, SatelliteSimulator.changeTypes,
        SatelliteSimulator.weights, e1, c1, if_true]
    refine ⟨by rw [hl]; simp, ?_⟩
    rw [detectChanges_of_loop draws next _ hl]
    refine ⟨rfl, by simp [SatelliteSimulator.changeTypes], ?_, ?_, ?_, ?_⟩
    · exact ⟨fun _ => c1, fun _ => rfl⟩
    · exact ⟨fun h => absurd h n12, fun h => absurd c1 (not_le.2 h.1)⟩
    · exact ⟨fun h => absurd h n13, fun h => absurd (le_trans c1 (by norm_num)) (not_le.2 h.1)⟩
    · exact ⟨fun h => absurd h n14, fun h => absurd (le_trans c1 (by norm_num)) (not_le.2 h)⟩
  · have c1' : (0.4 : ℚ) < draws next := not_le.1 c1
    by_cases c2 : draws next ≤ 0.5
    · have hl : SatelliteSimulator.detectLoop (draws next) SatelliteSimulator.changeTypes
          SatelliteSimulator.weights 0 = some "deforestation" := by
        simp only [SatelliteSimulator.detectLoop, SatelliteSimulator.changeTypes,
          SatelliteSimulator.weights, e1, e2, c1, c2, if_true, if_false]
      refine ⟨by rw [hl]; simp, ?_⟩
      rw [detectChanges_of_loop draws next _ hl]
      refine ⟨rfl, by simp [SatelliteSimulator.changeTypes], ?_, ?_, ?_, ?_⟩
      · exact ⟨fun h => absurd h.symm n12, fun h => absurd h c1⟩
      · exact ⟨fun _ => ⟨c1', c2⟩, fun _ => rfl⟩
      · exact ⟨fun h => absurd h n23, fun h => absurd c2 (not_le.2 h.1)⟩
      · exact ⟨fun h => absurd h n24, fun h => absurd (le_trans c2 (by norm_num)) (not_le.2 h)⟩
    · have c2' : (0.5 : ℚ) < draws next := not_le.1 c2
      by_cases c3 : draws next ≤ 0.8
      · have hl : SatelliteSimulator.detectLoop (draws next) SatelliteSimulator.changeTypes
            SatelliteSimulator.weights 0 = some "no_change" := by
          simp only [SatelliteSimulator.detectLoop, SatelliteSimulator.changeTypes,
            SatelliteSimulator.weights, e1, e2, e3, c1, c2, c3, if_true, if_false]
        refine ⟨by rw [hl]; simp, ?_⟩
        rw [detectChanges_of_loop draws next _ hl]
        refine ⟨rfl, by simp [SatelliteSimulator.changeTypes], ?_, ?_, ?_, ?_⟩
        · exact ⟨fun h => absurd h.symm n13, fun h => absurd h c1⟩
        · exact ⟨fun h => absurd h.symm n23, fun h => absurd h.2 c2⟩
        · exact ⟨fun _ => ⟨c2', c3⟩, fun _ => rfl⟩
        · exact ⟨fun h => absurd h n34, fun h => absurd c3 (not_le.2 h)⟩
      · have c3' : (0.8 : ℚ) < draws next := not_le.1 c3
        have hl : SatelliteSimulator.detectLoop (draws next) SatelliteSimulator.changeTypes
            SatelliteSimulator.weights 0 = some "seasonal_variation" := by
          simp only [SatelliteSimulator.detectLoop, SatelliteSimulator.changeTypes,
            SatelliteSimulator.weights, e1, e2, e3, e4, c1, c2, c3, h4, if_true, if_false]
        refine ⟨by rw [hl]; simp, ?_⟩
        rw [detectChanges_of_loop draws next _ hl]
        refine ⟨rfl, by simp [SatelliteSimulator.changeTypes], ?_, ?_, ?_, ?_⟩
        · exact ⟨fun h => absurd h.symm n14, fun h => absurd h c1⟩
        · exact ⟨fun h => absurd h.symm n24, fun h => absurd h.2 c2⟩
        · exact ⟨fun h => absurd h.symm n34, fun h => absurd h.2 c3⟩
        · exact ⟨fun _ => c3', fun _ => rfl⟩

/-- Witness for C20: a draw of one half selects `deforestation` and uses three draws. -/
theorem detectChanges_by_cumulative_weight_witness :
    (SatelliteSimulator.detectChanges halfDraws 0).1.type = "deforestation" ∧
    (SatelliteSimulator.detectChanges halfDraws 0).2 = 3 :=
  have h := detectChanges_by_cumulative_weight halfDraws 0 (by norm_num [halfDraws])
    (by norm_num [halfDraws])
  ⟨h.2.2.2.2.1.2 ⟨by norm_num [halfDraws], by norm_num [halfDraws]⟩, h.2.1⟩

/-! ## Nearest reference site (C17) -/

/-- The loop of `findClosestRegion`, entered with a current closest value `c` and its
distance: it returns a value `r` of `c :: rest` such that everything before `r` is
strictly farther and everything after `r` is at least as far. -/
theorem closestLoop_spec (distance : SiteData → ℚ) :
    ∀ (rest : List SiteData) (c : SiteData),
      ∃ pre r post, c :: rest = pre ++ r :: post ∧
        SatelliteSimulator.closestLoop distance rest (some c) (some (distance c)) = some r ∧
        (∀ y ∈ pre, distance r < distance y) ∧ (∀ y ∈ post, distance r ≤ distance y) := by
  intro rest
  induction rest with
  | nil =>
    intro c
    exact ⟨[], c, [], rfl, rfl, by simp, by simp⟩
  | cons x xs ih =>
    intro c
    by_cases hx : distance x < distance c
    · obtain ⟨pre, r, post, hsplit, hloop, hpre, hpost⟩ := ih x
      have hrx : distance r ≤ distance x := by
        have hmem : x ∈ pre ++ r :: post := by rw [← hsplit]; simp
        rcases List.mem_append.1 hmem with h | h
        · exact le_of_lt (hpre x h)
        · rcases List.mem_cons.1 h with h | h
          · rw [h]
          · exact hpost x h
      refine ⟨c :: pre, r, post, by simp [hsplit], ?_, ?_, hpost⟩
      · simp only [SatelliteSimulator.closestLoop, hx, decide_True, if_true]
        exact hloop
      · intro y hy
        rcases List.mem_cons.1 hy with h | h
        · rw [h]
          exact lt_of_le_of_lt hrx hx
        · exact hpre y h
    · obtain ⟨pre, r, post, hsplit, hloop, hpre, hpost⟩ := ih c
      have hloop' : SatelliteSimulator.closestLoop distance (x :: xs) (some c)
          (some (distance c)) = some r := by
        simp only [SatelliteSimulator.closestLoop, hx, decide_False, Bool.false_eq_true, if_false]
        exact hloop
      cases pre with
      | nil =>
        simp only [List.nil_append, List.cons.injEq] at hsplit
        obtain ⟨hc, hxs⟩ := hsplit
        subst hc
        subst hxs
        refine ⟨[], c, x :: xs, rfl, hloop', by simp, ?_⟩
        intro y hy
        rcases List.mem_cons.1 hy with h | h
        · rw [h]
          exact not_lt.1 hx
        · exact hpost y h
      | cons p pre' =>
        simp only [List.cons_append, List.cons.injEq] at hsplit
        obtain ⟨hc, hxs⟩ := hsplit
        subst hc
        have hrc : distance r < distance c := hpre c (by simp)
        refine ⟨c :: x :: pre', r, post, by simp [hxs], hloop', ?_, hpost⟩
        intro y hy
        rcases List.mem_cons.1 hy with h | h
        · rw [h]
          exact hrc
        · rcases List.mem_cons.1 h with h | h
          · rw [h]
            exact lt_of_lt_of_le hrc (not_lt.1 hx)
          · exact hpre y (by simp [h])

/-- The result of `findClosestRegion` for a non-empty map. -/
theorem findClosestRegion_of_ne_nil (M : JSMath) (sim : SatelliteSimulator)
    (targetLat targetLng : ℚ) (draws : Draws) (next : Nat)
    (hne : mapValues sim.vegetationData ≠ []) :
    ∃ pre closest post,
      mapValues sim.vegetationData = pre ++ closest :: post ∧
      SatelliteSimulator.findClosestRegion M sim targetLat targetLng draws next =
        (BaseData.site closest, next) ∧
      (∀ y ∈ pre,
        SatelliteSimulator.calculateDistance M targetLat targetLng closest.lat closest.lng <
          SatelliteSimulator.calculateDistance M targetLat targetLng y.lat y.lng) ∧
      (∀ y ∈ post,
        SatelliteSimulator.calculateDistance M targetLat targetLng closest.lat closest.lng ≤
          SatelliteSimulator.calculateDistance M targetLat targetLng y.lat y.lng) := by
  cases hv : mapValues sim.vegetationData with
  | nil => exact absurd hv hne
  | cons c rest =>
    obtain ⟨pre, r, post, hsplit, hloop, hpre, hpost⟩ :=
      closestLoop_spec
        (fun data => SatelliteSimulator.calculateDistance M targetLat targetLng data.lat data.lng)
        rest c
    refine ⟨pre, r, post, hsplit, ?_, hpre, hpost⟩
    simp only [SatelliteSimulator.findClosestRegion, hv, SatelliteSimulator.closestLoop,
      if_true]
    rw [hloop]

/-- C17. With an empty map `findClosestRegion` returns the default record, whose index
is 70 plus twenty times a draw. With a non-empty map it returns, without drawing, a value
of the map that is strictly nearer to the target than every value inserted before it and
at least as near as every value inserted after it: a nearest site, the first one in
insertion order among equally near ones. -/
theorem findClosestRegion_nearest_first (M : JSMath) (sim : SatelliteSimulator)
    (targetLat targetLng : ℚ) (draws : Draws) (next : Nat) :
    (mapValues sim.vegetationData = [] →
      SatelliteSimulator.findClosestRegion M sim targetLat targetLng draws next =
        (BaseData.fallback (70 + draws next * 20), next + 1)) ∧
    (mapValues sim.vegetationData ≠ [] →
      ∃ pre closest post,
        mapValues sim.vegetationData = pre ++ closest :: post ∧
        SatelliteSimulator.findClosestRegion M sim targetLat targetLng draws next =
          (BaseData.site closest, next) ∧
        (∀ y ∈ pre,
          SatelliteSimulator.calculateDistance M targetLat targetLng closest.lat closest.lng <
            SatelliteSimulator.calculateDistance M targetLat targetLng y.lat y.lng) ∧
        (∀ y ∈ post,
          SatelliteSimulator.calculateDistance M targetLat targetLng closest.lat closest.lng ≤
            SatelliteSimulator.calculateDistance M targetLat targetLng y.lat y.lng)) := by
  constructor
  · intro hempty
    simp only [SatelliteSimulator.findClosestRegion, hempty, SatelliteSimulator.closestLoop]
  · intro hne
    exact findClosestRegion_of_ne_nil M sim targetLat targetLng draws next hne

theorem sampleSimulator_length : sampleSimulator.vegetationData.length = 5 := by
  norm_num [sampleSimulator, SatelliteSimulator.new, SatelliteSimulator.initializeSampleData,
    SatelliteSimulator.sampleRegions, mapSet]

theorem sampleSimulator_ne_nil : sampleSimulator.vegetationData ≠ [] := by
  intro h
  have := sampleSimulator_length
  rw [h] at this
  simp at this

theorem sampleSimulator_values_ne_nil : mapValues sampleSimulator.vegetationData ≠ [] := by
  intro h
  exact sampleSimulator_ne_nil (List.map_eq_nil_iff.1 h)

/-- Witness for C17: in the simulator as the page creates it, whatever the `Math`
functions are, the site returned for the target (0, 0) is one of the five sites and no
site is nearer. -/
theorem findClosestRegion_nearest_first_witness :
    mapValues sampleSimulator.vegetationData ≠ [] ∧
    ∀ M : JSMath, ∃ closest ∈ mapValues sampleSimulator.vegetationData,
      SatelliteSimulator.findClosestRegion M sampleSimulator 0 0 halfDraws 0 =
        (BaseData.site closest, 0) ∧
      ∀ y ∈ mapValues sampleSimulator.vegetationData,
        SatelliteSimulator.calculateDistance M 0 0 closest.lat closest.lng ≤
          SatelliteSimulator.calculateDistance M 0 0 y.lat y.lng := by
  have hne := sampleSimulator_values_ne_nil
  refine ⟨hne, fun M => ?_⟩
  obtain ⟨pre, closest, post, hsplit, hres, hpre, hpost⟩ :=
    (findClosestRegion_nearest_first M sampleSimulator 0 0 halfDraws 0).2 hne
  refine ⟨closest, by rw [hsplit]; simp, hres, ?_⟩
  intro y hy
  rw [hsplit] at hy
  rcases List.mem_append.1 hy with h | h
  · exact le_of_lt (hpre y h)
  · rcases List.mem_cons.1 h with h | h
    · rw [h]
    · exact hpost y h

/-! ## No tolerance in the site lookup (C18) -/

theorem mapGet_mem (key : SiteKey) (entries : List (SiteKey × SiteData)) (d : SiteData)
    (h : mapGet key entries = some d) : d ∈ mapValues entries := by
  unfold mapGet at h
  cases hf : entries.find? (fun entry => decide (entry.1 = key)) with
  | none => simp [hf] at h
  | some entry =>
    simp only [hf, Option.map_some', Option.some.injEq] at h
    subst h
    exact List.mem_map_of_mem Prod.snd (List.mem_of_find?_eq_some hf)

/-- The base record chosen by `generateSatelliteVerification` for a non-empty map: the
value stored under the target's coordinates, or else a value no farther from the target
than any other; no draw is made. -/
theorem selectBaseData_site (M : JSMath) (sim : SatelliteSimulator) (lat lng : ℚ)
    (draws : Draws) (next : Nat) (hne : sim.vegetationData ≠ []) :
    ∃ d ∈ mapValues sim.vegetationData,
      SatelliteSimulator.selectBaseData M sim lat lng draws next = (BaseData.site d, next) ∧
      (mapGet (lat, lng) sim.vegetationData = some d ∨
        (mapGet (lat, lng) sim.vegetationData = none ∧
          ∀ y ∈ mapValues sim.vegetationData,
            SatelliteSimulator.calculateDistance M lat lng d.lat d.lng ≤
              SatelliteSimulator.calculateDistance M lat lng y.lat y.lng)) := by
  cases hget : mapGet (lat, lng) sim.vegetationData with
  | some d =>
    exact ⟨d, mapGet_mem _ _ _ hget, by simp only [SatelliteSimulator.selectBaseData, hget],
      Or.inl rfl⟩
  | none =>
    have hne' : mapValues sim.vegetationData ≠ [] := by
      intro h
      exact hne (List.map_eq_nil_iff.1 h)
    obtain ⟨pre, closest, post, hsplit, hres, hpre, hpost⟩ :=
      findClosestRegion_of_ne_nil M sim lat lng draws next hne'
    refine ⟨closest, by rw [hsplit]; simp, ?_, Or.inr ⟨rfl, ?_⟩⟩
    · simp only [SatelliteSimulator.selectBaseData, hget]
      exact hres
    · intro y hy
      rw [hsplit] at hy
      rcases List.mem_append.1 hy with h | h
      · exact le_of_lt (hpre y h)
      · rcases List.mem_cons.1 h with h | h
        · rw [h]
        · exact hpost y h

theorem generateSatelliteVerification_index (M : JSMath) (sim : SatelliteSimulator)
    (lat lng area : ℚ) (draws : Draws) (timestamp : String) :
    (SatelliteSimulator.generateSatelliteVerification M sim lat lng area draws
        timestamp).vegetationIndex =
      (SatelliteSimulator.calculateVegetationIndex
        (some (SatelliteSimulator.selectBaseData M sim lat lng draws 0).1) area draws
        (SatelliteSimulator.selectBaseData M sim lat lng draws 0).2).1 :=
  rfl

/-- C18 as stated fails on the code. The simulator holds five sites and none is stored
under the coordinates (0, 0). For that target, whatever the `Math` functions and the
draws are and whatever tolerance is taken, when every site is farther away than the
tolerance the base record is still one of the five sites, farther away than the
tolerance, and the index returned is the one computed from that site; the default
baseline is not used. -/
theorem nearest_site_used_beyond_tolerance :
    sampleSimulator.vegetationData.length = 5 ∧
    mapGet (0, 0) sampleSimulator.vegetationData = none ∧
    ∀ (M : JSMath) (tolerance : ℚ) (draws : Draws),
      (∀ y ∈ mapValues sampleSimulator.vegetationData,
        tolerance < SatelliteSimulator.calculateDistance M 0 0 y.lat y.lng) →
      ∃ d ∈ mapValues sampleSimulator.vegetationData,
        (SatelliteSimulator.selectBaseData M sampleSimulator 0 0 draws 0).1 = BaseData.site d ∧
        tolerance < SatelliteSimulator.calculateDistance M 0 0 d.lat d.lng ∧
        (SatelliteSimulator.generateSatelliteVerification M sampleSimulator 0 0 1 draws
            "2025-09-11T00:00:00.000Z").vegetationIndex =
          (SatelliteSimulator.calculateVegetationIndex (some (BaseData.site d)) 1 draws 0).1 := by
  refine ⟨sampleSimulator_length, ?_, ?_⟩
  · norm_num [sampleSimulator, SatelliteSimulator.new, SatelliteSimulator.initializeSampleData,
      SatelliteSimulator.sampleRegions, mapSet, mapGet, List.find?]
  · intro M tolerance draws hfar
    obtain ⟨d, hd, hsel, -⟩ := selectBaseData_site M sampleSimulator 0 0 draws 0
      sampleSimulator_ne_nil
    refine ⟨d, hd, by rw [hsel], hfar d hd, ?_⟩
    rw [generateSatelliteVerification_index, hsel]

/-- C18, amended. The lookup has no tolerance. With a non-empty map
`generateSatelliteVerification` computes the index from the value stored under the
target's coordinates or, when there is none, from a value no farther from the target
than any other, however far that is; it computes the index from the default record,
whose baseline is 70 plus twenty times the first draw, only when the map is empty. -/
theorem oracle_uses_stored_or_nearest_site (M : JSMath) (sim : SatelliteSimulator)
    (lat lng area : ℚ) (draws : Draws) (timestamp : String) :
    (sim.vegetationData ≠ [] →
      ∃ d ∈ mapValues sim.vegetationData,
        (mapGet (lat, lng) sim.vegetationData = some d ∨
          (mapGet (lat, lng) sim.vegetationData = none ∧
            ∀ y ∈ mapValues sim.vegetationData,
              SatelliteSimulator.calculateDistance M lat lng d.lat d.lng ≤
                SatelliteSimulator.calculateDistance M lat lng y.lat y.lng)) ∧
        (SatelliteSimulator.generateSatelliteVerification M sim lat lng area draws
            timestamp).vegetationIndex =
          (SatelliteSimulator.calculateVegetationIndex (some (BaseData.site d)) area draws 0).1) ∧
    (sim.vegetationData = [] →
      (SatelliteSimulator.generateSatelliteVerification M sim lat lng area draws
          timestamp).vegetationIndex =
        (SatelliteSimulator.calculateVegetationIndex
          (some (BaseData.fallback (70 + draws 0 * 20))) area draws 1).1) := by
  constructor
  · intro hne
    obtain ⟨d, hd, hsel, hwhich⟩ := selectBaseData_site M sim lat lng draws 0 hne
    refine ⟨d, hd, hwhich, ?_⟩
    rw [generateSatelliteVerification_index, hsel]
  · intro hempty
    rw [generateSatelliteVerification_index]
    simp [SatelliteSimulator.selectBaseData, SatelliteSimulator.findClosestRegion, mapGet,
      mapValues, hempty, SatelliteSimulator.closestLoop]

/-! ## Dependence on the draws (C19) -/

/-- The base record depends on the draws through the next draw only, and advances the
draw counter by at most one. -/
theorem selectBaseData_congr (M : JSMath) (sim : SatelliteSimulator) (lat lng : ℚ)
    (d₁ d₂ : Draws) (next : Nat) (h : d₁ next = d₂ next) :
    SatelliteSimulator.selectBaseData M sim lat lng d₁ next =
      SatelliteSimulator.selectBaseData M sim lat lng d₂ next ∧
    (SatelliteSimulator.selectBaseData M sim lat lng d₁ next).2 ≤ next + 1 := by
  unfold SatelliteSimulator.selectBaseData
  cases mapGet (lat, lng) sim.vegetationData with
  | some d => exact ⟨rfl, Nat.le_succ _⟩
  | none =>
    simp only [SatelliteSimulator.findClosestRegion]
    cases SatelliteSimulator.closestLoop
        (fun data => SatelliteSimulator.calculateDistance M lat lng data.lat data.lng)
        (mapValues sim.vegetationData) none none with
    | some c => exact ⟨rfl, Nat.le_succ _⟩
    | none => exact ⟨by rw [h], le_refl _⟩

/-- The vegetation index depends on the draws through the next two draws only, and
advances the draw counter by at most two. -/
theorem calculateVegetationIndex_congr (baseData : Option BaseData) (area : ℚ)
    (d₁ d₂ : Draws) (next : Nat) (h0 : d₁ next = d₂ next) (h1 : d₁ (next + 1) = d₂ (next + 1)) :
    SatelliteSimulator.calculateVegetationIndex baseData area d₁ next =
      SatelliteSimulator.calculateVegetationIndex baseData area d₂ next ∧
    (SatelliteSimulator.calculateVegetationIndex baseData area d₁ next).2 ≤ next + 2 := by
  constructor
  · simp only [SatelliteSimulator.calculateVegetationIndex, h0, h1]
  · simp only [SatelliteSimulator.calculateVegetationIndex]
    split
    · exact le_refl _
    · split
      · exact le_refl _
      · exact Nat.le_succ _

/-- The change detection depends on the draws through the next three draws only, and
advances the draw counter by at most three. -/
theorem detectChanges_congr (d₁ d₂ : Draws) (next : Nat) (h0 : d₁ next = d₂ next)
    (h1 : d₁ (next + 1) = d₂ (next + 1)) (h2 : d₁ (next + 2) = d₂ (next + 2)) :
    SatelliteSimulator.detectChanges d₁ next = SatelliteSimulator.detectChanges d₂ next ∧
    (SatelliteSimulator.detectChanges d₁ next).2 ≤ next + 3 := by
  constructor
  · simp only [SatelliteSimulator.detectChanges, h0, h1, h2]
  · simp only [SatelliteSimulator.detectChanges]
    cases SatelliteSimulator.detectLoop (d₁ next) SatelliteSimulator.changeTypes
        SatelliteSimulator.weights 0 with
    | some t => exact le_refl _
    | none =>
      show next + 1 ≤ next + 3
      omega

/-- C19. `generateSatelliteVerification` makes at most eight draws. Two runs on the same
latitude, longitude and area whose sequences of draws agree on the first eight return
the same vegetation index, the same confidence, the same change detection (type,
confidence, changed area, description) and the same imagery data, at whatever times the
two runs are made. -/
theorem generateSatelliteVerification_deterministic (M : JSMath) (sim : SatelliteSimulator)
    (lat lng area : ℚ) (d₁ d₂ : Draws) (timestamp₁ timestamp₂ : String)
    (h : ∀ i, i < 8 → d₁ i = d₂ i) :
    (SatelliteSimulator.generateSatelliteVerification M sim lat lng area d₁
        timestamp₁).vegetationIndex =
      (SatelliteSimulator.generateSatelliteVerification M sim lat lng area d₂
        timestamp₂).vegetationIndex ∧
    (SatelliteSimulator.generateSatelliteVerification M sim lat lng area d₁
        timestamp₁).confidence =
      (SatelliteSimulator.generateSatelliteVerification M sim lat lng area d₂
        timestamp₂).confidence ∧
    (SatelliteSimulator.generateSatelliteVerification M sim lat lng area d₁
        timestamp₁).changeDetection =
      (SatelliteSimulator.generateSatelliteVerification M sim lat lng area d₂
        timestamp₂).changeDetection ∧
    (SatelliteSimulator.generateSatelliteVerification M sim lat lng area d₁
        timestamp₁).imagery =
      (SatelliteSimulator.generateSatelliteVerification M sim lat lng area d₂
        timestamp₂).imagery := by
  obtain ⟨hbase, hb⟩ := selectBaseData_congr M sim lat lng d₁ d₂ 0 (h 0 (by norm_num))
  obtain ⟨hindex, hi⟩ := calculateVegetationIndex_congr
    (some (SatelliteSimulator.selectBaseData M sim lat lng d₁ 0).1) area d₁ d₂
    (SatelliteSimulator.selectBaseData M sim lat lng d₁ 0).2
    (h _ (by omega)) (h _ (by omega))
  obtain ⟨hchange, hc⟩ := detectChanges_congr d₁ d₂
    (SatelliteSimulator.calculateVegetationIndex
      (some (SatelliteSimulator.selectBaseData M sim lat lng d₁ 0).1) area d₁
      (SatelliteSimulator.selectBaseData M sim lat lng d₁ 0).2).2
    (h _ (by omega)) (h _ (by omega)) (h _ (by omega))
  have hcloud := h (SatelliteSimulator.detectChanges d₁
    (SatelliteSimulator.calculateVegetationIndex
      (some (SatelliteSimulator.selectBaseData M sim lat lng d₁ 0).1) area d₁
      (SatelliteSimulator.selectBaseData M sim lat lng d₁ 0).2).2).2 (by omega)
  have hdate := h ((SatelliteSimulator.detectChanges d₁
    (SatelliteSimulator.calculateVegetationIndex
      (some (SatelliteSimulator.selectBaseData M sim lat lng d₁ 0).1) area d₁
      (SatelliteSimulator.selectBaseData M sim lat lng d₁ 0).2).2).2 + 1) (by omega)
  simp only [SatelliteSimulator.generateSatelliteVerification]
  rw [hcloud, hdate, hchange, hindex, hbase]
  exact ⟨rfl, rfl, rfl, rfl⟩

/-- Witness for C19: a sequence of draws that are all one half and a sequence that is one
half for eight draws and zero afterwards differ at the ninth draw and give the same
result, whatever the `Math` functions are. -/
theorem generateSatelliteVerification_deterministic_witness :
    halfDraws 8 ≠ eightHalfDraws 8 ∧
    ∀ M : JSMath,
      (SatelliteSimulator.generateSatelliteVerification M sampleSimulator 0 0 1 halfDraws
          "2025-09-11T00:00:00.000Z").vegetationIndex =
        (SatelliteSimulator.generateSatelliteVerification M sampleSimulator 0 0 1 eightHalfDraws
          "2025-09-12T00:00:00.000Z").vegetationIndex ∧
      (SatelliteSimulator.generateSatelliteVerification M sampleSimulator 0 0 1 halfDraws
          "2025-09-11T00:00:00.000Z").confidence =
        (SatelliteSimulator.generateSatelliteVerification M sampleSimulator 0 0 1 eightHalfDraws
          "2025-09-12T00:00:00.000Z").confidence ∧
      (SatelliteSimulator.generateSatelliteVerification M sampleSimulator 0 0 1 halfDraws
          "2025-09-11T00:00:00.000Z").changeDetection =
        (SatelliteSimulator.generateSatelliteVerification M sampleSimulator 0 0 1 eightHalfDraws
          "2025-09-12T00:00:00.000Z").changeDetection ∧
      (SatelliteSimulator.generateSatelliteVerification M sampleSimulator 0 0 1 halfDraws
          "2025-09-11T00:00:00.000Z").imagery =
        (SatelliteSimulator.generateSatelliteVerification M sampleSimulator 0 0 1 eightHalfDraws
          "2025-09-12T00:00:00.000Z").imagery :=
  ⟨by norm_num [halfDraws, eightHalfDraws],
    fun M => generateSatelliteVerification_deterministic M sampleSimulator 0 0 1 halfDraws
      eightHalfDraws "2025-09-11T00:00:00.000Z" "2025-09-12T00:00:00.000Z"
      (fun i hi => by simp [halfDraws, eightHalfDraws, hi])⟩

/-! ## Marketplace listing (C21) -/

theorem map_updateFirst_of_eq {α β : Type} (g : α → β) (p : α → Bool) (f : α → α)
    (h : ∀ x, g (f x) = g x) (l : List α) : (updateFirst p f l).map g = l.map g := by
  induction l with
  | nil => rfl
  | cons x xs ih =>
    by_cases hx : p x = true
    · simp [updateFirst, hx, h x]
    · simp only [Bool.not_eq_true] at hx
      simp [updateFirst, hx, ih]

theorem map_updateAt_of_eq {α β : Type} (g : α → β) (f : α → α) (h : ∀ x, g (f x) = g x) :
    ∀ (i : Nat) (l : List α), (updateAt f i l).map g = l.map g := by
  intro i l
  induction l generalizing i with
  | nil => cases i <;> rfl
  | cons x xs ih =>
    cases i with
    | zero => simp [updateAt, h x]
    | succ i => simp [updateAt, ih i]

theorem settlePurchase_ratings (st : State) (ngoId : String) (quantity : Int) :
    (settlePurchase st ngoId quantity).1.ngos.map NGO.rating = st.ngos.map NGO.rating := by
  unfold settlePurchase
  cases creditBuyer st quantity with
  | none =>
    refine map_updateFirst_of_eq NGO.rating _ _ ?_ st.ngos
    intro x
    rfl
  | some companies =>
    refine map_updateFirst_of_eq NGO.rating _ _ ?_ st.ngos
    intro x
    rfl

theorem resumePurchase_ratings (st : State) (ngoId : String) (quantity : Int) (web3 : Web3Call) :
    (resumePurchase st ngoId quantity web3).1.ngos.map NGO.rating = st.ngos.map NGO.rating := by
  cases web3 with
  | unavailable => exact settlePurchase_ratings st ngoId quantity
  | returns transactionHash => exact settlePurchase_ratings st ngoId quantity
  | throws message => rfl

theorem purchaseCredits_ratings (st : State) (ngoId : String) (quantityInput : Option String)
    (confirmed : Bool) (web3 : Web3Call) :
    (purchaseCredits st ngoId quantityInput confirmed web3).1.ngos.map NGO.rating =
      st.ngos.map NGO.rating := by
  unfold purchaseCredits
  cases validatePurchase st ngoId quantityInput confirmed with
  | error outcome => rfl
  | ok quantity => exact resumePurchase_ratings st ngoId quantity web3

theorem purchaseCreditsInterleaved_ratings (st : State) (ngoId : String)
    (first second : PurchaseCall) :
    (purchaseCreditsInterleaved st ngoId first second).1.ngos.map NGO.rating =
      st.ngos.map NGO.rating := by
  unfold purchaseCreditsInterleaved
  cases validatePurchase st ngoId first.quantityInput first.confirmed with
  | error outcome₁ => exact purchaseCredits_ratings st ngoId _ _ _
  | ok quantity₁ =>
    cases hfirst : first.web3 with
    | unavailable =>
      simp only
      rw [purchaseCredits_ratings, settlePurchase_ratings]
    | returns transactionHash =>
      simp only
      cases validatePurchase st ngoId second.quantityInput second.confirmed with
      | error outcome₂ => exact resumePurchase_ratings st ngoId quantity₁ _
      | ok quantity₂ =>
        cases second.web3 with
        | unavailable =>
          simp only
          rw [resumePurchase_ratings, settlePurchase_ratings]
        | returns transactionHash₂ =>
          simp only
          rw [resumePurchase_ratings, resumePurchase_ratings]
        | throws message₂ =>
          simp only
          rw [resumePurchase_ratings, resumePurchase_ratings]
    | throws message =>
      simp only
      cases validatePurchase st ngoId second.quantityInput second.confirmed with
      | error outcome₂ => exact resumePurchase_ratings st ngoId quantity₁ _
      | ok quantity₂ =>
        cases second.web3 with
        | unavailable =>
          simp only
          rw [resumePurchase_ratings, settlePurchase_ratings]
        | returns transactionHash₂ =>
          simp only
          rw [resumePurchase_ratings, resumePurchase_ratings]
        | throws message₂ =>
          simp only
          rw [resumePurchase_ratings, resumePurchase_ratings]

theorem updateCreditPrice_ratings (st : State) (priceInput : Option String) :
    (updateCreditPrice st priceInput).1.ngos.map NGO.rating = st.ngos.map NGO.rating := by
  unfold updateCreditPrice
  cases priceInput with
  | none => cases st.currentUser <;> rfl
  | some value =>
    cases st.currentUser with
    | none => rfl
    | some user =>
      simp only
      split
      · rfl
      · cases user.data with
        | undefined => rfl
        | ngo i =>
          refine (map_updateFirst_of_eq NGO.rating _ _ ?_ _).trans
            (map_updateAt_of_eq NGO.rating _ ?_ i st.ngos)
          · intro x
            rfl
          · intro x
            rfl
        | company i =>
          refine map_updateFirst_of_eq NGO.rating _ _ ?_ st.ngos
          intro x
          rfl
        | government i =>
          refine map_updateFirst_of_eq NGO.rating _ _ ?_ st.ngos
          intro x
          rfl

theorem approveProject_ratings (st : State) (projectId : String)
    (satelliteSimulator : Option ℚ) (web3 : Web3Call) (today : String) :
    (approveProject st projectId satelliteSimulator web3 today).1.ngos.map NGO.rating =
      st.ngos.map NGO.rating := by
  rcases approveProject_ngos_shape st projectId satelliteSimulator web3 today with h | ⟨i, a, h⟩
  · rw [h]
  · rw [h]
    refine map_updateFirst_of_eq NGO.rating _ _ ?_ st.ngos
    intro x
    rfl

theorem submitNewProject_ngos (st : State) (form : ProjectForm) (now : Nat) (today : String)
    (web3 : Web3Call) : (submitNewProject st form now today web3).1.ngos = st.ngos := by
  unfold submitNewProject
  cases st.currentUser with
  | none => rfl
  | some user => cases web3 <;> rfl

theorem rejectProject_ngos (st : State) (projectId : String) (confirmed : Bool) :
    (rejectProject st projectId confirmed).1.ngos = st.ngos := by
  unfold rejectProject
  cases st.projects.find? (fun p => p.id == projectId) with
  | none => rfl
  | some found => cases confirmed <;> rfl

/-- No function of the application adds an NGO or writes a rating: every reachable state
holds one NGO, rated 4.8. -/
theorem ratings_of_reachableApp (st : State) (h : ReachableApp st) :
    st.ngos.map NGO.rating = [4.8] := by
  induction h with
  | init => rfl
  | login st userType email password _ ih => rw [handleLogin_ngos]; exact ih
  | logout st _ ih => exact ih
  | submit st form now today web3 _ ih => rw [submitNewProject_ngos]; exact ih
  | approve st projectId satelliteSimulator web3 today _ ih =>
    rw [approveProject_ratings]; exact ih
  | reject st projectId confirmed _ ih => rw [rejectProject_ngos]; exact ih
  | purchase st ngoId quantityInput confirmed web3 _ ih =>
    rw [purchaseCredits_ratings]; exact ih
  | purchaseInterleaved st ngoId first second _ ih =>
    rw [purchaseCreditsInterleaved_ratings]; exact ih
  | updatePrice st priceInput _ ih => rw [updateCreditPrice_ratings]; exact ih

/-- The card template does not throw for a rating of 4.8. -/
theorem cardThrows_sample_rating (ngo : NGO) (h : ngo.rating = 4.8) : cardThrows ngo = false := by
  unfold cardThrows
  rw [h, toDouble_rating_sample]
  have hfloor : ⌊(5404319552844595 : ℚ) / 2 ^ 50⌋ = 4 := by norm_num [Int.floor_eq_iff]
  rw [hfloor]
  decide

/-- C21. In every state the application reaches, `loadMarketplace` writes a listing that
holds exactly the NGOs with `available_credits > 0`, ordered by rating descending and,
at equal rating, by price ascending. The code does not sort: the order holds because the
application never holds more than one NGO, so a listing has at most one card. -/
theorem loadMarketplace_lists_available_in_order (st : State) (h : ReachableApp st) :
    ∃ view : MarketplaceView,
      loadMarketplace st true = Except.ok (some view) ∧
      (∀ ngo, ngo ∈ view.listings ↔ ngo ∈ st.ngos ∧ 0 < ngo.available_credits) ∧
      List.Pairwise listedBefore view.listings ∧
      view.listings.length ≤ 1 := by
  have hr := ratings_of_reachableApp st h
  obtain ⟨ngo, hngos, hrating⟩ : ∃ ngo, st.ngos = [ngo] ∧ ngo.rating = 4.8 := by
    cases hl : st.ngos with
    | nil => rw [hl] at hr; simp at hr
    | cons x xs =>
      rw [hl] at hr
      simp only [List.map_cons, List.cons.injEq, List.map_eq_nil_iff] at hr
      exact ⟨x, by rw [hr.2], hr.1⟩
  by_cases hav : 0 < ngo.available_credits
  · have havail : availableNGOs st = [ngo] := by
      simp [availableNGOs, hngos, hav]
    refine ⟨MarketplaceView.cards [ngo], ?_, ?_, ?_, ?_⟩
    · simp [loadMarketplace, havail, cardThrows_sample_rating ngo hrating]
    · intro n
      simp only [MarketplaceView.listings, hngos, List.mem_singleton]
      constructor
      · intro hn
        subst hn
        exact ⟨rfl, hav⟩
      · intro hn
        exact hn.1
    · exact List.pairwise_singleton _ _
    · simp [MarketplaceView.listings]
  · have havail : availableNGOs st = [] := by
      simp [availableNGOs, hngos, hav]
    refine ⟨MarketplaceView.emptyState, ?_, ?_, ?_, ?_⟩
    · simp [loadMarketplace, havail]
    · intro n
      simp only [MarketplaceView.listings, hngos, List.mem_singleton, List.not_mem_nil,
        false_iff, not_and]
      intro hn
      subst hn
      exact hav
    · exact List.Pairwise.nil
    · simp [MarketplaceView.listings]

/-- Witness for C21: the state after the demo company has bought 30 of the 45 credits
lists the sample NGO alone. -/
theorem loadMarketplace_lists_available_in_order_witness :
    ∃ view : MarketplaceView,
      loadMarketplace (purchaseCredits companySession "NGO001" (some "30") true
          Web3Call.unavailable).1 true = Except.ok (some view) ∧
      (∀ ngo, ngo ∈ view.listings ↔
        ngo ∈ (purchaseCredits companySession "NGO001" (some "30") true
          Web3Call.unavailable).1.ngos ∧ 0 < ngo.available_credits) ∧
      List.Pairwise listedBefore view.listings ∧
      view.listings.length ≤ 1 :=
  loadMarketplace_lists_available_in_order _
    (ReachableApp.purchase _ "NGO001" (some "30") true Web3Call.unavailable
      (ReachableApp.login _ "company" "company@demo.com" "demo123" ReachableApp.init))

/-! ## Approval that fails at the wallet step (C22) -/

/-- C22, evaluated on the code. The project the demo NGO registered has survival rate 0
and no credits. `approveProject` with oracle index 85 and a wallet call that throws ends
in the error message, and the project then has survival rate 85 and 44 credits; its
status, its verification date and the NGO's balances are as before. -/
theorem failed_approval_keeps_assessment :
    (submittedState.projects.find? (fun p => p.id == "PRJ1757500000000")).map
        (fun p => (p.survival_rate, p.carbon_credits, p.status, p.verified_date)) =
      some (0, 0, Status.registered, none) ∧
    (approveProject submittedState "PRJ1757500000000" (some 85)
        (Web3Call.throws "Contract not initialized") "2025-09-11").2 =
      Outcome.error "Failed to approve project: Contract not initialized" ∧
    ((approveProject submittedState "PRJ1757500000000" (some 85)
        (Web3Call.throws "Contract not initialized") "2025-09-11").1.projects.find?
        (fun p => p.id == "PRJ1757500000000")).map
        (fun p => (p.survival_rate, p.carbon_credits, p.status, p.verified_date)) =
      some (85, 44, Status.registered, none) ∧
    (approveProject submittedState "PRJ1757500000000" (some 85)
        (Web3Call.throws "Contract not initialized") "2025-09-11").1.ngos =
      submittedState.ngos := by
  refine ⟨?_, ?_, ?_, ?_⟩
  · simp [submittedState, submitNewProject, ngoSession, handleLogin, demoCredentials,
      lookupData, findIndex, sampleState, initializeSampleData, emptyState, sampleProject,
      sampleNGO, projectData, sampleForm, orZero, List.find?, submitted_project_id]
  · simp [approveProject, submittedState, submitNewProject, ngoSession, handleLogin,
      demoCredentials, lookupData, findIndex, sampleState, initializeSampleData, emptyState,
      sampleProject, sampleNGO, projectData, sampleForm, orZero, List.find?,
      submitted_project_id]
  · simp [approveProject, submittedState, submitNewProject, ngoSession, handleLogin,
      demoCredentials, lookupData, findIndex, sampleState, initializeSampleData, emptyState,
      sampleProject, sampleNGO, projectData, sampleForm, orZero, assessProject, updateFirst,
      List.find?, submitted_project_id, floor_sample_credits]
  · simp [approveProject, submittedState, submitNewProject, ngoSession, handleLogin,
      demoCredentials, lookupData, findIndex, sampleState, initializeSampleData, emptyState,
      sampleProject, sampleNGO, projectData, sampleForm, orZero, List.find?,
      submitted_project_id]

/-! ## Rejection (C23) -/

/-- C23. A confirmed `rejectProject` on a project that exists replaces the first project
with that id by a copy whose status is `rejected`, every other field kept; every other
project, every NGO and every company stay as they were. -/
theorem rejectProject_only_sets_status (st : State) (projectId : String) (project : Project)
    (hfind : st.projects.find? (fun p => p.id == projectId) = some project) :
    ∃ pre post,
      st.projects = pre ++ project :: post ∧ (∀ p ∈ pre, p.id ≠ projectId) ∧
      (rejectProject st projectId true).1.projects =
        pre ++ { project with status := Status.rejected } :: post ∧
      (rejectProject st projectId true).1.ngos = st.ngos ∧
      (rejectProject st projectId true).1.companies = st.companies ∧
      (rejectProject st projectId true).2 = Outcome.success "Project Rejected" none := by
  have hres : rejectProject st projectId true =
      ({ st with
          projects := updateFirst (fun p => p.id == projectId)
            (fun q => { q with status := Status.rejected }) st.projects },
        Outcome.success "Project Rejected" none) := by
    simp only [rejectProject, hfind, if_true]
  rw [hres]
  rcases updateFirst_split (fun p : Project => p.id == projectId)
      (fun project => { project with status := Status.rejected }) st.projects with
    ⟨-, hnone, -⟩ | ⟨pre, x, post, h1, h2, -, h4, h5⟩
  · rw [hfind] at hnone
    cases hnone
  · rw [hfind] at h4
    cases h4
    refine ⟨pre, post, h1, ?_, h5, rfl, rfl, rfl⟩
    intro p hp
    have := h2 p hp
    simpa using this

/-- Witness for C23: rejecting the sample project `PRJ001`. -/
theorem rejectProject_only_sets_status_witness :
    ∃ pre post,
      sampleState.projects = pre ++ sampleProject :: post ∧ (∀ p ∈ pre, p.id ≠ "PRJ001") ∧
      (rejectProject sampleState "PRJ001" true).1.projects =
        pre ++ { sampleProject with status := Status.rejected } :: post ∧
      (rejectProject sampleState "PRJ001" true).1.ngos = sampleState.ngos ∧
      (rejectProject sampleState "PRJ001" true).1.companies = sampleState.companies ∧
      (rejectProject sampleState "PRJ001" true).2 = Outcome.success "Project Rejected" none :=
  rejectProject_only_sets_status sampleState "PRJ001" sampleProject
    sampleState_find_sampleProject

/-! ## Retirement (C24) -/

/-- C24. Retiring an amount `n` from a holder that holds `h` credits succeeds exactly
when `0 < n ≤ h`, and then the held balance is lower by `n` and the retired counter
higher by `n`. With 10 credits held, retiring 10 leaves 0 held and adds 10 to the
counter, and a following retirement of 1 fails with `InsufficientBalance`. The two
`retireCredits` methods of the wallet layer pass the call and its failure through. -/
theorem retire_within_held (holder : HolderAccount) (amount : Int) :
    ((∃ after, retire holder amount = Except.ok after) ↔ 0 < amount ∧ amount ≤ holder.held) ∧
    (0 < amount ∧ amount ≤ holder.held →
      retire holder amount =
        Except.ok { holder with held := holder.held - amount
                                retired := holder.retired + amount }) ∧
    retire { held := 10, retired := holder.retired, target := holder.target } 10 =
      Except.ok { held := 0, retired := holder.retired + 10, target := holder.target } ∧
    retire { held := 0, retired := holder.retired + 10, target := holder.target } 1 =
      Except.error LedgerError.InsufficientBalance ∧
    (∀ account : String,
      LocalWeb3Manager.retireCredits true true (some account) holder amount =
        match retire holder amount with
        | Except.ok after => Except.ok after
        | Except.error error => Except.error (RetireFailure.reverted error)) := by
  refine ⟨?_, ?_, ?_, ?_, ?_⟩
  · constructor
    · rintro ⟨after, h⟩
      unfold retire at h
      split at h
      · cases h
      · split at h
        · cases h
        · constructor <;> omega
    · rintro ⟨h1, h2⟩
      have c1 : ¬ amount ≤ 0 := by omega
      have c2 : ¬ amount > holder.held := by omega
      refine ⟨{ holder with held := holder.held - amount
                            retired := holder.retired + amount }, ?_⟩
      simp only [retire, c1, c2, if_false]
  · rintro ⟨h1, h2⟩
    have c1 : ¬ amount ≤ 0 := by omega
    have c2 : ¬ amount > holder.held := by omega
    simp only [retire, c1, c2, if_false]
  · simp [retire]
  · simp [retire]
  · intro account
    simp only [LocalWeb3Manager.retireCredits, BlockchainUtils.retireCredits, if_true,
      Bool.not_true, Bool.false_eq_true, if_false]

/-! ## Credits stored by a successful approval (C25) -/

/-- What a call of `approveProject` whose wallet step does not throw stores in the
project: the assessment, with status `verified`. -/
theorem approveProject_stored (st : State) (projectId : String) (project : Project)
    (satelliteSimulator : Option ℚ) (web3 : Web3Call) (today : String)
    (hfind : st.projects.find? (fun p => p.id == projectId) = some project)
    (hw : ∀ message, web3 ≠ Web3Call.throws message) :
    ∃ stored : Project,
      (approveProject st projectId satelliteSimulator web3 today).1.projects.find?
          (fun p => p.id == projectId) = some stored ∧
      stored.survival_rate = (assessProject project satelliteSimulator).survival_rate ∧
      stored.carbon_credits = (assessProject project satelliteSimulator).carbon_credits ∧
      stored.area = project.area ∧ stored.status = Status.verified ∧
      (approveProject st projectId satelliteSimulator web3 today).2 =
        Outcome.success "Project Approved!" (some stored.carbon_credits) := by
  have hid : (project.id == projectId) = true := by
    have := List.find?_some hfind
    simpa using this
  have harea : (assessProject project satelliteSimulator).area = project.area := by
    cases satelliteSimulator <;> rfl
  cases web3 with
  | unavailable =>
    refine ⟨{ assessProject project satelliteSimulator with
              status := Status.verified, verified_date := some today }, ?_, rfl, rfl, harea, rfl, ?_⟩
    · simp only [approveProject, hfind]
      rw [find?_updateFirst _ _ (fun _ _ => by simpa [assessProject_id] using hid), hfind]
      rfl
    · simp only [approveProject, hfind]
  | returns transactionHash =>
    refine ⟨{ assessProject project satelliteSimulator with
              mintTxHash := some transactionHash
              status := Status.verified, verified_date := some today }, ?_, rfl, rfl, harea, rfl, ?_⟩
    · simp only [approveProject, hfind]
      rw [find?_updateFirst _ _ (fun _ _ => by simpa [assessProject_id] using hid), hfind]
      rfl
    · simp only [approveProject, hfind]
  | throws message => exact absurd rfl (hw message)

/-- C25 as stated fails on the code. With no satellite simulator, approving the 5.2
hectare project the demo NGO registered succeeds and stores survival rate 85 with 52
credits, while `floor(5.2 * 10 * 85 / 100)` is 44. -/
theorem default_branch_stores_full_rate :
    (approveProject submittedState "PRJ1757500000000" none Web3Call.unavailable
        "2025-09-11").2 = Outcome.success "Project Approved!" (some 52) ∧
    ((approveProject submittedState "PRJ1757500000000" none Web3Call.unavailable
        "2025-09-11").1.projects.find? (fun p => p.id == "PRJ1757500000000")).map
        (fun p => (p.area, p.survival_rate, p.carbon_credits)) = some (5.2, 85, 52) ∧
    ⌊(5.2 : ℚ) * 10 * 85 / 100⌋ = 44 := by
  refine ⟨?_, ?_, by norm_num [Int.floor_eq_iff]⟩
  · simp [approveProject, submittedState, submitNewProject, ngoSession, handleLogin,
      demoCredentials, lookupData, findIndex, sampleState, initializeSampleData, emptyState,
      sampleProject, sampleNGO, projectData, sampleForm, orZero, assessProject, List.find?,
      submitted_project_id, floor_sample_expected]
  · simp [approveProject, submittedState, submitNewProject, ngoSession, handleLogin,
      demoCredentials, lookupData, findIndex, sampleState, initializeSampleData, emptyState,
      sampleProject, sampleNGO, projectData, sampleForm, orZero, assessProject, updateFirst,
      List.find?, submitted_project_id, floor_sample_expected]

/-- C25, amended. After an `approveProject` call that finds the project and whose wallet
step does not throw, the stored credits are the floor of a product computed in doubles.
When the satellite simulator is present and returns index `s`, the stored
`survival_rate` is `s` and the stored `carbon_credits` are
`Math.floor(area * 10 * (survival_rate / 100))`; when the simulator is absent, the stored
`survival_rate` is 85 and the stored `carbon_credits` are `Math.floor(area * 10)`,
without the survival-rate factor. For an area from 0 to `10 ^ 9` hectares and an index
from 0 to 100, the credits of the first branch differ from
`floor(area * 10 * survival_rate / 100)` by at most one. -/
theorem approveProject_credits_by_branch (st : State) (projectId : String) (project : Project)
    (satelliteSimulator : Option ℚ) (web3 : Web3Call) (today : String)
    (hfind : st.projects.find? (fun p => p.id == projectId) = some project)
    (hw : ∀ message, web3 ≠ Web3Call.throws message) :
    ∃ stored : Project,
      (approveProject st projectId satelliteSimulator web3 today).1.projects.find?
          (fun p => p.id == projectId) = some stored ∧
      (approveProject st projectId satelliteSimulator web3 today).2 =
        Outcome.success "Project Approved!" (some stored.carbon_credits) ∧
      (∀ s, satelliteSimulator = some s →
        stored.survival_rate = s ∧
        stored.carbon_credits =
          ⌊toDouble (toDouble (toDouble stored.area * 10) *
            toDouble (toDouble stored.survival_rate / 100))⌋ ∧
        (0 ≤ stored.area → stored.area ≤ 10 ^ 9 → 0 ≤ s → s ≤ 100 →
          ⌊stored.area * 10 * stored.survival_rate / 100⌋ - 1 ≤ stored.carbon_credits ∧
          stored.carbon_credits ≤ ⌊stored.area * 10 * stored.survival_rate / 100⌋ + 1)) ∧
      (satelliteSimulator = none →
        stored.survival_rate = 85 ∧
        stored.carbon_credits = ⌊toDouble (toDouble stored.area * 10)⌋) := by
  obtain ⟨stored, h1, h2, h3, h4, -, h6⟩ :=
    approveProject_stored st projectId project satelliteSimulator web3 today hfind hw
  refine ⟨stored, h1, h6, ?_, ?_⟩
  · intro s hs
    subst hs
    have hcredits : stored.carbon_credits =
        ⌊toDouble (toDouble (toDouble stored.area * 10) *
          toDouble (toDouble stored.survival_rate / 100))⌋ := by
      rw [h3, h2, h4]
      rfl
    refine ⟨h2, hcredits, ?_⟩
    intro ha0 ha1 hs0 hs1
    have hs : stored.survival_rate = s := h2
    have herr := toDouble_credits_error stored.area s ha0 ha1 hs0 hs1
    rw [hcredits, hs]
    rw [abs_le] at herr
    have hsmall : (1 : ℚ) / 2 ^ 15 ≤ 1 := by norm_num
    constructor
    · have h : stored.area * 10 * s / 100 - 1 ≤
          toDouble (toDouble (toDouble stored.area * 10) * toDouble (toDouble s / 100)) := by
        linarith
      have := Int.floor_le_floor h
      rwa [Int.floor_sub_one] at this
    · have h : toDouble (toDouble (toDouble stored.area * 10) * toDouble (toDouble s / 100)) ≤
          stored.area * 10 * s / 100 + 1 := by
        linarith
      have := Int.floor_le_floor h
      rwa [Int.floor_add_one] at this
  · intro hs
    subst hs
    refine ⟨h2, ?_⟩
    rw [h3, h4]
    rfl

/-- Witness for C25: the sample project approved with index 85 and without a wallet
holds survival rate 85 and the floor of the double product, which is within one of
`floor(5.2 * 10 * 85 / 100)`. -/
theorem approveProject_credits_by_branch_witness :
    ∃ stored : Project,
      (approveProject sampleState "PRJ001" (some 85) Web3Call.unavailable
          "2025-09-11").1.projects.find? (fun p => p.id == "PRJ001") = some stored ∧
      stored.survival_rate = 85 ∧
      stored.carbon_credits =
        ⌊toDouble (toDouble (toDouble stored.area * 10) *
          toDouble (toDouble stored.survival_rate / 100))⌋ := by
  obtain ⟨stored, h1, -, h3, -⟩ :=
    approveProject_credits_by_branch sampleState "PRJ001" sampleProject (some 85)
      Web3Call.unavailable "2025-09-11" sampleState_find_sampleProject (by simp)
  exact ⟨stored, h1, (h3 85 rfl).1, (h3 85 rfl).2.1⟩

/-! ## Area factor (C26) -/

/-- C26. The area factor `max(0.9, 1 - 0.02 * area)` that `calculateVegetationIndex`
multiplies into the index is non-increasing in the area and lies between 0.9 and 1 for
every area that is not negative. -/
theorem areaFactor_discounts_larger_areas :
    (∀ a1 a2 : ℚ, a1 ≤ a2 → areaFactor a2 ≤ areaFactor a1) ∧
    (∀ area : ℚ, 0 ≤ area → 0.9 ≤ areaFactor area ∧ areaFactor area ≤ 1) ∧
    (∀ (baseData : Option BaseData) (area : ℚ) (draws : Draws) (next : Nat),
      SatelliteSimulator.calculateVegetationIndex baseData area draws next =
        let baseIndex : ℚ :=
          match baseData with
          | some base => if base.vegetationIndex = 0 then 75 else base.vegetationIndex
          | none => 75
        let randomFactor : ℚ := 0.95 + draws next * 0.1
        let trended : ℚ × Nat :=
          if baseData.map BaseData.trend = some "increasing" then
            (baseIndex + draws (next + 1) * 5, next + 2)
          else if baseData.map BaseData.trend = some "decreasing" then
            (baseIndex - draws (next + 1) * 3, next + 2)
          else (baseIndex, next + 1)
        (max 50 (min 95 (SatelliteSimulator.mathRound
          (trended.1 * areaFactor area * randomFactor))), trended.2)) := by
  refine ⟨?_, ?_, ?_⟩
  · intro a1 a2 h
    unfold areaFactor
    exact max_le_max le_rfl (by linarith)
  · intro area h
    unfold areaFactor
    exact ⟨le_max_left _ _, max_le (by norm_num) (by linarith)⟩
  · intro baseData area draws next
    rfl

/-! ## Credits of the sample project (C27) -/

/-- C27 as stated fails on the code. The one project of the initial state is verified
with area 5.2, survival rate 85 and 52 credits, while `floor(5.2 * 10 * 85 / 100)`, the
credits of `approveProject` for that area and survival rate, is 44. -/
theorem sample_project_credits_exceed_assessment :
    sampleProject ∈ sampleState.projects ∧ sampleProject.status = Status.verified ∧
    sampleProject.carbon_credits = 52 ∧
    ⌊sampleProject.area * 10 * sampleProject.survival_rate / 100⌋ = 44 ∧
    (assessProject sampleProject (some sampleProject.survival_rate)).carbon_credits = 44 := by
  refine ⟨by simp [sampleState_projects], rfl, rfl, ?_, ?_⟩
  · norm_num [sampleProject, Int.floor_eq_iff]
  · show ⌊toDouble (toDouble (toDouble 5.2 * 10) * toDouble (toDouble 85 / 100))⌋ = 44
    exact floor_sample_credits

/-- C27, amended. In the initial state every verified project has survival rate 85 and
`carbon_credits` equal to `floor(area * 10)`, the values that `approveProject` stores
when the satellite simulator is absent. -/
theorem sample_verified_credits_are_default (project : Project)
    (hmem : project ∈ sampleState.projects) (hstatus : project.status = Status.verified) :
    project.survival_rate = 85 ∧ project.carbon_credits = ⌊project.area * 10⌋ ∧
    (assessProject project none).survival_rate = project.survival_rate ∧
    (assessProject project none).carbon_credits = project.carbon_credits := by
  rw [sampleState_projects, List.mem_singleton] at hmem
  subst hmem
  have h52 : ⌊sampleProject.area * 10⌋ = 52 := by
    norm_num [sampleProject, Int.floor_eq_iff]
  refine ⟨rfl, h52.symm, rfl, ?_⟩
  show ⌊toDouble (toDouble 5.2 * 10)⌋ = 52
  exact floor_sample_expected

/-- Witness for C27: the sample project. -/
theorem sample_verified_credits_are_default_witness :
    sampleProject ∈ sampleState.projects ∧ sampleProject.status = Status.verified ∧
    sampleProject.survival_rate = 85 ∧
    sampleProject.carbon_credits = ⌊sampleProject.area * 10⌋ :=
  have h := sample_verified_credits_are_default sampleProject
    (by simp [sampleState_projects]) rfl
  ⟨by simp [sampleState_projects], rfl, h.1, h.2.1⟩

/-! ## Expected credits (C28) -/

/-- C28. For a project whose area is not negative and a vegetation index `s` between 50
and 95, the credits `Math.floor(area * 10 * (s / 100))` that `approveProject` stores are
at most the "Expected Credits" `Math.floor(area * 10)` of the verification queue, both
computed in doubles as the code computes them. The lower bound 50 on the index plays no
part, so the statement does not assume it. -/
theorem expectedCredits_bounds_minted (project : Project) (s : ℚ)
    (harea : 0 ≤ project.area) (hhigh : s ≤ 95) :
    (assessProject project (some s)).carbon_credits ≤ expectedCredits project :=
  toDouble_credits_le_expected project.area s harea hhigh

/-- Witness for C28: the sample project with index 85, where 44 is at most 52. -/
theorem expectedCredits_bounds_minted_witness :
    0 ≤ sampleProject.area ∧
    (assessProject sampleProject (some 85)).carbon_credits ≤ expectedCredits sampleProject :=
  ⟨le_of_lt sampleProject_area_pos,
   expectedCredits_bounds_minted sampleProject 85 (le_of_lt sampleProject_area_pos)
     (by norm_num)⟩

/-! ## Area encoding (C29) -/

/-- C29 as stated fails on the code. For the area 9050.355 the product `area * 100` is
rounded to the double 905035.5, `Math.round` sends 905036, and the decoded area
`905036 / 100` lies `1374389535 / 2 ^ 38`, about 0.005000000001, above the double of
9050.355: more than 0.005. -/
theorem area_decoding_exceeds_half_hundredth :
    areaHectaresSent 9050.355 = 905036 ∧
    areaDecoded 905036 - toDouble 9050.355 = 1374389535 / 2 ^ 38 ∧
    (0.005 : ℚ) < 1374389535 / 2 ^ 38 := by
  refine ⟨?_, ?_, by norm_num⟩
  · unfold areaHectaresSent SatelliteSimulator.mathRound
    rw [toDouble_area_9050, toDouble_area_9050_times_100]
    norm_num [Int.floor_eq_iff]
  · unfold areaDecoded
    rw [toDouble_905036, toDouble_905036_over_100, toDouble_area_9050]
    norm_num

/-- C29, amended. Areas are doubles and every step of the encoding is rounded to a
double. For an area that is the double of `k / 100`, with `k` a natural number up to
`10 ^ 11`, decoding the integer `Math.round(area * 100)` that `registerProject` sends, by
the division by 100 of `getAllProjects`, gives back that double. For every area from 0
to `10 ^ 9` hectares the decoded value differs from the double of the area by at most
`0.005 + 10 ^ (-6)`. -/
theorem area_encoding_round_trips :
    (∀ k : Nat, (k : ℚ) ≤ 10 ^ 11 →
      areaDecoded (areaHectaresSent ((k : ℚ) / 100)) = toDouble ((k : ℚ) / 100)) ∧
    (∀ area : ℚ, 0 ≤ area → area ≤ 10 ^ 9 →
      |areaDecoded (areaHectaresSent area) - toDouble area| ≤ 0.005 + 1 / 10 ^ 6) ∧
    areaDecoded (areaHectaresSent 5.2) = toDouble 5.2 := by
  refine ⟨?_, ?_, ?_⟩
  · intro k hk
    exact toDouble_area_round_trip k hk
  · intro area ha0 ha1
    have h := toDouble_area_decoded_error area ha0 ha1
    have h5 : (0.005 : ℚ) = 5 / 1000 := by norm_num
    rw [h5]
    exact h
  · have h := toDouble_area_round_trip 520 (by norm_num)
    have h52 : ((520 : Nat) : ℚ) / 100 = 5.2 := by norm_num
    rw [h52] at h
    exact h

/-! ## Site validation (C30) -/

/-- The first element of an array satisfying `p` is what `find` returns. -/
theorem find?_first {α : Type} (p : α → Bool) (before : List α) (x : α) (after : List α)
    (hbefore : ∀ y ∈ before, p y = false) (hx : p x = true) :
    (before ++ x :: after).find? p = some x := by
  induction before with
  | nil => simp [List.find?, hx]
  | cons y ys ih =>
    have hy : p y = false := hbefore y (List.mem_cons_self y ys)
    simp only [List.cons_append, List.find?, hy]
    exact ih (fun z hz => hbefore z (List.mem_cons_of_mem y hz))

theorem isCoastalLocation_iff (lat lng : ℚ) :
    SatelliteSimulator.isCoastalLocation lat lng = true ↔
      (8 ≤ lat ∧ lat ≤ 23 ∧ 68 ≤ lng ∧ lng ≤ 88) ∨
      (8 ≤ lat ∧ lat ≤ 22 ∧ 80 ≤ lng ∧ lng ≤ 95) := by
  simp [SatelliteSimulator.isCoastalLocation, SatelliteSimulator.coastalRanges, and_assoc]

/-- C30. `validateRestorationSite` returns `valid = false` exactly when the location is
farther than the radius from each of the four known sites and outside both coastal
boxes; when some known site is within its radius, the result has `valid = true`,
suitability `high` and the name of the first such site of the list. -/
theorem validateRestorationSite_valid (M : JSMath) (latitude longitude : ℚ) :
    SatelliteSimulator.knownSites.length = 4 ∧
    ((SatelliteSimulator.validateRestorationSite M latitude longitude).valid = false ↔
      (∀ site ∈ SatelliteSimulator.knownSites,
        site.radius <
          SatelliteSimulator.calculateDistance M latitude longitude site.lat site.lng) ∧
      SatelliteSimulator.isCoastalLocation latitude longitude = false ∧
      ¬ (8 ≤ latitude ∧ latitude ≤ 23 ∧ 68 ≤ longitude ∧ longitude ≤ 88) ∧
      ¬ (8 ≤ latitude ∧ latitude ≤ 22 ∧ 80 ≤ longitude ∧ longitude ≤ 95)) ∧
    (∀ before site after, SatelliteSimulator.knownSites = before ++ site :: after →
      (∀ earlier ∈ before, earlier.radius <
        SatelliteSimulator.calculateDistance M latitude longitude earlier.lat earlier.lng) →
      SatelliteSimulator.calculateDistance M latitude longitude site.lat site.lng
        ≤ site.radius →
      (SatelliteSimulator.validateRestorationSite M latitude longitude).valid = true ∧
      (SatelliteSimulator.validateRestorationSite M latitude longitude).suitability = "high" ∧
      (SatelliteSimulator.validateRestorationSite M latitude longitude).site = site.name) := by
  refine ⟨rfl, ?_, ?_⟩
  · have hcoast : SatelliteSimulator.isCoastalLocation latitude longitude = false ↔
        ¬ (8 ≤ latitude ∧ latitude ≤ 23 ∧ 68 ≤ longitude ∧ longitude ≤ 88) ∧
        ¬ (8 ≤ latitude ∧ latitude ≤ 22 ∧ 80 ≤ longitude ∧ longitude ≤ 95) := by
      rw [← Bool.not_eq_true, isCoastalLocation_iff, not_or]
    cases hfind : SatelliteSimulator.knownSites.find? (fun site =>
        decide (SatelliteSimulator.calculateDistance M latitude longitude site.lat site.lng
          ≤ site.radius)) with
    | none =>
      have hall : ∀ site ∈ SatelliteSimulator.knownSites, site.radius <
          SatelliteSimulator.calculateDistance M latitude longitude site.lat site.lng := by
        intro site hsite
        have := List.find?_eq_none.mp hfind site hsite
        simpa using this
      have hvalid : (SatelliteSimulator.validateRestorationSite M latitude longitude).valid
          = SatelliteSimulator.isCoastalLocation latitude longitude := by
        simp only [SatelliteSimulator.validateRestorationSite, hfind]
      rw [hvalid]
      constructor
      · intro h
        exact ⟨hall, h, hcoast.mp h⟩
      · intro h
        exact h.2.1
    | some site =>
      have hvalid : (SatelliteSimulator.validateRestorationSite M latitude longitude).valid
          = true := by
        simp only [SatelliteSimulator.validateRestorationSite, hfind]
      rw [hvalid]
      constructor
      · intro h
        cases h
      · intro h
        have hmem := List.mem_of_find?_eq_some hfind
        have hp := List.find?_some hfind
        have hlt := h.1 site hmem
        simp only [decide_eq_true_eq] at hp
        exact absurd hp (not_le.mpr hlt)
  · intro before site after hsplit hbefore hsite
    have hfind : SatelliteSimulator.knownSites.find? (fun site =>
        decide (SatelliteSimulator.calculateDistance M latitude longitude site.lat site.lng
          ≤ site.radius)) = some site := by
      rw [hsplit]
      apply find?_first
      · intro y hy
        simpa using hbefore y hy
      · simpa using hsite
    simp only [SatelliteSimulator.validateRestorationSite, hfind, and_self]

end BlueTrust
